import Mathlib

/-!
Verification of the GeoCachingBlockchain chaincode (Hyperledger Fabric smart
contract, Go).  The development shallowly embeds the current contract source
(`GeoCacheContract` with its `myHash` key-stretching helper and the CRUD /
geofencing / trackable-exchange / report operations) and proves the spec's
claims about it.

Modelling conventions, matching the source:
* Go strings and byte slices are byte sequences; both are modelled as
  `List Nat` (`Str`), with every byte below 256 where it matters.
* The Fabric world state is an opaque key/value store.  `GetState` returns
  bytes or nil, and can fail; we model a state function `Str → Option StoredVal`
  plus a `readErr` predicate marking the keys on which `GetState` errors,
  exactly the shape of the `MockStub` in the repository's own test suite
  (which also makes `PutState`/`DelState` always succeed, as we do).
* Stored bytes either unmarshal to a `GeoCache` (bytes produced by
  `json.Marshal` on a record, which `json.Unmarshal` round-trips) or they do
  not (arbitrary other bytes, like `"some value"` in the tests); `StoredVal`
  distinguishes the two.
* The random values the Go code draws from `math/rand`
  (`generateRandomString`: the owner salt, the trackable id, the report id)
  are passed as explicit arguments, as the spec's design notes direct.
-/

set_option maxRecDepth 8000

/-- Go strings and byte slices are byte sequences; we model both as lists of bytes. -/
abbrev Str := List Nat

/-! ## SHA-1 (Go `crypto/sha1`) and hex encoding (Go `encoding/hex`) -/

/-- 2^32, the modulus for 32-bit words. -/
def M32 : Nat := 4294967296

/-- Rotate a 32-bit word left by `b` bits. -/
def rotl (b x : Nat) : Nat := ((x <<< b) % M32) ||| (x >>> (32 - b))

/-- Big-endian 32-bit words from bytes (groups of four). -/
def bytesToWords : List Nat → List Nat
  | b0 :: b1 :: b2 :: b3 :: rest =>
      ((((b0 <<< 8) ||| b1) <<< 8 ||| b2) <<< 8 ||| b3) :: bytesToWords rest
  | _ => []

/-- Zero bytes after the 0x80 marker so the padded length is 56 mod 64. -/
def padZeroCount (l : Nat) : Nat := (119 - l % 64) % 64

/-- The 8-byte big-endian encoding of the message bit length. -/
def lenBytes (l : Nat) : List Nat :=
  [((8 * l) >>> 56) % 256, ((8 * l) >>> 48) % 256, ((8 * l) >>> 40) % 256,
   ((8 * l) >>> 32) % 256, ((8 * l) >>> 24) % 256, ((8 * l) >>> 16) % 256,
   ((8 * l) >>> 8) % 256, (8 * l) % 256]

/-- SHA-1 padding: 0x80, zeros, then the 64-bit big-endian bit length. -/
def padMsg (m : List Nat) : List Nat :=
  m ++ 128 :: (List.replicate (padZeroCount m.length) 0 ++ lenBytes m.length)

/-- The five-word SHA-1 chaining state. -/
abbrev S5 := Nat × Nat × Nat × Nat × Nat

/-- Extend a reversed 16-word block to a reversed 80-word schedule. -/
def extendSchedule : List Nat → Nat → List Nat
  | acc, 0 => acc
  | acc, k + 1 =>
      extendSchedule
        (rotl 1 ((acc.getD 2 0) ^^^ (acc.getD 7 0) ^^^ (acc.getD 13 0) ^^^ (acc.getD 15 0))
          :: acc) k

/-- The 80-word message schedule of a 16-word block. -/
def schedule (block : List Nat) : List Nat := (extendSchedule block.reverse 64).reverse

/-- SHA-1 round function and round constant for round `i`. -/
def fk (i b c d : Nat) : Nat × Nat :=
  if i < 20 then ((b &&& c) ||| ((b ^^^ 4294967295) &&& d), 1518500249)
  else if i < 40 then (b ^^^ c ^^^ d, 1859775393)
  else if i < 60 then ((b &&& c) ||| (b &&& d) ||| (c &&& d), 2400959708)
  else (b ^^^ c ^^^ d, 3395469782)

/-- Run the 80 SHA-1 rounds over the message schedule. -/
def rounds : Nat → List Nat → S5 → S5
  | _, [], st => st
  | i, w :: ws, (a, b, c, d, e) =>
      rounds (i + 1) ws
        (((rotl 5 a) + (fk i b c d).1 + e + (fk i b c d).2 + w) % M32, a, rotl 30 b, c, d)

/-- One SHA-1 compression: run the rounds and add into the chaining state. -/
def compress (st : S5) (block : List Nat) : S5 :=
  ((st.1 + (rounds 0 (schedule block) st).1) % M32,
   (st.2.1 + (rounds 0 (schedule block) st).2.1) % M32,
   (st.2.2.1 + (rounds 0 (schedule block) st).2.2.1) % M32,
   (st.2.2.2.1 + (rounds 0 (schedule block) st).2.2.2.1) % M32,
   (st.2.2.2.2 + (rounds 0 (schedule block) st).2.2.2.2) % M32)

/-- Big-endian bytes of a 32-bit word. -/
def wordBytes (w : Nat) : List Nat :=
  [(w >>> 24) % 256, (w >>> 16) % 256, (w >>> 8) % 256, w % 256]

/-- The SHA-1 digest (20 bytes) of a byte string: Go `h := sha1.New();
h.Write([]byte(s)); h.Sum(nil)`. -/
def sha1digest (m : List Nat) : List Nat :=
  let words := bytesToWords (padMsg m)
  let h := (List.range (words.length / 16)).foldl
    (fun st i => compress st ((words.drop (16 * i)).take 16))
    (1732584193, 4023233417, 2562383102, 271733878, 3285377520)
  wordBytes h.1 ++ wordBytes h.2.1 ++ wordBytes h.2.2.1 ++ wordBytes h.2.2.2.1 ++
    wordBytes h.2.2.2.2

/-- `hashLoop s k` applies `sha1digest` to its own previous output `k` times. -/
def hashLoop : List Nat → Nat → List Nat
  | s, 0 => s
  | s, k + 1 => hashLoop (sha1digest s) k

/-- Lowercase hex digit, as Go `encoding/hex` ("0123456789abcdef"). -/
def hexDigitByte (n : Nat) : Nat := if n < 10 then 48 + n else 87 + n

/-- Go `hex.EncodeToString`: two lowercase hex digits per byte. -/
def hexEncode : List Nat → List Nat
  | [] => []
  | b :: rest => hexDigitByte (b >>> 4) :: hexDigitByte (b &&& 15) :: hexEncode rest

/-- The contract's key-stretching hash (`myHash` in the source): Go sets
`n := 1` and runs `for n < 100 { s = sha1(s); n++ }`, so the body executes for
`n = 1, …, 99`, i.e. `100 - 1` times, and the result is hex-encoded. -/
def myHash (s : Str) : Str := hexEncode (hashLoop s (100 - 1))

/-! ## Data model (struct definitions of the contract) -/

/-- The `User` struct.  The current source accesses `user.Salt` (in
`CreateGeoCache` and every ownership check) and the test suite constructs
users with `Id`, `Name` and `Salt`, so the persisted identity carries all
three fields. -/
structure User where
  Id : Str
  Name : Str
  Salt : Str
deriving DecidableEq

/-- The `Trackable` struct: an exchangeable token. -/
structure Trackable where
  Id : Str
  Value : Str
deriving DecidableEq

/-- The `Report` struct. -/
structure Report where
  Id : Str
  Message : Str
  Notifier : User
deriving DecidableEq

/-- The `GeoCache` struct.  `new(GeoCache)` zero-initialises every field; the
`Id` field is never assigned by the contract and stays empty. -/
structure GeoCache where
  Id : Str
  Name : Str
  Description : Str
  XcoordRange : Int × Int
  YcoordRange : Int × Int
  Owner : User
  Reports : List Report
  Visitors : List User
  Trackable : Trackable
deriving DecidableEq

/-- Bytes stored in the world state: either the `json.Marshal` image of a
`GeoCache` (which `json.Unmarshal` round-trips) or any other byte string
(like `"some value"` in the repository's tests), which does not unmarshal. -/
inductive StoredVal where
  | geo (g : GeoCache)
  | raw (b : Str)
deriving DecidableEq

/-- Go `json.Unmarshal(bytes, geoCache)`: succeeds exactly on marshalled
records. -/
def unmarshalGeoCache : StoredVal → Option GeoCache
  | .geo g => some g
  | .raw _ => none

/-- The world state visible through the stub: the value under each key
(`none` = absent) and the set of keys on which `GetState` fails, mirroring
the `MockStub` of the repository's test suite (whose `PutState` and
`DelState` always succeed). -/
structure World where
  state : Str → Option StoredVal
  readErr : Str → Bool

/-- Go `ctx.GetStub().GetState(key)`: an error, or the stored bytes
(`none` for absent). -/
def getStateW (w : World) (k : Str) : Except Unit (Option StoredVal) :=
  if w.readErr k then .error () else .ok (w.state k)

/-- The contract re-reads state discarding the error: `bytes, _ := GetState`. -/
def getStateBytes (w : World) (k : Str) : Option StoredVal :=
  match getStateW w k with
  | .error _ => none
  | .ok d => d

/-- Go `ctx.GetStub().PutState(key, bytes)` (always succeeds, as in the
repository's mock stub). -/
def putStateW (w : World) (k : Str) (v : StoredVal) : World :=
  { w with state := fun q => if q = k then some v else w.state q }

/-- Go `ctx.GetStub().DelState(key)` (always succeeds, as in the mock stub). -/
def delStateW (w : World) (k : Str) : World :=
  { w with state := fun q => if q = k then none else w.state q }

/-- One constructor per distinct `fmt.Errorf` message of the contract. -/
inductive CErr where
  | couldNotRead
  | alreadyExists (id : Str)
  | doesNotExist (id : Str)
  | unmarshalFailed
  | onlyOwnerUpdate
  | onlyOwnerGetReports
  | notInRange
deriving DecidableEq

/-! ## Contract operations (from the current contract source) -/

/-- `GeoCacheExists`: true when `GetState` returns a value; propagates read
errors. -/
def GeoCacheExists (w : World) (geoCacheID : Str) : Except Unit Bool :=
  match getStateW w geoCacheID with
  | .error e => .error e
  | .ok data => .ok data.isSome

/-- `CreateGeoCache`: rejects live keys, then builds the record: owner =
caller with a fresh `salt` and `Id` overwritten by the commitment
`myHash(user.Id + salt)`, empty report and visitor logs, and a trackable
with a fresh id and the supplied value.  `salt` and `trackableId` stand for
the two `generateRandomString()` draws. -/
def CreateGeoCache (w : World) (user : User) (geoCacheID name description : Str)
    (newXcoordRange newYcoordRange : Int × Int) (trackableValue : Str)
    (salt trackableId : Str) : Except CErr Unit × World :=
  match GeoCacheExists w geoCacheID with
  | .error _ => (.error .couldNotRead, w)
  | .ok true => (.error (.alreadyExists geoCacheID), w)
  | .ok false =>
      let g : GeoCache :=
        { Id := []
          Name := name
          Description := description
          XcoordRange := newXcoordRange
          YcoordRange := newYcoordRange
          Owner := { Id := myHash (user.Id ++ salt), Name := user.Name, Salt := salt }
          Reports := []
          Visitors := []
          Trackable := { Id := trackableId, Value := trackableValue } }
      (.ok (), putStateW w geoCacheID (.geo g))

/-- `ReadGeoCache`: no authorization check; returns the parsed record. -/
def ReadGeoCache (w : World) (geoCacheId : Str) : Except CErr GeoCache :=
  match GeoCacheExists w geoCacheId with
  | .error _ => .error .couldNotRead
  | .ok false => .error (.doesNotExist geoCacheId)
  | .ok true =>
      match getStateBytes w geoCacheId with
      | none => .error .unmarshalFailed
      | some sv =>
          match unmarshalGeoCache sv with
          | none => .error .unmarshalFailed
          | some g => .ok g

/-- `UpdateGeoCache`: existence check, ownership gate
(`geoCache.Owner.Id != myHash(user.Id + geoCache.Owner.Salt)` rejects), then
overwrites `Name` and `Description` and rewrites the record. -/
def UpdateGeoCache (w : World) (user : User) (geoCacheId newName newDescription : Str) :
    Except CErr Unit × World :=
  match GeoCacheExists w geoCacheId with
  | .error _ => (.error .couldNotRead, w)
  | .ok false => (.error (.doesNotExist geoCacheId), w)
  | .ok true =>
      match getStateBytes w geoCacheId with
      | none => (.error .unmarshalFailed, w)
      | some sv =>
          match unmarshalGeoCache sv with
          | none => (.error .unmarshalFailed, w)
          | some g =>
              if g.Owner.Id ≠ myHash (user.Id ++ g.Owner.Salt) then
                (.error .onlyOwnerUpdate, w)
              else
                (.ok (), putStateW w geoCacheId
                  (.geo { g with Name := newName, Description := newDescription }))

/-- `AddVisitorToGeoCache`: existence check, then the geofence
`Xin := Xcoord > xRange[0] && Xcoord < xRange[1]` (and likewise `Yin`); if
`!Xin || !Yin` the caller is out of range, otherwise the caller is appended
to the visitor log. -/
def AddVisitorToGeoCache (w : World) (user : User) (geoCacheId : Str)
    (Xcoord Ycoord : Int) : Except CErr Unit × World :=
  match GeoCacheExists w geoCacheId with
  | .error _ => (.error .couldNotRead, w)
  | .ok false => (.error (.doesNotExist geoCacheId), w)
  | .ok true =>
      match getStateBytes w geoCacheId with
      | none => (.error .unmarshalFailed, w)
      | some sv =>
          match unmarshalGeoCache sv with
          | none => (.error .unmarshalFailed, w)
          | some g =>
              let Xin : Bool :=
                decide (g.XcoordRange.1 < Xcoord) && decide (Xcoord < g.XcoordRange.2)
              let Yin : Bool :=
                decide (g.YcoordRange.1 < Ycoord) && decide (Ycoord < g.YcoordRange.2)
              if !Xin || !Yin then (.error .notInRange, w)
              else
                (.ok (), putStateW w geoCacheId
                  (.geo { g with Visitors := g.Visitors ++ [user] }))

/-- `SwitchTrackable`: no ownership check; stores the supplied trackable and
returns the one previously held by the cache. -/
def SwitchTrackable (w : World) (trackable : Trackable) (geoCacheId : Str) :
    Except CErr Trackable × World :=
  match GeoCacheExists w geoCacheId with
  | .error _ => (.error .couldNotRead, w)
  | .ok false => (.error (.doesNotExist geoCacheId), w)
  | .ok true =>
      match getStateBytes w geoCacheId with
      | none => (.error .unmarshalFailed, w)
      | some sv =>
          match unmarshalGeoCache sv with
          | none => (.error .unmarshalFailed, w)
          | some g =>
              (.ok g.Trackable,
               putStateW w geoCacheId (.geo { g with Trackable := trackable }))

/-- `UpdateCoordGeoCache`: same ownership gate as `UpdateGeoCache`, then
overwrites the two coordinate ranges. -/
def UpdateCoordGeoCache (w : World) (user : User) (geoCacheId : Str)
    (newXcoordRange newYcoordRange : Int × Int) : Except CErr Unit × World :=
  match GeoCacheExists w geoCacheId with
  | .error _ => (.error .couldNotRead, w)
  | .ok false => (.error (.doesNotExist geoCacheId), w)
  | .ok true =>
      match getStateBytes w geoCacheId with
      | none => (.error .unmarshalFailed, w)
      | some sv =>
          match unmarshalGeoCache sv with
          | none => (.error .unmarshalFailed, w)
          | some g =>
              if g.Owner.Id ≠ myHash (user.Id ++ g.Owner.Salt) then
                (.error .onlyOwnerUpdate, w)
              else
                (.ok (), putStateW w geoCacheId
                  (.geo { g with XcoordRange := newXcoordRange,
                                 YcoordRange := newYcoordRange }))

/-- `DeleteGeoCache`: same ownership gate, then `DelState`. -/
def DeleteGeoCache (w : World) (user : User) (geoCacheId : Str) :
    Except CErr Unit × World :=
  match GeoCacheExists w geoCacheId with
  | .error _ => (.error .couldNotRead, w)
  | .ok false => (.error (.doesNotExist geoCacheId), w)
  | .ok true =>
      match getStateBytes w geoCacheId with
      | none => (.error .unmarshalFailed, w)
      | some sv =>
          match unmarshalGeoCache sv with
          | none => (.error .unmarshalFailed, w)
          | some g =>
              if g.Owner.Id ≠ myHash (user.Id ++ g.Owner.Salt) then
                (.error .onlyOwnerUpdate, w)
              else
                (.ok (), delStateW w geoCacheId)

/-- `ReportGeoCache`: no ownership check; appends a new report (fresh id,
message, reporting user) to the record's report log.  `reportId` stands for
the `generateRandomString()` draw. -/
def ReportGeoCache (w : World) (user : User) (message geoCacheId : Str)
    (reportId : Str) : Except CErr Unit × World :=
  match GeoCacheExists w geoCacheId with
  | .error _ => (.error .couldNotRead, w)
  | .ok false => (.error (.doesNotExist geoCacheId), w)
  | .ok true =>
      match getStateBytes w geoCacheId with
      | none => (.error .unmarshalFailed, w)
      | some sv =>
          match unmarshalGeoCache sv with
          | none => (.error .unmarshalFailed, w)
          | some g =>
              (.ok (), putStateW w geoCacheId
                (.geo { g with Reports :=
                  g.Reports ++ [{ Id := reportId, Message := message, Notifier := user }] }))

/-- `GetReports`: ownership-gated read of the report log (the only gated op
whose rejection message differs: "Only the owner can get the reports!"). -/
def GetReports (w : World) (user : User) (geoCacheId : Str) :
    Except CErr (List Report) :=
  match GeoCacheExists w geoCacheId with
  | .error _ => .error .couldNotRead
  | .ok false => .error (.doesNotExist geoCacheId)
  | .ok true =>
      match getStateBytes w geoCacheId with
      | none => .error .unmarshalFailed
      | some sv =>
          match unmarshalGeoCache sv with
          | none => .error .unmarshalFailed
          | some g =>
              if g.Owner.Id ≠ myHash (user.Id ++ g.Owner.Salt) then
                .error .onlyOwnerGetReports
              else
                .ok g.Reports

/-! ## Derived definitions and concrete fixtures -/

/-- The commitment function as the spec words it: "applying a cryptographic
hash digest (SHA-1) to its own previous output 100 times total",
hex-encoded.  Stated only for comparison with the source's `myHash`. -/
def specCommit100 (s : Str) : Str := hexEncode (hashLoop s 100)

/-- A report submission: the reporting user, the message, and the fresh
report id drawn by the contract. -/
def mkReport (t : User × Str × Str) : Report :=
  { Id := t.2.2, Message := t.2.1, Notifier := t.1 }

/-- Run a sequence of `ReportGeoCache` calls against one key. -/
def applyReports (key : Str) : World → List (User × Str × Str) → World
  | w, [] => w
  | w, (u, msg, rid) :: rest => applyReports key (ReportGeoCache w u msg key rid).2 rest

/-- A world with no stored values and no read errors. -/
def emptyWorld : World := { state := fun _ => none, readErr := fun _ => false }

/-- Test key "key". -/
def kTest : Str := [107, 101, 121]

/-- Test user with raw id "123" (as in the repository's test suite). -/
def uA : User := { Id := [49, 50, 51], Name := [], Salt := [] }

/-- Test salt "123" (as in the repository's test suite). -/
def saltTest : Str := [49, 50, 51]

/-- A second raw id "124", differing from `uA`'s. -/
def uB : User := { Id := [49, 50, 52], Name := [], Salt := [] }

/-- The stored commitment of `uA`'s raw id under `saltTest`:
`myHash("123" + "123")`, as in the repository's test suite. -/
def commitTest : Str := myHash (uA.Id ++ saltTest)

/-- A stored record owned by the commitment of `uA`'s raw id under
`saltTest`, with coordinate ranges `[5,10] × [5,10]` and empty logs. -/
def gTest : GeoCache :=
  { Id := []
    Name := [110, 109]
    Description := [100, 115]
    XcoordRange := (5, 10)
    YcoordRange := (5, 10)
    Owner := { Id := commitTest, Name := [], Salt := saltTest }
    Reports := []
    Visitors := []
    Trackable := { Id := [116], Value := [118] } }

/-- A world holding exactly `gTest` under `kTest`. -/
def wTest : World :=
  { state := fun q => if q = kTest then some (.geo gTest) else none
    readErr := fun _ => false }

/-- Byte at index `i` of a byte string (0 beyond the end); used to compare
hash outputs positionally. -/
def nthByte : List Nat → Nat → Nat
  | [], _ => 0
  | b :: _, 0 => b
  | _ :: t, i + 1 => nthByte t i

/-! ## Theorems -/

/-- The test record's commitment re-derives from `uA`'s raw id and the
stored salt. -/
theorem gTest_owner_match : myHash (uA.Id ++ gTest.Owner.Salt) = gTest.Owner.Id := by
  rw [show gTest.Owner.Salt = saltTest from rfl, show gTest.Owner.Id = commitTest from rfl]
  with_unfolding_all rfl

/-- C8: for every key whose store read returns absent (no value, no error),
each of ReadGeoCache, UpdateGeoCache, UpdateCoordGeoCache, DeleteGeoCache,
ReportGeoCache, GetReports and AddVisitorToGeoCache fails with the
does-not-exist error for that key and performs no store write or delete. -/
theorem C8_absent_key_rejected (w : World) (k : Str)
    (hre : w.readErr k = false) (hs : w.state k = none) :
    (ReadGeoCache w k = .error (.doesNotExist k)) ∧
    (∀ u nm ds, UpdateGeoCache w u k nm ds = (.error (.doesNotExist k), w)) ∧
    (∀ u xr yr, UpdateCoordGeoCache w u k xr yr = (.error (.doesNotExist k), w)) ∧
    (∀ u, DeleteGeoCache w u k = (.error (.doesNotExist k), w)) ∧
    (∀ u msg rid, ReportGeoCache w u msg k rid = (.error (.doesNotExist k), w)) ∧
    (∀ u, GetReports w u k = .error (.doesNotExist k)) ∧
    (∀ u x y, AddVisitorToGeoCache w u k x y = (.error (.doesNotExist k), w)) := by
  refine ⟨?_, ?_, ?_, ?_, ?_, ?_, ?_⟩ <;>
    simp [ReadGeoCache, UpdateGeoCache, UpdateCoordGeoCache, DeleteGeoCache,
      ReportGeoCache, GetReports, AddVisitorToGeoCache, GeoCacheExists,
      getStateW, hre, hs]

/-- Witness for C8 at the empty world and the key "key". -/
theorem C8_absent_key_rejected_witness :
    (emptyWorld.readErr kTest = false ∧ emptyWorld.state kTest = none) ∧
    ((ReadGeoCache emptyWorld kTest = .error (.doesNotExist kTest)) ∧
     (∀ u nm ds, UpdateGeoCache emptyWorld u kTest nm ds =
        (.error (.doesNotExist kTest), emptyWorld)) ∧
     (∀ u xr yr, UpdateCoordGeoCache emptyWorld u kTest xr yr =
        (.error (.doesNotExist kTest), emptyWorld)) ∧
     (∀ u, DeleteGeoCache emptyWorld u kTest = (.error (.doesNotExist kTest), emptyWorld)) ∧
     (∀ u msg rid, ReportGeoCache emptyWorld u msg kTest rid =
        (.error (.doesNotExist kTest), emptyWorld)) ∧
     (∀ u, GetReports emptyWorld u kTest = .error (.doesNotExist kTest)) ∧
     (∀ u x y, AddVisitorToGeoCache emptyWorld u kTest x y =
        (.error (.doesNotExist kTest), emptyWorld))) :=
  ⟨⟨rfl, rfl⟩, C8_absent_key_rejected emptyWorld kTest rfl rfl⟩

/-- C5: for every key whose existence check returns true, CreateGeoCache
fails with the already-exists error and performs no store write, leaving the
record stored under that key byte-for-byte unchanged. -/
theorem C5_create_on_live_key (w : World) (k : Str)
    (hex : GeoCacheExists w k = .ok true) :
    ∀ u nm ds xr yr tv salt tid,
      CreateGeoCache w u k nm ds xr yr tv salt tid = (.error (.alreadyExists k), w) := by
  intro u nm ds xr yr tv salt tid
  simp [CreateGeoCache, hex]

/-- Witness for C5 at a world holding a record under "key". -/
theorem C5_create_on_live_key_witness :
    (GeoCacheExists wTest kTest = .ok true) ∧
    (∀ u nm ds xr yr tv salt tid,
      CreateGeoCache wTest u kTest nm ds xr yr tv salt tid =
        (.error (.alreadyExists kTest), wTest)) :=
  ⟨rfl, C5_create_on_live_key wTest kTest rfl⟩

/-- C2: for every existing record and caller position, AddVisitorToGeoCache
succeeds and appends exactly the caller to the end of the Visitors sequence
iff xRange[0] < x < xRange[1] and yRange[0] < y < yRange[1] with strict
inequalities on all four bounds; on a boundary or outside, it fails with the
out-of-range error and the stored record (so its Visitors sequence) is
unchanged. -/
theorem C2_geofence_strict (w : World) (k : Str) (g : GeoCache) (u : User) (x y : Int)
    (hre : w.readErr k = false) (hs : w.state k = some (.geo g)) :
    ((AddVisitorToGeoCache w u k x y).1 = .ok () ↔
      (g.XcoordRange.1 < x ∧ x < g.XcoordRange.2 ∧
       g.YcoordRange.1 < y ∧ y < g.YcoordRange.2)) ∧
    ((g.XcoordRange.1 < x ∧ x < g.XcoordRange.2 ∧
      g.YcoordRange.1 < y ∧ y < g.YcoordRange.2) →
      (AddVisitorToGeoCache w u k x y).2.state k =
        some (.geo { g with Visitors := g.Visitors ++ [u] }) ∧
      (∀ q, q ≠ k → (AddVisitorToGeoCache w u k x y).2.state q = w.state q)) ∧
    (¬ (g.XcoordRange.1 < x ∧ x < g.XcoordRange.2 ∧
        g.YcoordRange.1 < y ∧ y < g.YcoordRange.2) →
      AddVisitorToGeoCache w u k x y = (.error .notInRange, w)) := by
  by_cases hP : (g.XcoordRange.1 < x ∧ x < g.XcoordRange.2 ∧
      g.YcoordRange.1 < y ∧ y < g.YcoordRange.2)
  · refine ⟨?_, ?_, ?_⟩
    · simp [AddVisitorToGeoCache, GeoCacheExists, getStateW, getStateBytes,
        unmarshalGeoCache, hre, hs, hP.1, hP.2.1, hP.2.2.1, hP.2.2.2]
    · intro _
      constructor
      · simp [AddVisitorToGeoCache, GeoCacheExists, getStateW, getStateBytes,
          unmarshalGeoCache, putStateW, hre, hs, hP.1, hP.2.1, hP.2.2.1, hP.2.2.2]
      · intro q hq
        simp [AddVisitorToGeoCache, GeoCacheExists, getStateW, getStateBytes,
          unmarshalGeoCache, putStateW, hre, hs, hP.1, hP.2.1, hP.2.2.1, hP.2.2.2, hq]
    · intro hc; exact absurd hP hc
  · have hfail : AddVisitorToGeoCache w u k x y = (.error .notInRange, w) := by
      simp only [AddVisitorToGeoCache, GeoCacheExists, getStateW, getStateBytes,
        unmarshalGeoCache, hre, hs]
      have hb : (!(decide (g.XcoordRange.1 < x) && decide (x < g.XcoordRange.2)) ||
          !(decide (g.YcoordRange.1 < y) && decide (y < g.YcoordRange.2))) = true := by
        rcases not_and_or.mp hP with h | h
        · simp [h]
        · rcases not_and_or.mp (by tauto : ¬ (x < g.XcoordRange.2 ∧
            (g.YcoordRange.1 < y ∧ y < g.YcoordRange.2))) with h2 | h2
          · simp [h2]
          · rcases not_and_or.mp h2 with h3 | h3 <;> simp [h3]
      simp [hb]
      intro h1 h2 h3
      have h4 := fun h4 => hP ⟨h1, h2, h3, h4⟩
      omega
    refine ⟨?_, ?_, fun _ => hfail⟩
    · rw [hfail]; simp [hP]
    · intro hc; exact absurd hc hP

/-- Witness for C2: on ranges `[5,10] × [5,10]`, position `(6,6)` is admitted
and appended, while `(5,6)` is rejected with the out-of-range error and the
world is unchanged. -/
theorem C2_geofence_strict_witness :
    (wTest.readErr kTest = false ∧ wTest.state kTest = some (.geo gTest)) ∧
    ((AddVisitorToGeoCache wTest uB kTest 6 6).1 = .ok () ∧
     (AddVisitorToGeoCache wTest uB kTest 6 6).2.state kTest =
       some (.geo { gTest with Visitors := gTest.Visitors ++ [uB] })) ∧
    AddVisitorToGeoCache wTest uB kTest 5 6 = (.error .notInRange, wTest) := by
  have h6 := C2_geofence_strict wTest kTest gTest uB 6 6 rfl rfl
  have h5 := (C2_geofence_strict wTest kTest gTest uB 5 6 rfl rfl).2.2 (by decide)
  exact ⟨⟨rfl, rfl⟩,
    ⟨(h6.1).mpr (by decide), (h6.2.1 (by decide)).1⟩, h5⟩

/-- An `.ok` existence answer means `GetState` did not error on the key. -/
theorem geoCacheExists_ok_readErr (w : World) (k : Str) (b : Bool)
    (h : GeoCacheExists w k = .ok b) : w.readErr k = false := by
  by_cases hr : w.readErr k = true
  · simp [GeoCacheExists, getStateW, hr] at h
  · simpa using hr

/-- A caller outside the x-range is rejected by `AddVisitorToGeoCache` with
no state change. -/
theorem addVisitor_out_of_xrange (w : World) (k : Str) (g : GeoCache) (u : User)
    (x y : Int) (hre : w.readErr k = false) (hs : w.state k = some (.geo g))
    (hnx : ¬ (g.XcoordRange.1 < x ∧ x < g.XcoordRange.2)) :
    AddVisitorToGeoCache w u k x y = (.error .notInRange, w) := by
  simp only [AddVisitorToGeoCache, GeoCacheExists, getStateW, getStateBytes,
    unmarshalGeoCache, hre, hs]
  have hb : (!(decide (g.XcoordRange.1 < x) && decide (x < g.XcoordRange.2)) ||
      !(decide (g.YcoordRange.1 < y) && decide (y < g.YcoordRange.2))) = true := by
    rcases not_and_or.mp hnx with h | h <;> simp [h]
  simp [hb]
  intro h1 h2 _
  exact absurd ⟨h1, h2⟩ hnx

/-- C4: for every existing record, a successful owner call of UpdateGeoCache
changes only the Name and Description fields of the persisted record, and
UpdateCoordGeoCache changes only XcoordRange and YcoordRange; every other
field is written back unchanged, and no other key is touched. -/
theorem C4_update_frame (w : World) (k : Str) (g : GeoCache) (u : User)
    (nm ds : Str) (xr yr : Int × Int)
    (hre : w.readErr k = false) (hs : w.state k = some (.geo g))
    (hown : myHash (u.Id ++ g.Owner.Salt) = g.Owner.Id) :
    ((UpdateGeoCache w u k nm ds).1 = .ok () ∧
     (UpdateGeoCache w u k nm ds).2.state k =
       some (.geo { g with Name := nm, Description := ds }) ∧
     (∀ q, q ≠ k → (UpdateGeoCache w u k nm ds).2.state q = w.state q)) ∧
    ((UpdateCoordGeoCache w u k xr yr).1 = .ok () ∧
     (UpdateCoordGeoCache w u k xr yr).2.state k =
       some (.geo { g with XcoordRange := xr, YcoordRange := yr }) ∧
     (∀ q, q ≠ k → (UpdateCoordGeoCache w u k xr yr).2.state q = w.state q)) := by
  have hu : UpdateGeoCache w u k nm ds =
      (.ok (), putStateW w k (.geo { g with Name := nm, Description := ds })) := by
    simp [UpdateGeoCache, GeoCacheExists, getStateW, getStateBytes,
      unmarshalGeoCache, hre, hs, hown]
  have hc : UpdateCoordGeoCache w u k xr yr =
      (.ok (), putStateW w k (.geo { g with XcoordRange := xr, YcoordRange := yr })) := by
    simp [UpdateCoordGeoCache, GeoCacheExists, getStateW, getStateBytes,
      unmarshalGeoCache, hre, hs, hown]
  refine ⟨⟨by rw [hu], by rw [hu]; simp [putStateW],
           fun q hq => by rw [hu]; simp [putStateW, hq]⟩,
          ⟨by rw [hc], by rw [hc]; simp [putStateW],
           fun q hq => by rw [hc]; simp [putStateW, hq]⟩⟩

/-- Witness for C4: the owner `uA` updates the test record. -/
theorem C4_update_frame_witness :
    (wTest.readErr kTest = false ∧ wTest.state kTest = some (.geo gTest) ∧
     myHash (uA.Id ++ gTest.Owner.Salt) = gTest.Owner.Id) ∧
    ((UpdateGeoCache wTest uA kTest [110] [100]).1 = .ok () ∧
     (UpdateGeoCache wTest uA kTest [110] [100]).2.state kTest =
       some (.geo { gTest with Name := [110], Description := [100] })) ∧
    ((UpdateCoordGeoCache wTest uA kTest (0, 3) (0, 3)).1 = .ok () ∧
     (UpdateCoordGeoCache wTest uA kTest (0, 3) (0, 3)).2.state kTest =
       some (.geo { gTest with XcoordRange := (0, 3), YcoordRange := (0, 3) })) := by
  have h := C4_update_frame wTest kTest gTest uA [110] [100] (0, 3) (0, 3) rfl rfl gTest_owner_match
  exact ⟨⟨rfl, rfl, gTest_owner_match⟩, ⟨h.1.1, h.1.2.1⟩, ⟨h.2.1, h.2.2.1⟩⟩

/-- C6: for every existing record storing trackable T0, SwitchTrackable with
T1 returns T0 and leaves the record storing T1 with every other field
unchanged; a second SwitchTrackable with T0 returns T1 and restores the
original record. -/
theorem C6_switch_trackable_roundtrip (w : World) (k : Str) (g : GeoCache)
    (t1 : Trackable) (hre : w.readErr k = false) (hs : w.state k = some (.geo g)) :
    ((SwitchTrackable w t1 k).1 = .ok g.Trackable ∧
     (SwitchTrackable w t1 k).2.state k = some (.geo { g with Trackable := t1 }) ∧
     (∀ q, q ≠ k → (SwitchTrackable w t1 k).2.state q = w.state q)) ∧
    ((SwitchTrackable (SwitchTrackable w t1 k).2 g.Trackable k).1 = .ok t1 ∧
     (SwitchTrackable (SwitchTrackable w t1 k).2 g.Trackable k).2.state k =
       some (.geo g)) := by
  have h1 : SwitchTrackable w t1 k =
      (.ok g.Trackable, putStateW w k (.geo { g with Trackable := t1 })) := by
    simp [SwitchTrackable, GeoCacheExists, getStateW, getStateBytes,
      unmarshalGeoCache, hre, hs]
  have h2 : SwitchTrackable (putStateW w k (.geo { g with Trackable := t1 }))
      g.Trackable k =
      (.ok t1, putStateW (putStateW w k (.geo { g with Trackable := t1 })) k
        (.geo g)) := by
    simp [SwitchTrackable, GeoCacheExists, getStateW, getStateBytes,
      unmarshalGeoCache, putStateW, hre]
  refine ⟨⟨?_, ?_, ?_⟩, ?_, ?_⟩
  · rw [h1]
  · rw [h1]; simp [putStateW]
  · intro q hq; rw [h1]; simp [putStateW, hq]
  · rw [h1, h2]
  · rw [h1, h2]; simp [putStateW]

/-- Witness for C6 on the test record. -/
theorem C6_switch_trackable_roundtrip_witness :
    (wTest.readErr kTest = false ∧ wTest.state kTest = some (.geo gTest)) ∧
    ((SwitchTrackable wTest { Id := [122], Value := [119] } kTest).1 =
       .ok gTest.Trackable ∧
     (SwitchTrackable (SwitchTrackable wTest { Id := [122], Value := [119] } kTest).2
        gTest.Trackable kTest).2.state kTest = some (.geo gTest)) := by
  have h := C6_switch_trackable_roundtrip wTest kTest gTest
    { Id := [122], Value := [119] } rfl rfl
  exact ⟨⟨rfl, rfl⟩, h.1.1, h.2.2⟩

/-- C9: a successful owner DeleteGeoCache removes the key, GeoCacheExists is
false afterwards, and a second DeleteGeoCache fails with the does-not-exist
error. -/
theorem C9_delete_lifecycle (w : World) (k : Str) (g : GeoCache) (u : User)
    (hre : w.readErr k = false) (hs : w.state k = some (.geo g))
    (hown : myHash (u.Id ++ g.Owner.Salt) = g.Owner.Id) :
    (DeleteGeoCache w u k).1 = .ok () ∧
    (DeleteGeoCache w u k).2.state k = none ∧
    (∀ q, q ≠ k → (DeleteGeoCache w u k).2.state q = w.state q) ∧
    GeoCacheExists (DeleteGeoCache w u k).2 k = .ok false ∧
    (∀ u2, DeleteGeoCache (DeleteGeoCache w u k).2 u2 k =
      (.error (.doesNotExist k), (DeleteGeoCache w u k).2)) := by
  have h1 : DeleteGeoCache w u k = (.ok (), delStateW w k) := by
    simp [DeleteGeoCache, GeoCacheExists, getStateW, getStateBytes,
      unmarshalGeoCache, hre, hs, hown]
  refine ⟨?_, ?_, ?_, ?_, ?_⟩
  · rw [h1]
  · rw [h1]; simp [delStateW]
  · intro q hq; rw [h1]; simp [delStateW, hq]
  · rw [h1]; simp [GeoCacheExists, getStateW, delStateW, hre]
  · intro u2; rw [h1]
    simp [DeleteGeoCache, GeoCacheExists, getStateW, delStateW, hre]

/-- Witness for C9: the owner deletes the test record, a second delete by
anyone fails. -/
theorem C9_delete_lifecycle_witness :
    (wTest.readErr kTest = false ∧ wTest.state kTest = some (.geo gTest) ∧
     myHash (uA.Id ++ gTest.Owner.Salt) = gTest.Owner.Id) ∧
    ((DeleteGeoCache wTest uA kTest).1 = .ok () ∧
     GeoCacheExists (DeleteGeoCache wTest uA kTest).2 kTest = .ok false ∧
     (DeleteGeoCache (DeleteGeoCache wTest uA kTest).2 uB kTest).1 =
       .error (.doesNotExist kTest)) := by
  have h := C9_delete_lifecycle wTest kTest gTest uA rfl rfl gTest_owner_match
  exact ⟨⟨rfl, rfl, gTest_owner_match⟩, h.1, h.2.2.2.1, by rw [(h.2.2.2.2 uB)]⟩

/-- C10: CreateGeoCache accepts any integer coordinate ranges without
validating their order; if no integer lies strictly inside the x-range, every
AddVisitorToGeoCache call on the created record fails with the out-of-range
error for all coordinates and callers, so the cache can never be visited. -/
theorem C10_unvisitable_ranges (w : World) (k : Str) (u : User)
    (nm ds tv salt tid : Str) (xr yr : Int × Int)
    (hex : GeoCacheExists w k = .ok false)
    (hno : ∀ x : Int, ¬ (xr.1 < x ∧ x < xr.2)) :
    (CreateGeoCache w u k nm ds xr yr tv salt tid).1 = .ok () ∧
    (CreateGeoCache w u k nm ds xr yr tv salt tid).2.state k =
      some (.geo
        { Id := [], Name := nm, Description := ds,
          XcoordRange := xr, YcoordRange := yr,
          Owner := { Id := myHash (u.Id ++ salt), Name := u.Name, Salt := salt },
          Reports := [], Visitors := [],
          Trackable := { Id := tid, Value := tv } }) ∧
    (∀ (u2 : User) (x y : Int),
      AddVisitorToGeoCache (CreateGeoCache w u k nm ds xr yr tv salt tid).2 u2 k x y =
        (.error .notInRange, (CreateGeoCache w u k nm ds xr yr tv salt tid).2)) := by
  have hre : w.readErr k = false := geoCacheExists_ok_readErr w k false hex
  have h1 : CreateGeoCache w u k nm ds xr yr tv salt tid =
      (.ok (), putStateW w k (.geo
        { Id := [], Name := nm, Description := ds,
          XcoordRange := xr, YcoordRange := yr,
          Owner := { Id := myHash (u.Id ++ salt), Name := u.Name, Salt := salt },
          Reports := [], Visitors := [],
          Trackable := { Id := tid, Value := tv } })) := by
    simp [CreateGeoCache, hex]
  refine ⟨by rw [h1], by rw [h1]; simp [putStateW], ?_⟩
  intro u2 x y
  rw [h1]
  exact addVisitor_out_of_xrange _ k
    { Id := [], Name := nm, Description := ds,
      XcoordRange := xr, YcoordRange := yr,
      Owner := { Id := myHash (u.Id ++ salt), Name := u.Name, Salt := salt },
      Reports := [], Visitors := [],
      Trackable := { Id := tid, Value := tv } } u2 x y
    (by simp [putStateW, hre]) (by simp [putStateW]) (hno x)

/-- Witness for C10: range `[5,6]` admits no integer strictly inside, so the
record created with it can never be visited. -/
theorem C10_unvisitable_ranges_witness :
    (GeoCacheExists emptyWorld kTest = .ok false ∧
     (∀ x : Int, ¬ ((5 : Int) < x ∧ x < 6))) ∧
    ((CreateGeoCache emptyWorld uA kTest [] [] (5, 6) (5, 10) [] saltTest []).1 =
       .ok () ∧
     (∀ (u2 : User) (x y : Int),
       AddVisitorToGeoCache
         (CreateGeoCache emptyWorld uA kTest [] [] (5, 6) (5, 10) [] saltTest []).2
         u2 kTest x y =
       (.error .notInRange,
        (CreateGeoCache emptyWorld uA kTest [] [] (5, 6) (5, 10) [] saltTest []).2))) := by
  have hno : ∀ x : Int, ¬ ((5 : Int) < x ∧ x < 6) := by intro x; omega
  have h := C10_unvisitable_ranges emptyWorld kTest uA [] [] [] saltTest []
    (5, 6) (5, 10) rfl hno
  exact ⟨⟨rfl, hno⟩, h.1, h.2.2⟩

/-- Unfolding the hash loop at the front. -/
theorem hashLoop_succ (s : Str) (k : Nat) :
    hashLoop s (k + 1) = hashLoop (sha1digest s) k := rfl

/-- Unfolding the hash loop at the back. -/
theorem hashLoop_succ_right (k : Nat) : ∀ s : Str,
    hashLoop s (k + 1) = sha1digest (hashLoop s k) := by
  induction k with
  | zero => intro s; rfl
  | succ k ih =>
      intro s
      rw [show hashLoop s (k + 1 + 1) = hashLoop (sha1digest s) (k + 1) from rfl,
        ih (sha1digest s)]
      rfl

/-- The hash loop is iteration of the digest. -/
theorem hashLoop_eq_iterate (k : Nat) : ∀ s : Str, hashLoop s k = sha1digest^[k] s := by
  induction k with
  | zero => intro s; rfl
  | succ k ih =>
      intro s
      rw [hashLoop_succ, ih (sha1digest s), Function.iterate_succ_apply]

/-- Every byte of `wordBytes` is below 256. -/
theorem wordBytes_mem_lt (w : Nat) : ∀ b ∈ wordBytes w, b < 256 := by
  intro b hb
  simp [wordBytes] at hb
  rcases hb with rfl | rfl | rfl | rfl <;> exact Nat.mod_lt _ (by norm_num)

/-- Every byte of a SHA-1 digest is below 256. -/
theorem sha1digest_mem_lt (m : List Nat) : ∀ b ∈ sha1digest m, b < 256 := by
  intro b hb
  simp only [sha1digest, List.mem_append] at hb
  rcases hb with ((((h | h) | h) | h) | h) <;> exact wordBytes_mem_lt _ b h

/-- A SHA-1 digest has 20 bytes. -/
theorem sha1digest_length (m : List Nat) : (sha1digest m).length = 20 := rfl

/-- Hex digits of nibbles are below 256. -/
theorem hexDigitByte_lt (n : Nat) (h : n ≤ 15) : hexDigitByte n < 256 := by
  unfold hexDigitByte
  split <;> omega

/-- Hex encoding doubles the length. -/
theorem hexEncode_length : ∀ l : List Nat, (hexEncode l).length = 2 * l.length
  | [] => rfl
  | b :: t => by
      simp only [hexEncode, List.length_cons, hexEncode_length t]
      omega

/-- Hex encoding of bytes stays below 256. -/
theorem hexEncode_mem_lt : ∀ l : List Nat, (∀ b ∈ l, b < 256) →
    ∀ x ∈ hexEncode l, x < 256
  | [], _, x, hx => by simp [hexEncode] at hx
  | b :: t, h, x, hx => by
      have hb : b < 256 := h b (by simp)
      simp only [hexEncode, List.mem_cons] at hx
      rcases hx with rfl | rfl | hx
      · refine hexDigitByte_lt _ ?_
        rw [Nat.shiftRight_eq_div_pow]
        omega
      · exact hexDigitByte_lt _ (Nat.and_le_right.trans (by norm_num))
      · exact hexEncode_mem_lt t (fun y hy => h y (by simp [hy])) x hx

/-- The contract's commitment is always a 40-character hex string. -/
theorem myHash_length (s : Str) : (myHash s).length = 40 := by
  unfold myHash
  rw [hexEncode_length, show (100 - 1 : Nat) = 98 + 1 from rfl,
    hashLoop_succ_right, sha1digest_length]

/-- Every byte of a commitment is below 256. -/
theorem myHash_mem_lt (s : Str) : ∀ x ∈ myHash s, x < 256 := by
  unfold myHash
  rw [show (100 - 1 : Nat) = 98 + 1 from rfl, hashLoop_succ_right]
  exact hexEncode_mem_lt _ (sha1digest_mem_lt _)

/-- `nthByte` of an all-below-256 byte string is below 256. -/
theorem nthByte_lt : ∀ (l : List Nat) (i : Nat), (∀ b ∈ l, b < 256) →
    nthByte l i < 256
  | [], _, _ => by simp [nthByte]
  | b :: t, 0, h => by simpa [nthByte] using h b (by simp)
  | b :: t, i + 1, h => nthByte_lt t i (fun y hy => h y (by simp [hy]))

/-- Byte strings of equal length agreeing at every position are equal. -/
theorem ext_of_nthByte : ∀ l1 l2 : List Nat, l1.length = l2.length →
    (∀ i, nthByte l1 i = nthByte l2 i) → l1 = l2
  | [], [], _, _ => rfl
  | [], b :: t2, hl, _ => by simp at hl
  | a :: t1, [], hl, _ => by simp at hl
  | a :: t1, b :: t2, hl, h => by
      have h0 : a = b := h 0
      have ht : t1 = t2 :=
        ext_of_nthByte t1 t2 (by simpa using hl) (fun i => h (i + 1))
      rw [h0, ht]

/-- `nthByte` beyond the end of the string is 0. -/
theorem nthByte_zero_of_ge : ∀ (l : List Nat) (i : Nat), l.length ≤ i → nthByte l i = 0
  | [], _, _ => rfl
  | b :: t, 0, h => by simp at h
  | b :: t, i + 1, h => nthByte_zero_of_ge t i (by simpa using h)

/-- Pigeonhole: the stretched hash maps infinitely many raw identities into
the finite set of 40-character hex strings, so for every salt two distinct
raw identities share a commitment. -/
theorem myHash_collision (S : Str) :
    ∃ A B : Str, A ≠ B ∧ myHash (A ++ S) = myHash (B ++ S) := by
  have hb : ∀ (s : Str) (i : Fin 40), nthByte (myHash (s ++ S)) i.val < 256 :=
    fun s i => nthByte_lt _ _ (myHash_mem_lt _)
  obtain ⟨A, B, hne, hfe⟩ :=
    Finite.exists_ne_map_eq_of_infinite
      (fun (s : Str) => fun (i : Fin 40) =>
        (⟨nthByte (myHash (s ++ S)) i.val, hb s i⟩ : Fin 256))
  refine ⟨A, B, hne, ext_of_nthByte _ _ (by rw [myHash_length, myHash_length]) ?_⟩
  intro i
  by_cases hi : i < 40
  · exact congrArg Fin.val (congrFun hfe ⟨i, hi⟩)
  · have h1 : nthByte (myHash (A ++ S)) i = 0 := by
      refine nthByte_zero_of_ge _ _ ?_
      rw [myHash_length]; omega
    have h2 : nthByte (myHash (B ++ S)) i = 0 := by
      refine nthByte_zero_of_ge _ _ ?_
      rw [myHash_length]; omega
    rw [h1, h2]

/-- C3 (amended): the commitment function equals the hex encoding of 99
total SHA-1 applications: `myHash(s) = hex(H^99(s))` for every input, not
100 as the spec states (the Go loop starts at `n := 1`). -/
theorem C3_commit_is_99_applications (s : Str) :
    myHash s = hexEncode (sha1digest^[99] s) := by
  show hexEncode (hashLoop s (100 - 1)) = hexEncode (sha1digest^[99] s)
  rw [show (100 - 1 : Nat) = 99 from rfl, hashLoop_eq_iterate]
/-! Concrete evaluation of the 99-fold stretched hash on "123123"
(the value the repository's own test suite pins down) and on "124123",
by one single-compression lemma per iteration. -/
theorem stepA_1 : sha1digest [49, 50, 51, 49, 50, 51] = [96, 31, 24, 137, 102, 126, 250, 235, 179, 59, 140, 18, 87, 40, 53, 218, 63, 2, 127, 120] := by decide
theorem stepA_2 : sha1digest [96, 31, 24, 137, 102, 126, 250, 235, 179, 59, 140, 18, 87, 40, 53, 218, 63, 2, 127, 120] = [229, 106, 17, 70, 146, 254, 13, 224, 115, 249, 161, 221, 104, 160, 14, 235, 151, 3, 243, 241] := by decide
theorem stepA_3 : sha1digest [229, 106, 17, 70, 146, 254, 13, 224, 115, 249, 161, 221, 104, 160, 14, 235, 151, 3, 243, 241] = [180, 61, 136, 63, 91, 102, 206, 48, 73, 116, 86, 146, 148, 172, 233, 205, 96, 46, 246, 183] := by decide
theorem stepA_4 : sha1digest [180, 61, 136, 63, 91, 102, 206, 48, 73, 116, 86, 146, 148, 172, 233, 205, 96, 46, 246, 183] = [199, 18, 47, 110, 139, 176, 106, 84, 103, 131, 175, 14, 247, 88, 127, 129, 168, 55, 59, 186] := by decide
theorem stepA_5 : sha1digest [199, 18, 47, 110, 139, 176, 106, 84, 103, 131, 175, 14, 247, 88, 127, 129, 168, 55, 59, 186] = [113, 241, 32, 108, 1, 122, 203, 170, 1, 175, 96, 32, 152, 252, 40, 80, 64, 252, 182, 213] := by decide
theorem stepA_6 : sha1digest [113, 241, 32, 108, 1, 122, 203, 170, 1, 175, 96, 32, 152, 252, 40, 80, 64, 252, 182, 213] = [255, 145, 172, 141, 234, 185, 170, 140, 242, 77, 163, 7, 11, 157, 193, 44, 235, 27, 87, 207] := by decide
theorem stepA_7 : sha1digest [255, 145, 172, 141, 234, 185, 170, 140, 242, 77, 163, 7, 11, 157, 193, 44, 235, 27, 87, 207] = [162, 175, 202, 102, 247, 134, 230, 138, 162, 57, 128, 212, 16, 143, 154, 218, 89, 166, 82, 225] := by decide
theorem stepA_8 : sha1digest [162, 175, 202, 102, 247, 134, 230, 138, 162, 57, 128, 212, 16, 143, 154, 218, 89, 166, 82, 225] = [152, 195, 222, 59, 145, 110, 244, 233, 183, 184, 87, 124, 171, 164, 159, 85, 25, 14, 107, 184] := by decide
theorem stepA_9 : sha1digest [152, 195, 222, 59, 145, 110, 244, 233, 183, 184, 87, 124, 171, 164, 159, 85, 25, 14, 107, 184] = [19, 203, 126, 209, 254, 110, 242, 159, 35, 137, 161, 222, 206, 88, 148, 85, 181, 235, 222, 139] := by decide
theorem stepA_10 : sha1digest [19, 203, 126, 209, 254, 110, 242, 159, 35, 137, 161, 222, 206, 88, 148, 85, 181, 235, 222, 139] = [186, 171, 110, 243, 226, 192, 83, 117, 100, 14, 19, 77, 138, 49, 231, 127, 5, 59, 232, 166] := by decide
theorem stepA_11 : sha1digest [186, 171, 110, 243, 226, 192, 83, 117, 100, 14, 19, 77, 138, 49, 231, 127, 5, 59, 232, 166] = [37, 40, 100, 13, 178, 144, 45, 198, 114, 116, 138, 117, 170, 231, 252, 240, 4, 88, 159, 34] := by decide
theorem stepA_12 : sha1digest [37, 40, 100, 13, 178, 144, 45, 198, 114, 116, 138, 117, 170, 231, 252, 240, 4, 88, 159, 34] = [7, 134, 173, 32, 166, 43, 176, 92, 161, 194, 228, 29, 235, 45, 113, 49, 148, 18, 137, 16] := by decide
theorem stepA_13 : sha1digest [7, 134, 173, 32, 166, 43, 176, 92, 161, 194, 228, 29, 235, 45, 113, 49, 148, 18, 137, 16] = [200, 131, 96, 40, 0, 2, 114, 71, 36, 237, 67, 45, 187, 248, 27, 20, 18, 158, 135, 77] := by decide
theorem stepA_14 : sha1digest [200, 131, 96, 40, 0, 2, 114, 71, 36, 237, 67, 45, 187, 248, 27, 20, 18, 158, 135, 77] = [89, 213, 36, 83, 3, 214, 188, 55, 161, 20, 111, 36, 20, 6, 81, 146, 116, 167, 42, 48] := by decide
theorem stepA_15 : sha1digest [89, 213, 36, 83, 3, 214, 188, 55, 161, 20, 111, 36, 20, 6, 81, 146, 116, 167, 42, 48] = [161, 6, 188, 217, 190, 250, 105, 162, 223, 217, 207, 29, 26, 235, 230, 141, 248, 172, 100, 250] := by decide
theorem stepA_16 : sha1digest [161, 6, 188, 217, 190, 250, 105, 162, 223, 217, 207, 29, 26, 235, 230, 141, 248, 172, 100, 250] = [114, 145, 200, 10, 113, 170, 90, 86, 86, 207, 21, 101, 150, 130, 247, 135, 84, 60, 29, 43] := by decide
theorem stepA_17 : sha1digest [114, 145, 200, 10, 113, 170, 90, 86, 86, 207, 21, 101, 150, 130, 247, 135, 84, 60, 29, 43] = [20, 130, 144, 160, 203, 36, 198, 39, 217, 202, 17, 93, 3, 138, 68, 181, 132, 77, 163, 83] := by decide
theorem stepA_18 : sha1digest [20, 130, 144, 160, 203, 36, 198, 39, 217, 202, 17, 93, 3, 138, 68, 181, 132, 77, 163, 83] = [42, 217, 8, 111, 152, 170, 194, 99, 80, 171, 255, 150, 237, 64, 73, 168, 52, 56, 242, 126] := by decide
theorem stepA_19 : sha1digest [42, 217, 8, 111, 152, 170, 194, 99, 80, 171, 255, 150, 237, 64, 73, 168, 52, 56, 242, 126] = [121, 117, 234, 125, 25, 249, 70, 151, 13, 1, 87, 87, 229, 46, 237, 129, 235, 1, 64, 175] := by decide
theorem stepA_20 : sha1digest [121, 117, 234, 125, 25, 249, 70, 151, 13, 1, 87, 87, 229, 46, 237, 129, 235, 1, 64, 175] = [125, 102, 55, 96, 226, 11, 255, 182, 126, 168, 63, 136, 127, 145, 168, 74, 12, 70, 155, 199] := by decide
theorem stepA_21 : sha1digest [125, 102, 55, 96, 226, 11, 255, 182, 126, 168, 63, 136, 127, 145, 168, 74, 12, 70, 155, 199] = [103, 231, 207, 109, 15, 150, 195, 134, 209, 169, 55, 93, 30, 23, 161, 44, 200, 227, 205, 221] := by decide
theorem stepA_22 : sha1digest [103, 231, 207, 109, 15, 150, 195, 134, 209, 169, 55, 93, 30, 23, 161, 44, 200, 227, 205, 221] = [246, 77, 139, 162, 139, 51, 110, 31, 178, 81, 53, 51, 96, 80, 7, 93, 54, 212, 167, 96] := by decide
theorem stepA_23 : sha1digest [246, 77, 139, 162, 139, 51, 110, 31, 178, 81, 53, 51, 96, 80, 7, 93, 54, 212, 167, 96] = [151, 84, 248, 116, 117, 47, 39, 184, 104, 197, 105, 249, 70, 193, 70, 242, 65, 43, 37, 35] := by decide
theorem stepA_24 : sha1digest [151, 84, 248, 116, 117, 47, 39, 184, 104, 197, 105, 249, 70, 193, 70, 242, 65, 43, 37, 35] = [126, 79, 125, 61, 99, 179, 111, 239, 53, 21, 81, 48, 40, 227, 186, 95, 8, 48, 109, 167] := by decide
theorem stepA_25 : sha1digest [126, 79, 125, 61, 99, 179, 111, 239, 53, 21, 81, 48, 40, 227, 186, 95, 8, 48, 109, 167] = [27, 44, 210, 32, 196, 191, 1, 206, 223, 18, 209, 89, 2, 201, 62, 28, 177, 118, 106, 83] := by decide
theorem stepA_26 : sha1digest [27, 44, 210, 32, 196, 191, 1, 206, 223, 18, 209, 89, 2, 201, 62, 28, 177, 118, 106, 83] = [83, 125, 213, 114, 169, 188, 38, 156, 241, 200, 102, 222, 218, 141, 155, 69, 22, 20, 4, 50] := by decide
theorem stepA_27 : sha1digest [83, 125, 213, 114, 169, 188, 38, 156, 241, 200, 102, 222, 218, 141, 155, 69, 22, 20, 4, 50] = [45, 155, 96, 122, 205, 237, 37, 110, 238, 52, 187, 152, 175, 249, 116, 156, 215, 244, 122, 72] := by decide
theorem stepA_28 : sha1digest [45, 155, 96, 122, 205, 237, 37, 110, 238, 52, 187, 152, 175, 249, 116, 156, 215, 244, 122, 72] = [34, 136, 66, 55, 226, 145, 208, 193, 248, 126, 52, 60, 141, 24, 95, 106, 13, 73, 47, 245] := by decide
theorem stepA_29 : sha1digest [34, 136, 66, 55, 226, 145, 208, 193, 248, 126, 52, 60, 141, 24, 95, 106, 13, 73, 47, 245] = [162, 120, 185, 246, 66, 79, 238, 30, 249, 255, 215, 92, 59, 251, 62, 78, 71, 54, 161, 48] := by decide
theorem stepA_30 : sha1digest [162, 120, 185, 246, 66, 79, 238, 30, 249, 255, 215, 92, 59, 251, 62, 78, 71, 54, 161, 48] = [83, 171, 31, 158, 41, 8, 174, 170, 84, 48, 226, 163, 226, 117, 3, 59, 72, 68, 138, 133] := by decide
theorem stepA_31 : sha1digest [83, 171, 31, 158, 41, 8, 174, 170, 84, 48, 226, 163, 226, 117, 3, 59, 72, 68, 138, 133] = [137, 126, 94, 69, 145, 196, 235, 181, 196, 51, 64, 178, 189, 199, 213, 204, 128, 238, 23, 83] := by decide
theorem stepA_32 : sha1digest [137, 126, 94, 69, 145, 196, 235, 181, 196, 51, 64, 178, 189, 199, 213, 204, 128, 238, 23, 83] = [14, 160, 121, 124, 174, 118, 198, 70, 163, 177, 252, 143, 57, 72, 234, 159, 178, 169, 132, 223] := by decide
theorem stepA_33 : sha1digest [14, 160, 121, 124, 174, 118, 198, 70, 163, 177, 252, 143, 57, 72, 234, 159, 178, 169, 132, 223] = [199, 239, 178, 27, 19, 86, 213, 173, 162, 12, 49, 246, 72, 200, 223, 35, 155, 126, 126, 42] := by decide
theorem stepA_34 : sha1digest [199, 239, 178, 27, 19, 86, 213, 173, 162, 12, 49, 246, 72, 200, 223, 35, 155, 126, 126, 42] = [248, 94, 196, 253, 104, 213, 25, 94, 155, 117, 142, 232, 92, 87, 189, 66, 177, 156, 186, 61] := by decide
theorem stepA_35 : sha1digest [248, 94, 196, 253, 104, 213, 25, 94, 155, 117, 142, 232, 92, 87, 189, 66, 177, 156, 186, 61] = [73, 157, 122, 209, 253, 111, 242, 253, 165, 51, 220, 47, 105, 134, 30, 197, 150, 255, 148, 10] := by decide
theorem stepA_36 : sha1digest [73, 157, 122, 209, 253, 111, 242, 253, 165, 51, 220, 47, 105, 134, 30, 197, 150, 255, 148, 10] = [22, 21, 148, 155, 69, 208, 89, 153, 135, 138, 31, 182, 236, 87, 103, 106, 207, 42, 244, 10] := by decide
theorem stepA_37 : sha1digest [22, 21, 148, 155, 69, 208, 89, 153, 135, 138, 31, 182, 236, 87, 103, 106, 207, 42, 244, 10] = [62, 230, 162, 168, 22, 50, 98, 67, 120, 61, 149, 82, 136, 12, 103, 34, 137, 164, 240, 95] := by decide
theorem stepA_38 : sha1digest [62, 230, 162, 168, 22, 50, 98, 67, 120, 61, 149, 82, 136, 12, 103, 34, 137, 164, 240, 95] = [150, 247, 202, 83, 119, 2, 165, 16, 31, 49, 90, 77, 174, 80, 58, 160, 184, 90, 53, 21] := by decide
theorem stepA_39 : sha1digest [150, 247, 202, 83, 119, 2, 165, 16, 31, 49, 90, 77, 174, 80, 58, 160, 184, 90, 53, 21] = [208, 196, 92, 63, 225, 235, 206, 153, 12, 111, 218, 27, 202, 172, 76, 116, 80, 98, 95, 215] := by decide
theorem stepA_40 : sha1digest [208, 196, 92, 63, 225, 235, 206, 153, 12, 111, 218, 27, 202, 172, 76, 116, 80, 98, 95, 215] = [234, 73, 117, 158, 230, 2, 46, 178, 90, 159, 104, 171, 240, 7, 91, 84, 231, 190, 124, 130] := by decide
theorem stepA_41 : sha1digest [234, 73, 117, 158, 230, 2, 46, 178, 90, 159, 104, 171, 240, 7, 91, 84, 231, 190, 124, 130] = [104, 57, 179, 76, 157, 103, 228, 39, 193, 53, 254, 206, 177, 227, 58, 24, 112, 132, 186, 18] := by decide
theorem stepA_42 : sha1digest [104, 57, 179, 76, 157, 103, 228, 39, 193, 53, 254, 206, 177, 227, 58, 24, 112, 132, 186, 18] = [86, 180, 180, 111, 9, 85, 48, 226, 234, 84, 245, 122, 155, 140, 66, 208, 216, 216, 86, 119] := by decide
theorem stepA_43 : sha1digest [86, 180, 180, 111, 9, 85, 48, 226, 234, 84, 245, 122, 155, 140, 66, 208, 216, 216, 86, 119] = [41, 247, 39, 231, 241, 180, 5, 40, 90, 52, 181, 43, 122, 25, 12, 239, 115, 248, 249, 173] := by decide
theorem stepA_44 : sha1digest [41, 247, 39, 231, 241, 180, 5, 40, 90, 52, 181, 43, 122, 25, 12, 239, 115, 248, 249, 173] = [202, 79, 14, 95, 162, 226, 232, 212, 93, 191, 10, 105, 38, 179, 104, 44, 2, 58, 169, 106] := by decide
theorem stepA_45 : sha1digest [202, 79, 14, 95, 162, 226, 232, 212, 93, 191, 10, 105, 38, 179, 104, 44, 2, 58, 169, 106] = [86, 69, 49, 152, 41, 254, 154, 1, 244, 224, 238, 56, 109, 65, 165, 154, 80, 242, 83, 201] := by decide
theorem stepA_46 : sha1digest [86, 69, 49, 152, 41, 254, 154, 1, 244, 224, 238, 56, 109, 65, 165, 154, 80, 242, 83, 201] = [127, 4, 226, 197, 30, 135, 142, 145, 159, 194, 247, 80, 1, 190, 119, 131, 156, 189, 58, 79] := by decide
theorem stepA_47 : sha1digest [127, 4, 226, 197, 30, 135, 142, 145, 159, 194, 247, 80, 1, 190, 119, 131, 156, 189, 58, 79] = [217, 240, 36, 187, 243, 32, 55, 35, 82, 74, 179, 219, 220, 244, 33, 147, 81, 24, 98, 133] := by decide
theorem stepA_48 : sha1digest [217, 240, 36, 187, 243, 32, 55, 35, 82, 74, 179, 219, 220, 244, 33, 147, 81, 24, 98, 133] = [75, 164, 98, 123, 119, 104, 188, 82, 188, 203, 46, 239, 229, 177, 235, 59, 56, 61, 201, 210] := by decide
theorem stepA_49 : sha1digest [75, 164, 98, 123, 119, 104, 188, 82, 188, 203, 46, 239, 229, 177, 235, 59, 56, 61, 201, 210] = [61, 70, 178, 81, 250, 40, 96, 129, 141, 81, 199, 241, 93, 195, 181, 178, 159, 255, 207, 84] := by decide
theorem stepA_50 : sha1digest [61, 70, 178, 81, 250, 40, 96, 129, 141, 81, 199, 241, 93, 195, 181, 178, 159, 255, 207, 84] = [204, 241, 122, 125, 110, 250, 168, 58, 41, 104, 129, 229, 36, 183, 226, 88, 160, 149, 6, 115] := by decide
theorem stepA_51 : sha1digest [204, 241, 122, 125, 110, 250, 168, 58, 41, 104, 129, 229, 36, 183, 226, 88, 160, 149, 6, 115] = [214, 232, 133, 183, 105, 142, 180, 25, 229, 14, 221, 126, 158, 138, 35, 73, 34, 137, 166, 168] := by decide
theorem stepA_52 : sha1digest [214, 232, 133, 183, 105, 142, 180, 25, 229, 14, 221, 126, 158, 138, 35, 73, 34, 137, 166, 168] = [224, 133, 9, 128, 254, 191, 44, 98, 93, 146, 121, 17, 233, 181, 31, 162, 32, 65, 75, 218] := by decide
theorem stepA_53 : sha1digest [224, 133, 9, 128, 254, 191, 44, 98, 93, 146, 121, 17, 233, 181, 31, 162, 32, 65, 75, 218] = [189, 167, 90, 12, 30, 214, 232, 115, 226, 105, 98, 52, 192, 155, 55, 33, 33, 170, 253, 254] := by decide
theorem stepA_54 : sha1digest [189, 167, 90, 12, 30, 214, 232, 115, 226, 105, 98, 52, 192, 155, 55, 33, 33, 170, 253, 254] = [107, 46, 44, 135, 87, 41, 212, 51, 104, 102, 162, 3, 35, 166, 44, 72, 188, 133, 127, 49] := by decide
theorem stepA_55 : sha1digest [107, 46, 44, 135, 87, 41, 212, 51, 104, 102, 162, 3, 35, 166, 44, 72, 188, 133, 127, 49] = [62, 157, 129, 0, 139, 121, 8, 63, 5, 98, 159, 58, 89, 109, 56, 217, 222, 30, 112, 128] := by decide
theorem stepA_56 : sha1digest [62, 157, 129, 0, 139, 121, 8, 63, 5, 98, 159, 58, 89, 109, 56, 217, 222, 30, 112, 128] = [226, 203, 237, 125, 62, 109, 88, 115, 68, 31, 116, 48, 92, 216, 110, 62, 35, 243, 48, 0] := by decide
theorem stepA_57 : sha1digest [226, 203, 237, 125, 62, 109, 88, 115, 68, 31, 116, 48, 92, 216, 110, 62, 35, 243, 48, 0] = [186, 196, 223, 171, 47, 45, 7, 33, 195, 255, 143, 110, 52, 34, 102, 45, 57, 97, 10, 241] := by decide
theorem stepA_58 : sha1digest [186, 196, 223, 171, 47, 45, 7, 33, 195, 255, 143, 110, 52, 34, 102, 45, 57, 97, 10, 241] = [69, 87, 102, 238, 20, 92, 177, 38, 116, 190, 29, 14, 73, 34, 99, 193, 189, 227, 4, 73] := by decide
theorem stepA_59 : sha1digest [69, 87, 102, 238, 20, 92, 177, 38, 116, 190, 29, 14, 73, 34, 99, 193, 189, 227, 4, 73] = [1, 194, 223, 194, 69, 238, 153, 228, 252, 239, 149, 176, 105, 158, 85, 74, 231, 207, 203, 167] := by decide
theorem stepA_60 : sha1digest [1, 194, 223, 194, 69, 238, 153, 228, 252, 239, 149, 176, 105, 158, 85, 74, 231, 207, 203, 167] = [174, 106, 210, 7, 138, 228, 68, 113, 80, 142, 60, 4, 220, 125, 170, 17, 98, 6, 145, 210] := by decide
theorem stepA_61 : sha1digest [174, 106, 210, 7, 138, 228, 68, 113, 80, 142, 60, 4, 220, 125, 170, 17, 98, 6, 145, 210] = [100, 6, 139, 53, 107, 123, 226, 132, 18, 214, 69, 189, 190, 126, 96, 152, 47, 220, 123, 130] := by decide
theorem stepA_62 : sha1digest [100, 6, 139, 53, 107, 123, 226, 132, 18, 214, 69, 189, 190, 126, 96, 152, 47, 220, 123, 130] = [217, 58, 21, 7, 18, 65, 212, 232, 155, 108, 180, 227, 79, 171, 237, 218, 196, 81, 18, 34] := by decide
theorem stepA_63 : sha1digest [217, 58, 21, 7, 18, 65, 212, 232, 155, 108, 180, 227, 79, 171, 237, 218, 196, 81, 18, 34] = [144, 37, 56, 82, 201, 96, 34, 94, 51, 33, 187, 9, 242, 158, 136, 206, 241, 51, 171, 130] := by decide
theorem stepA_64 : sha1digest [144, 37, 56, 82, 201, 96, 34, 94, 51, 33, 187, 9, 242, 158, 136, 206, 241, 51, 171, 130] = [242, 209, 146, 226, 98, 121, 157, 47, 156, 93, 63, 10, 82, 142, 127, 47, 229, 239, 17, 17] := by decide
theorem stepA_65 : sha1digest [242, 209, 146, 226, 98, 121, 157, 47, 156, 93, 63, 10, 82, 142, 127, 47, 229, 239, 17, 17] = [156, 176, 103, 59, 68, 240, 3, 182, 102, 64, 100, 117, 72, 121, 228, 117, 216, 154, 139, 77] := by decide
theorem stepA_66 : sha1digest [156, 176, 103, 59, 68, 240, 3, 182, 102, 64, 100, 117, 72, 121, 228, 117, 216, 154, 139, 77] = [65, 253, 182, 56, 194, 205, 51, 248, 104, 107, 131, 124, 10, 166, 169, 222, 153, 80, 63, 153] := by decide
theorem stepA_67 : sha1digest [65, 253, 182, 56, 194, 205, 51, 248, 104, 107, 131, 124, 10, 166, 169, 222, 153, 80, 63, 153] = [138, 112, 4, 78, 32, 220, 188, 131, 39, 125, 251, 119, 22, 239, 191, 11, 24, 204, 108, 201] := by decide
theorem stepA_68 : sha1digest [138, 112, 4, 78, 32, 220, 188, 131, 39, 125, 251, 119, 22, 239, 191, 11, 24, 204, 108, 201] = [142, 161, 32, 84, 129, 90, 116, 110, 177, 140, 67, 67, 231, 21, 227, 50, 231, 231, 88, 62] := by decide
theorem stepA_69 : sha1digest [142, 161, 32, 84, 129, 90, 116, 110, 177, 140, 67, 67, 231, 21, 227, 50, 231, 231, 88, 62] = [11, 190, 112, 59, 111, 135, 162, 82, 118, 37, 48, 93, 213, 106, 227, 131, 183, 215, 36, 27] := by decide
theorem stepA_70 : sha1digest [11, 190, 112, 59, 111, 135, 162, 82, 118, 37, 48, 93, 213, 106, 227, 131, 183, 215, 36, 27] = [5, 248, 0, 164, 227, 224, 206, 113, 2, 185, 232, 189, 136, 155, 247, 103, 190, 148, 30, 169] := by decide
theorem stepA_71 : sha1digest [5, 248, 0, 164, 227, 224, 206, 113, 2, 185, 232, 189, 136, 155, 247, 103, 190, 148, 30, 169] = [193, 214, 43, 4, 2, 157, 176, 29, 61, 236, 156, 8, 139, 134, 196, 235, 64, 246, 160, 98] := by decide
theorem stepA_72 : sha1digest [193, 214, 43, 4, 2, 157, 176, 29, 61, 236, 156, 8, 139, 134, 196, 235, 64, 246, 160, 98] = [195, 183, 209, 109, 57, 115, 68, 136, 167, 153, 189, 121, 222, 164, 102, 91, 200, 131, 105, 230] := by decide
theorem stepA_73 : sha1digest [195, 183, 209, 109, 57, 115, 68, 136, 167, 153, 189, 121, 222, 164, 102, 91, 200, 131, 105, 230] = [104, 144, 174, 19, 182, 87, 242, 23, 48, 99, 240, 238, 194, 65, 99, 141, 77, 224, 121, 49] := by decide
theorem stepA_74 : sha1digest [104, 144, 174, 19, 182, 87, 242, 23, 48, 99, 240, 238, 194, 65, 99, 141, 77, 224, 121, 49] = [112, 36, 49, 184, 230, 17, 241, 150, 104, 25, 139, 96, 154, 139, 132, 94, 226, 144, 100, 172] := by decide
theorem stepA_75 : sha1digest [112, 36, 49, 184, 230, 17, 241, 150, 104, 25, 139, 96, 154, 139, 132, 94, 226, 144, 100, 172] = [83, 249, 94, 179, 244, 88, 232, 8, 126, 184, 183, 115, 81, 82, 238, 208, 45, 41, 26, 250] := by decide
theorem stepA_76 : sha1digest [83, 249, 94, 179, 244, 88, 232, 8, 126, 184, 183, 115, 81, 82, 238, 208, 45, 41, 26, 250] = [47, 201, 251, 101, 29, 31, 0, 144, 162, 31, 54, 139, 157, 180, 14, 252, 57, 64, 121, 6] := by decide
theorem stepA_77 : sha1digest [47, 201, 251, 101, 29, 31, 0, 144, 162, 31, 54, 139, 157, 180, 14, 252, 57, 64, 121, 6] = [246, 199, 149, 11, 96, 80, 0, 161, 60, 52, 39, 226, 180, 92, 98, 36, 50, 186, 24, 99] := by decide
theorem stepA_78 : sha1digest [246, 199, 149, 11, 96, 80, 0, 161, 60, 52, 39, 226, 180, 92, 98, 36, 50, 186, 24, 99] = [240, 97, 247, 183, 13, 111, 132, 135, 229, 138, 63, 137, 254, 163, 57, 247, 34, 13, 147, 254] := by decide
theorem stepA_79 : sha1digest [240, 97, 247, 183, 13, 111, 132, 135, 229, 138, 63, 137, 254, 163, 57, 247, 34, 13, 147, 254] = [172, 68, 169, 36, 196, 67, 221, 192, 144, 159, 86, 0, 88, 142, 153, 23, 113, 164, 18, 177] := by decide
theorem stepA_80 : sha1digest [172, 68, 169, 36, 196, 67, 221, 192, 144, 159, 86, 0, 88, 142, 153, 23, 113, 164, 18, 177] = [232, 42, 20, 220, 209, 96, 112, 13, 38, 191, 210, 236, 85, 92, 170, 124, 110, 119, 241, 5] := by decide
theorem stepA_81 : sha1digest [232, 42, 20, 220, 209, 96, 112, 13, 38, 191, 210, 236, 85, 92, 170, 124, 110, 119, 241, 5] = [167, 165, 172, 148, 230, 11, 122, 54, 193, 200, 171, 182, 187, 80, 35, 208, 36, 133, 14, 182] := by decide
theorem stepA_82 : sha1digest [167, 165, 172, 148, 230, 11, 122, 54, 193, 200, 171, 182, 187, 80, 35, 208, 36, 133, 14, 182] = [251, 252, 183, 205, 245, 90, 149, 141, 92, 203, 102, 182, 113, 55, 156, 236, 209, 164, 158, 173] := by decide
theorem stepA_83 : sha1digest [251, 252, 183, 205, 245, 90, 149, 141, 92, 203, 102, 182, 113, 55, 156, 236, 209, 164, 158, 173] = [23, 213, 212, 133, 182, 224, 223, 148, 239, 16, 222, 223, 136, 107, 240, 3, 122, 90, 18, 53] := by decide
theorem stepA_84 : sha1digest [23, 213, 212, 133, 182, 224, 223, 148, 239, 16, 222, 223, 136, 107, 240, 3, 122, 90, 18, 53] = [217, 213, 73, 113, 53, 118, 29, 217, 164, 227, 43, 161, 57, 237, 18, 238, 231, 67, 69, 200] := by decide
theorem stepA_85 : sha1digest [217, 213, 73, 113, 53, 118, 29, 217, 164, 227, 43, 161, 57, 237, 18, 238, 231, 67, 69, 200] = [95, 182, 238, 174, 214, 167, 81, 102, 70, 114, 86, 144, 17, 90, 185, 178, 199, 15, 223, 180] := by decide
theorem stepA_86 : sha1digest [95, 182, 238, 174, 214, 167, 81, 102, 70, 114, 86, 144, 17, 90, 185, 178, 199, 15, 223, 180] = [58, 182, 206, 34, 136, 177, 123, 132, 91, 238, 101, 81, 170, 22, 63, 238, 254, 166, 87, 166] := by decide
theorem stepA_87 : sha1digest [58, 182, 206, 34, 136, 177, 123, 132, 91, 238, 101, 81, 170, 22, 63, 238, 254, 166, 87, 166] = [254, 175, 164, 108, 0, 241, 177, 105, 94, 44, 137, 70, 112, 67, 82, 166, 228, 227, 229, 21] := by decide
theorem stepA_88 : sha1digest [254, 175, 164, 108, 0, 241, 177, 105, 94, 44, 137, 70, 112, 67, 82, 166, 228, 227, 229, 21] = [192, 95, 232, 187, 214, 77, 111, 69, 18, 226, 51, 4, 87, 119, 44, 166, 139, 117, 222, 148] := by decide
theorem stepA_89 : sha1digest [192, 95, 232, 187, 214, 77, 111, 69, 18, 226, 51, 4, 87, 119, 44, 166, 139, 117, 222, 148] = [195, 253, 227, 232, 63, 172, 100, 228, 7, 160, 178, 131, 40, 246, 10, 164, 128, 163, 192, 50] := by decide
theorem stepA_90 : sha1digest [195, 253, 227, 232, 63, 172, 100, 228, 7, 160, 178, 131, 40, 246, 10, 164, 128, 163, 192, 50] = [203, 179, 124, 211, 69, 103, 225, 69, 157, 135, 231, 54, 198, 81, 131, 102, 88, 103, 123, 134] := by decide
theorem stepA_91 : sha1digest [203, 179, 124, 211, 69, 103, 225, 69, 157, 135, 231, 54, 198, 81, 131, 102, 88, 103, 123, 134] = [127, 108, 13, 31, 74, 206, 86, 238, 119, 9, 100, 161, 147, 191, 101, 198, 107, 247, 155, 41] := by decide
theorem stepA_92 : sha1digest [127, 108, 13, 31, 74, 206, 86, 238, 119, 9, 100, 161, 147, 191, 101, 198, 107, 247, 155, 41] = [67, 204, 95, 113, 7, 52, 80, 134, 195, 18, 2, 163, 30, 19, 165, 34, 79, 32, 13, 118] := by decide
theorem stepA_93 : sha1digest [67, 204, 95, 113, 7, 52, 80, 134, 195, 18, 2, 163, 30, 19, 165, 34, 79, 32, 13, 118] = [241, 182, 14, 31, 251, 99, 123, 158, 104, 229, 34, 217, 244, 165, 36, 143, 233, 60, 154, 160] := by decide
theorem stepA_94 : sha1digest [241, 182, 14, 31, 251, 99, 123, 158, 104, 229, 34, 217, 244, 165, 36, 143, 233, 60, 154, 160] = [82, 31, 111, 250, 235, 222, 245, 101, 73, 118, 181, 73, 33, 115, 74, 78, 203, 56, 125, 157] := by decide
theorem stepA_95 : sha1digest [82, 31, 111, 250, 235, 222, 245, 101, 73, 118, 181, 73, 33, 115, 74, 78, 203, 56, 125, 157] = [234, 86, 159, 193, 50, 111, 122, 125, 248, 61, 158, 26, 224, 116, 123, 175, 202, 94, 14, 172] := by decide
theorem stepA_96 : sha1digest [234, 86, 159, 193, 50, 111, 122, 125, 248, 61, 158, 26, 224, 116, 123, 175, 202, 94, 14, 172] = [30, 149, 95, 19, 16, 18, 97, 218, 100, 211, 185, 125, 201, 189, 95, 178, 116, 105, 110, 160] := by decide
theorem stepA_97 : sha1digest [30, 149, 95, 19, 16, 18, 97, 218, 100, 211, 185, 125, 201, 189, 95, 178, 116, 105, 110, 160] = [121, 163, 214, 189, 1, 137, 83, 80, 94, 216, 160, 250, 107, 152, 135, 174, 104, 172, 148, 82] := by decide
theorem stepA_98 : sha1digest [121, 163, 214, 189, 1, 137, 83, 80, 94, 216, 160, 250, 107, 152, 135, 174, 104, 172, 148, 82] = [115, 184, 175, 143, 168, 251, 29, 218, 136, 3, 13, 145, 1, 178, 28, 59, 154, 165, 2, 239] := by decide
theorem stepA_99 : sha1digest [115, 184, 175, 143, 168, 251, 29, 218, 136, 3, 13, 145, 1, 178, 28, 59, 154, 165, 2, 239] = [78, 190, 86, 238, 0, 153, 204, 26, 246, 100, 173, 103, 179, 65, 12, 43, 10, 24, 207, 186] := by decide
theorem stepA_100 : sha1digest [78, 190, 86, 238, 0, 153, 204, 26, 246, 100, 173, 103, 179, 65, 12, 43, 10, 24, 207, 186] = [8, 178, 160, 146, 151, 16, 37, 122, 111, 44, 125, 99, 91, 84, 227, 90, 247, 199, 241, 151] := by decide
theorem chainA_99 : hashLoop [78, 190, 86, 238, 0, 153, 204, 26, 246, 100, 173, 103, 179, 65, 12, 43, 10, 24, 207, 186] 0 = [78, 190, 86, 238, 0, 153, 204, 26, 246, 100, 173, 103, 179, 65, 12, 43, 10, 24, 207, 186] := rfl
theorem chainA_98 : hashLoop [115, 184, 175, 143, 168, 251, 29, 218, 136, 3, 13, 145, 1, 178, 28, 59, 154, 165, 2, 239] 1 = [78, 190, 86, 238, 0, 153, 204, 26, 246, 100, 173, 103, 179, 65, 12, 43, 10, 24, 207, 186] := by
  rw [show (1 : Nat) = 0 + 1 from rfl, hashLoop_succ, stepA_99]
  exact chainA_99
theorem chainA_97 : hashLoop [121, 163, 214, 189, 1, 137, 83, 80, 94, 216, 160, 250, 107, 152, 135, 174, 104, 172, 148, 82] 2 = [78, 190, 86, 238, 0, 153, 204, 26, 246, 100, 173, 103, 179, 65, 12, 43, 10, 24, 207, 186] := by
  rw [show (2 : Nat) = 1 + 1 from rfl, hashLoop_succ, stepA_98]
  exact chainA_98
theorem chainA_96 : hashLoop [30, 149, 95, 19, 16, 18, 97, 218, 100, 211, 185, 125, 201, 189, 95, 178, 116, 105, 110, 160] 3 = [78, 190, 86, 238, 0, 153, 204, 26, 246, 100, 173, 103, 179, 65, 12, 43, 10, 24, 207, 186] := by
  rw [show (3 : Nat) = 2 + 1 from rfl, hashLoop_succ, stepA_97]
  exact chainA_97
theorem chainA_95 : hashLoop [234, 86, 159, 193, 50, 111, 122, 125, 248, 61, 158, 26, 224, 116, 123, 175, 202, 94, 14, 172] 4 = [78, 190, 86, 238, 0, 153, 204, 26, 246, 100, 173, 103, 179, 65, 12, 43, 10, 24, 207, 186] := by
  rw [show (4 : Nat) = 3 + 1 from rfl, hashLoop_succ, stepA_96]
  exact chainA_96
theorem chainA_94 : hashLoop [82, 31, 111, 250, 235, 222, 245, 101, 73, 118, 181, 73, 33, 115, 74, 78, 203, 56, 125, 157] 5 = [78, 190, 86, 238, 0, 153, 204, 26, 246, 100, 173, 103, 179, 65, 12, 43, 10, 24, 207, 186] := by
  rw [show (5 : Nat) = 4 + 1 from rfl, hashLoop_succ, stepA_95]
  exact chainA_95
theorem chainA_93 : hashLoop [241, 182, 14, 31, 251, 99, 123, 158, 104, 229, 34, 217, 244, 165, 36, 143, 233, 60, 154, 160] 6 = [78, 190, 86, 238, 0, 153, 204, 26, 246, 100, 173, 103, 179, 65, 12, 43, 10, 24, 207, 186] := by
  rw [show (6 : Nat) = 5 + 1 from rfl, hashLoop_succ, stepA_94]
  exact chainA_94
theorem chainA_92 : hashLoop [67, 204, 95, 113, 7, 52, 80, 134, 195, 18, 2, 163, 30, 19, 165, 34, 79, 32, 13, 118] 7 = [78, 190, 86, 238, 0, 153, 204, 26, 246, 100, 173, 103, 179, 65, 12, 43, 10, 24, 207, 186] := by
  rw [show (7 : Nat) = 6 + 1 from rfl, hashLoop_succ, stepA_93]
  exact chainA_93
theorem chainA_91 : hashLoop [127, 108, 13, 31, 74, 206, 86, 238, 119, 9, 100, 161, 147, 191, 101, 198, 107, 247, 155, 41] 8 = [78, 190, 86, 238, 0, 153, 204, 26, 246, 100, 173, 103, 179, 65, 12, 43, 10, 24, 207, 186] := by
  rw [show (8 : Nat) = 7 + 1 from rfl, hashLoop_succ, stepA_92]
  exact chainA_92
theorem chainA_90 : hashLoop [203, 179, 124, 211, 69, 103, 225, 69, 157, 135, 231, 54, 198, 81, 131, 102, 88, 103, 123, 134] 9 = [78, 190, 86, 238, 0, 153, 204, 26, 246, 100, 173, 103, 179, 65, 12, 43, 10, 24, 207, 186] := by
  rw [show (9 : Nat) = 8 + 1 from rfl, hashLoop_succ, stepA_91]
  exact chainA_91
theorem chainA_89 : hashLoop [195, 253, 227, 232, 63, 172, 100, 228, 7, 160, 178, 131, 40, 246, 10, 164, 128, 163, 192, 50] 10 = [78, 190, 86, 238, 0, 153, 204, 26, 246, 100, 173, 103, 179, 65, 12, 43, 10, 24, 207, 186] := by
  rw [show (10 : Nat) = 9 + 1 from rfl, hashLoop_succ, stepA_90]
  exact chainA_90
theorem chainA_88 : hashLoop [192, 95, 232, 187, 214, 77, 111, 69, 18, 226, 51, 4, 87, 119, 44, 166, 139, 117, 222, 148] 11 = [78, 190, 86, 238, 0, 153, 204, 26, 246, 100, 173, 103, 179, 65, 12, 43, 10, 24, 207, 186] := by
  rw [show (11 : Nat) = 10 + 1 from rfl, hashLoop_succ, stepA_89]
  exact chainA_89
theorem chainA_87 : hashLoop [254, 175, 164, 108, 0, 241, 177, 105, 94, 44, 137, 70, 112, 67, 82, 166, 228, 227, 229, 21] 12 = [78, 190, 86, 238, 0, 153, 204, 26, 246, 100, 173, 103, 179, 65, 12, 43, 10, 24, 207, 186] := by
  rw [show (12 : Nat) = 11 + 1 from rfl, hashLoop_succ, stepA_88]
  exact chainA_88
theorem chainA_86 : hashLoop [58, 182, 206, 34, 136, 177, 123, 132, 91, 238, 101, 81, 170, 22, 63, 238, 254, 166, 87, 166] 13 = [78, 190, 86, 238, 0, 153, 204, 26, 246, 100, 173, 103, 179, 65, 12, 43, 10, 24, 207, 186] := by
  rw [show (13 : Nat) = 12 + 1 from rfl, hashLoop_succ, stepA_87]
  exact chainA_87
theorem chainA_85 : hashLoop [95, 182, 238, 174, 214, 167, 81, 102, 70, 114, 86, 144, 17, 90, 185, 178, 199, 15, 223, 180] 14 = [78, 190, 86, 238, 0, 153, 204, 26, 246, 100, 173, 103, 179, 65, 12, 43, 10, 24, 207, 186] := by
  rw [show (14 : Nat) = 13 + 1 from rfl, hashLoop_succ, stepA_86]
  exact chainA_86
theorem chainA_84 : hashLoop [217, 213, 73, 113, 53, 118, 29, 217, 164, 227, 43, 161, 57, 237, 18, 238, 231, 67, 69, 200] 15 = [78, 190, 86, 238, 0, 153, 204, 26, 246, 100, 173, 103, 179, 65, 12, 43, 10, 24, 207, 186] := by
  rw [show (15 : Nat) = 14 + 1 from rfl, hashLoop_succ, stepA_85]
  exact chainA_85
theorem chainA_83 : hashLoop [23, 213, 212, 133, 182, 224, 223, 148, 239, 16, 222, 223, 136, 107, 240, 3, 122, 90, 18, 53] 16 = [78, 190, 86, 238, 0, 153, 204, 26, 246, 100, 173, 103, 179, 65, 12, 43, 10, 24, 207, 186] := by
  rw [show (16 : Nat) = 15 + 1 from rfl, hashLoop_succ, stepA_84]
  exact chainA_84
theorem chainA_82 : hashLoop [251, 252, 183, 205, 245, 90, 149, 141, 92, 203, 102, 182, 113, 55, 156, 236, 209, 164, 158, 173] 17 = [78, 190, 86, 238, 0, 153, 204, 26, 246, 100, 173, 103, 179, 65, 12, 43, 10, 24, 207, 186] := by
  rw [show (17 : Nat) = 16 + 1 from rfl, hashLoop_succ, stepA_83]
  exact chainA_83
theorem chainA_81 : hashLoop [167, 165, 172, 148, 230, 11, 122, 54, 193, 200, 171, 182, 187, 80, 35, 208, 36, 133, 14, 182] 18 = [78, 190, 86, 238, 0, 153, 204, 26, 246, 100, 173, 103, 179, 65, 12, 43, 10, 24, 207, 186] := by
  rw [show (18 : Nat) = 17 + 1 from rfl, hashLoop_succ, stepA_82]
  exact chainA_82
theorem chainA_80 : hashLoop [232, 42, 20, 220, 209, 96, 112, 13, 38, 191, 210, 236, 85, 92, 170, 124, 110, 119, 241, 5] 19 = [78, 190, 86, 238, 0, 153, 204, 26, 246, 100, 173, 103, 179, 65, 12, 43, 10, 24, 207, 186] := by
  rw [show (19 : Nat) = 18 + 1 from rfl, hashLoop_succ, stepA_81]
  exact chainA_81
theorem chainA_79 : hashLoop [172, 68, 169, 36, 196, 67, 221, 192, 144, 159, 86, 0, 88, 142, 153, 23, 113, 164, 18, 177] 20 = [78, 190, 86, 238, 0, 153, 204, 26, 246, 100, 173, 103, 179, 65, 12, 43, 10, 24, 207, 186] := by
  rw [show (20 : Nat) = 19 + 1 from rfl, hashLoop_succ, stepA_80]
  exact chainA_80
theorem chainA_78 : hashLoop [240, 97, 247, 183, 13, 111, 132, 135, 229, 138, 63, 137, 254, 163, 57, 247, 34, 13, 147, 254] 21 = [78, 190, 86, 238, 0, 153, 204, 26, 246, 100, 173, 103, 179, 65, 12, 43, 10, 24, 207, 186] := by
  rw [show (21 : Nat) = 20 + 1 from rfl, hashLoop_succ, stepA_79]
  exact chainA_79
theorem chainA_77 : hashLoop [246, 199, 149, 11, 96, 80, 0, 161, 60, 52, 39, 226, 180, 92, 98, 36, 50, 186, 24, 99] 22 = [78, 190, 86, 238, 0, 153, 204, 26, 246, 100, 173, 103, 179, 65, 12, 43, 10, 24, 207, 186] := by
  rw [show (22 : Nat) = 21 + 1 from rfl, hashLoop_succ, stepA_78]
  exact chainA_78
theorem chainA_76 : hashLoop [47, 201, 251, 101, 29, 31, 0, 144, 162, 31, 54, 139, 157, 180, 14, 252, 57, 64, 121, 6] 23 = [78, 190, 86, 238, 0, 153, 204, 26, 246, 100, 173, 103, 179, 65, 12, 43, 10, 24, 207, 186] := by
  rw [show (23 : Nat) = 22 + 1 from rfl, hashLoop_succ, stepA_77]
  exact chainA_77
theorem chainA_75 : hashLoop [83, 249, 94, 179, 244, 88, 232, 8, 126, 184, 183, 115, 81, 82, 238, 208, 45, 41, 26, 250] 24 = [78, 190, 86, 238, 0, 153, 204, 26, 246, 100, 173, 103, 179, 65, 12, 43, 10, 24, 207, 186] := by
  rw [show (24 : Nat) = 23 + 1 from rfl, hashLoop_succ, stepA_76]
  exact chainA_76
theorem chainA_74 : hashLoop [112, 36, 49, 184, 230, 17, 241, 150, 104, 25, 139, 96, 154, 139, 132, 94, 226, 144, 100, 172] 25 = [78, 190, 86, 238, 0, 153, 204, 26, 246, 100, 173, 103, 179, 65, 12, 43, 10, 24, 207, 186] := by
  rw [show (25 : Nat) = 24 + 1 from rfl, hashLoop_succ, stepA_75]
  exact chainA_75
theorem chainA_73 : hashLoop [104, 144, 174, 19, 182, 87, 242, 23, 48, 99, 240, 238, 194, 65, 99, 141, 77, 224, 121, 49] 26 = [78, 190, 86, 238, 0, 153, 204, 26, 246, 100, 173, 103, 179, 65, 12, 43, 10, 24, 207, 186] := by
  rw [show (26 : Nat) = 25 + 1 from rfl, hashLoop_succ, stepA_74]
  exact chainA_74
theorem chainA_72 : hashLoop [195, 183, 209, 109, 57, 115, 68, 136, 167, 153, 189, 121, 222, 164, 102, 91, 200, 131, 105, 230] 27 = [78, 190, 86, 238, 0, 153, 204, 26, 246, 100, 173, 103, 179, 65, 12, 43, 10, 24, 207, 186] := by
  rw [show (27 : Nat) = 26 + 1 from rfl, hashLoop_succ, stepA_73]
  exact chainA_73
theorem chainA_71 : hashLoop [193, 214, 43, 4, 2, 157, 176, 29, 61, 236, 156, 8, 139, 134, 196, 235, 64, 246, 160, 98] 28 = [78, 190, 86, 238, 0, 153, 204, 26, 246, 100, 173, 103, 179, 65, 12, 43, 10, 24, 207, 186] := by
  rw [show (28 : Nat) = 27 + 1 from rfl, hashLoop_succ, stepA_72]
  exact chainA_72
theorem chainA_70 : hashLoop [5, 248, 0, 164, 227, 224, 206, 113, 2, 185, 232, 189, 136, 155, 247, 103, 190, 148, 30, 169] 29 = [78, 190, 86, 238, 0, 153, 204, 26, 246, 100, 173, 103, 179, 65, 12, 43, 10, 24, 207, 186] := by
  rw [show (29 : Nat) = 28 + 1 from rfl, hashLoop_succ, stepA_71]
  exact chainA_71
theorem chainA_69 : hashLoop [11, 190, 112, 59, 111, 135, 162, 82, 118, 37, 48, 93, 213, 106, 227, 131, 183, 215, 36, 27] 30 = [78, 190, 86, 238, 0, 153, 204, 26, 246, 100, 173, 103, 179, 65, 12, 43, 10, 24, 207, 186] := by
  rw [show (30 : Nat) = 29 + 1 from rfl, hashLoop_succ, stepA_70]
  exact chainA_70
theorem chainA_68 : hashLoop [142, 161, 32, 84, 129, 90, 116, 110, 177, 140, 67, 67, 231, 21, 227, 50, 231, 231, 88, 62] 31 = [78, 190, 86, 238, 0, 153, 204, 26, 246, 100, 173, 103, 179, 65, 12, 43, 10, 24, 207, 186] := by
  rw [show (31 : Nat) = 30 + 1 from rfl, hashLoop_succ, stepA_69]
  exact chainA_69
theorem chainA_67 : hashLoop [138, 112, 4, 78, 32, 220, 188, 131, 39, 125, 251, 119, 22, 239, 191, 11, 24, 204, 108, 201] 32 = [78, 190, 86, 238, 0, 153, 204, 26, 246, 100, 173, 103, 179, 65, 12, 43, 10, 24, 207, 186] := by
  rw [show (32 : Nat) = 31 + 1 from rfl, hashLoop_succ, stepA_68]
  exact chainA_68
theorem chainA_66 : hashLoop [65, 253, 182, 56, 194, 205, 51, 248, 104, 107, 131, 124, 10, 166, 169, 222, 153, 80, 63, 153] 33 = [78, 190, 86, 238, 0, 153, 204, 26, 246, 100, 173, 103, 179, 65, 12, 43, 10, 24, 207, 186] := by
  rw [show (33 : Nat) = 32 + 1 from rfl, hashLoop_succ, stepA_67]
  exact chainA_67
theorem chainA_65 : hashLoop [156, 176, 103, 59, 68, 240, 3, 182, 102, 64, 100, 117, 72, 121, 228, 117, 216, 154, 139, 77] 34 = [78, 190, 86, 238, 0, 153, 204, 26, 246, 100, 173, 103, 179, 65, 12, 43, 10, 24, 207, 186] := by
  rw [show (34 : Nat) = 33 + 1 from rfl, hashLoop_succ, stepA_66]
  exact chainA_66
theorem chainA_64 : hashLoop [242, 209, 146, 226, 98, 121, 157, 47, 156, 93, 63, 10, 82, 142, 127, 47, 229, 239, 17, 17] 35 = [78, 190, 86, 238, 0, 153, 204, 26, 246, 100, 173, 103, 179, 65, 12, 43, 10, 24, 207, 186] := by
  rw [show (35 : Nat) = 34 + 1 from rfl, hashLoop_succ, stepA_65]
  exact chainA_65
theorem chainA_63 : hashLoop [144, 37, 56, 82, 201, 96, 34, 94, 51, 33, 187, 9, 242, 158, 136, 206, 241, 51, 171, 130] 36 = [78, 190, 86, 238, 0, 153, 204, 26, 246, 100, 173, 103, 179, 65, 12, 43, 10, 24, 207, 186] := by
  rw [show (36 : Nat) = 35 + 1 from rfl, hashLoop_succ, stepA_64]
  exact chainA_64
theorem chainA_62 : hashLoop [217, 58, 21, 7, 18, 65, 212, 232, 155, 108, 180, 227, 79, 171, 237, 218, 196, 81, 18, 34] 37 = [78, 190, 86, 238, 0, 153, 204, 26, 246, 100, 173, 103, 179, 65, 12, 43, 10, 24, 207, 186] := by
  rw [show (37 : Nat) = 36 + 1 from rfl, hashLoop_succ, stepA_63]
  exact chainA_63
theorem chainA_61 : hashLoop [100, 6, 139, 53, 107, 123, 226, 132, 18, 214, 69, 189, 190, 126, 96, 152, 47, 220, 123, 130] 38 = [78, 190, 86, 238, 0, 153, 204, 26, 246, 100, 173, 103, 179, 65, 12, 43, 10, 24, 207, 186] := by
  rw [show (38 : Nat) = 37 + 1 from rfl, hashLoop_succ, stepA_62]
  exact chainA_62
theorem chainA_60 : hashLoop [174, 106, 210, 7, 138, 228, 68, 113, 80, 142, 60, 4, 220, 125, 170, 17, 98, 6, 145, 210] 39 = [78, 190, 86, 238, 0, 153, 204, 26, 246, 100, 173, 103, 179, 65, 12, 43, 10, 24, 207, 186] := by
  rw [show (39 : Nat) = 38 + 1 from rfl, hashLoop_succ, stepA_61]
  exact chainA_61
theorem chainA_59 : hashLoop [1, 194, 223, 194, 69, 238, 153, 228, 252, 239, 149, 176, 105, 158, 85, 74, 231, 207, 203, 167] 40 = [78, 190, 86, 238, 0, 153, 204, 26, 246, 100, 173, 103, 179, 65, 12, 43, 10, 24, 207, 186] := by
  rw [show (40 : Nat) = 39 + 1 from rfl, hashLoop_succ, stepA_60]
  exact chainA_60
theorem chainA_58 : hashLoop [69, 87, 102, 238, 20, 92, 177, 38, 116, 190, 29, 14, 73, 34, 99, 193, 189, 227, 4, 73] 41 = [78, 190, 86, 238, 0, 153, 204, 26, 246, 100, 173, 103, 179, 65, 12, 43, 10, 24, 207, 186] := by
  rw [show (41 : Nat) = 40 + 1 from rfl, hashLoop_succ, stepA_59]
  exact chainA_59
theorem chainA_57 : hashLoop [186, 196, 223, 171, 47, 45, 7, 33, 195, 255, 143, 110, 52, 34, 102, 45, 57, 97, 10, 241] 42 = [78, 190, 86, 238, 0, 153, 204, 26, 246, 100, 173, 103, 179, 65, 12, 43, 10, 24, 207, 186] := by
  rw [show (42 : Nat) = 41 + 1 from rfl, hashLoop_succ, stepA_58]
  exact chainA_58
theorem chainA_56 : hashLoop [226, 203, 237, 125, 62, 109, 88, 115, 68, 31, 116, 48, 92, 216, 110, 62, 35, 243, 48, 0] 43 = [78, 190, 86, 238, 0, 153, 204, 26, 246, 100, 173, 103, 179, 65, 12, 43, 10, 24, 207, 186] := by
  rw [show (43 : Nat) = 42 + 1 from rfl, hashLoop_succ, stepA_57]
  exact chainA_57
theorem chainA_55 : hashLoop [62, 157, 129, 0, 139, 121, 8, 63, 5, 98, 159, 58, 89, 109, 56, 217, 222, 30, 112, 128] 44 = [78, 190, 86, 238, 0, 153, 204, 26, 246, 100, 173, 103, 179, 65, 12, 43, 10, 24, 207, 186] := by
  rw [show (44 : Nat) = 43 + 1 from rfl, hashLoop_succ, stepA_56]
  exact chainA_56
theorem chainA_54 : hashLoop [107, 46, 44, 135, 87, 41, 212, 51, 104, 102, 162, 3, 35, 166, 44, 72, 188, 133, 127, 49] 45 = [78, 190, 86, 238, 0, 153, 204, 26, 246, 100, 173, 103, 179, 65, 12, 43, 10, 24, 207, 186] := by
  rw [show (45 : Nat) = 44 + 1 from rfl, hashLoop_succ, stepA_55]
  exact chainA_55
theorem chainA_53 : hashLoop [189, 167, 90, 12, 30, 214, 232, 115, 226, 105, 98, 52, 192, 155, 55, 33, 33, 170, 253, 254] 46 = [78, 190, 86, 238, 0, 153, 204, 26, 246, 100, 173, 103, 179, 65, 12, 43, 10, 24, 207, 186] := by
  rw [show (46 : Nat) = 45 + 1 from rfl, hashLoop_succ, stepA_54]
  exact chainA_54
theorem chainA_52 : hashLoop [224, 133, 9, 128, 254, 191, 44, 98, 93, 146, 121, 17, 233, 181, 31, 162, 32, 65, 75, 218] 47 = [78, 190, 86, 238, 0, 153, 204, 26, 246, 100, 173, 103, 179, 65, 12, 43, 10, 24, 207, 186] := by
  rw [show (47 : Nat) = 46 + 1 from rfl, hashLoop_succ, stepA_53]
  exact chainA_53
theorem chainA_51 : hashLoop [214, 232, 133, 183, 105, 142, 180, 25, 229, 14, 221, 126, 158, 138, 35, 73, 34, 137, 166, 168] 48 = [78, 190, 86, 238, 0, 153, 204, 26, 246, 100, 173, 103, 179, 65, 12, 43, 10, 24, 207, 186] := by
  rw [show (48 : Nat) = 47 + 1 from rfl, hashLoop_succ, stepA_52]
  exact chainA_52
theorem chainA_50 : hashLoop [204, 241, 122, 125, 110, 250, 168, 58, 41, 104, 129, 229, 36, 183, 226, 88, 160, 149, 6, 115] 49 = [78, 190, 86, 238, 0, 153, 204, 26, 246, 100, 173, 103, 179, 65, 12, 43, 10, 24, 207, 186] := by
  rw [show (49 : Nat) = 48 + 1 from rfl, hashLoop_succ, stepA_51]
  exact chainA_51
theorem chainA_49 : hashLoop [61, 70, 178, 81, 250, 40, 96, 129, 141, 81, 199, 241, 93, 195, 181, 178, 159, 255, 207, 84] 50 = [78, 190, 86, 238, 0, 153, 204, 26, 246, 100, 173, 103, 179, 65, 12, 43, 10, 24, 207, 186] := by
  rw [show (50 : Nat) = 49 + 1 from rfl, hashLoop_succ, stepA_50]
  exact chainA_50
theorem chainA_48 : hashLoop [75, 164, 98, 123, 119, 104, 188, 82, 188, 203, 46, 239, 229, 177, 235, 59, 56, 61, 201, 210] 51 = [78, 190, 86, 238, 0, 153, 204, 26, 246, 100, 173, 103, 179, 65, 12, 43, 10, 24, 207, 186] := by
  rw [show (51 : Nat) = 50 + 1 from rfl, hashLoop_succ, stepA_49]
  exact chainA_49
theorem chainA_47 : hashLoop [217, 240, 36, 187, 243, 32, 55, 35, 82, 74, 179, 219, 220, 244, 33, 147, 81, 24, 98, 133] 52 = [78, 190, 86, 238, 0, 153, 204, 26, 246, 100, 173, 103, 179, 65, 12, 43, 10, 24, 207, 186] := by
  rw [show (52 : Nat) = 51 + 1 from rfl, hashLoop_succ, stepA_48]
  exact chainA_48
theorem chainA_46 : hashLoop [127, 4, 226, 197, 30, 135, 142, 145, 159, 194, 247, 80, 1, 190, 119, 131, 156, 189, 58, 79] 53 = [78, 190, 86, 238, 0, 153, 204, 26, 246, 100, 173, 103, 179, 65, 12, 43, 10, 24, 207, 186] := by
  rw [show (53 : Nat) = 52 + 1 from rfl, hashLoop_succ, stepA_47]
  exact chainA_47
theorem chainA_45 : hashLoop [86, 69, 49, 152, 41, 254, 154, 1, 244, 224, 238, 56, 109, 65, 165, 154, 80, 242, 83, 201] 54 = [78, 190, 86, 238, 0, 153, 204, 26, 246, 100, 173, 103, 179, 65, 12, 43, 10, 24, 207, 186] := by
  rw [show (54 : Nat) = 53 + 1 from rfl, hashLoop_succ, stepA_46]
  exact chainA_46
theorem chainA_44 : hashLoop [202, 79, 14, 95, 162, 226, 232, 212, 93, 191, 10, 105, 38, 179, 104, 44, 2, 58, 169, 106] 55 = [78, 190, 86, 238, 0, 153, 204, 26, 246, 100, 173, 103, 179, 65, 12, 43, 10, 24, 207, 186] := by
  rw [show (55 : Nat) = 54 + 1 from rfl, hashLoop_succ, stepA_45]
  exact chainA_45
theorem chainA_43 : hashLoop [41, 247, 39, 231, 241, 180, 5, 40, 90, 52, 181, 43, 122, 25, 12, 239, 115, 248, 249, 173] 56 = [78, 190, 86, 238, 0, 153, 204, 26, 246, 100, 173, 103, 179, 65, 12, 43, 10, 24, 207, 186] := by
  rw [show (56 : Nat) = 55 + 1 from rfl, hashLoop_succ, stepA_44]
  exact chainA_44
theorem chainA_42 : hashLoop [86, 180, 180, 111, 9, 85, 48, 226, 234, 84, 245, 122, 155, 140, 66, 208, 216, 216, 86, 119] 57 = [78, 190, 86, 238, 0, 153, 204, 26, 246, 100, 173, 103, 179, 65, 12, 43, 10, 24, 207, 186] := by
  rw [show (57 : Nat) = 56 + 1 from rfl, hashLoop_succ, stepA_43]
  exact chainA_43
theorem chainA_41 : hashLoop [104, 57, 179, 76, 157, 103, 228, 39, 193, 53, 254, 206, 177, 227, 58, 24, 112, 132, 186, 18] 58 = [78, 190, 86, 238, 0, 153, 204, 26, 246, 100, 173, 103, 179, 65, 12, 43, 10, 24, 207, 186] := by
  rw [show (58 : Nat) = 57 + 1 from rfl, hashLoop_succ, stepA_42]
  exact chainA_42
theorem chainA_40 : hashLoop [234, 73, 117, 158, 230, 2, 46, 178, 90, 159, 104, 171, 240, 7, 91, 84, 231, 190, 124, 130] 59 = [78, 190, 86, 238, 0, 153, 204, 26, 246, 100, 173, 103, 179, 65, 12, 43, 10, 24, 207, 186] := by
  rw [show (59 : Nat) = 58 + 1 from rfl, hashLoop_succ, stepA_41]
  exact chainA_41
theorem chainA_39 : hashLoop [208, 196, 92, 63, 225, 235, 206, 153, 12, 111, 218, 27, 202, 172, 76, 116, 80, 98, 95, 215] 60 = [78, 190, 86, 238, 0, 153, 204, 26, 246, 100, 173, 103, 179, 65, 12, 43, 10, 24, 207, 186] := by
  rw [show (60 : Nat) = 59 + 1 from rfl, hashLoop_succ, stepA_40]
  exact chainA_40
theorem chainA_38 : hashLoop [150, 247, 202, 83, 119, 2, 165, 16, 31, 49, 90, 77, 174, 80, 58, 160, 184, 90, 53, 21] 61 = [78, 190, 86, 238, 0, 153, 204, 26, 246, 100, 173, 103, 179, 65, 12, 43, 10, 24, 207, 186] := by
  rw [show (61 : Nat) = 60 + 1 from rfl, hashLoop_succ, stepA_39]
  exact chainA_39
theorem chainA_37 : hashLoop [62, 230, 162, 168, 22, 50, 98, 67, 120, 61, 149, 82, 136, 12, 103, 34, 137, 164, 240, 95] 62 = [78, 190, 86, 238, 0, 153, 204, 26, 246, 100, 173, 103, 179, 65, 12, 43, 10, 24, 207, 186] := by
  rw [show (62 : Nat) = 61 + 1 from rfl, hashLoop_succ, stepA_38]
  exact chainA_38
theorem chainA_36 : hashLoop [22, 21, 148, 155, 69, 208, 89, 153, 135, 138, 31, 182, 236, 87, 103, 106, 207, 42, 244, 10] 63 = [78, 190, 86, 238, 0, 153, 204, 26, 246, 100, 173, 103, 179, 65, 12, 43, 10, 24, 207, 186] := by
  rw [show (63 : Nat) = 62 + 1 from rfl, hashLoop_succ, stepA_37]
  exact chainA_37
theorem chainA_35 : hashLoop [73, 157, 122, 209, 253, 111, 242, 253, 165, 51, 220, 47, 105, 134, 30, 197, 150, 255, 148, 10] 64 = [78, 190, 86, 238, 0, 153, 204, 26, 246, 100, 173, 103, 179, 65, 12, 43, 10, 24, 207, 186] := by
  rw [show (64 : Nat) = 63 + 1 from rfl, hashLoop_succ, stepA_36]
  exact chainA_36
theorem chainA_34 : hashLoop [248, 94, 196, 253, 104, 213, 25, 94, 155, 117, 142, 232, 92, 87, 189, 66, 177, 156, 186, 61] 65 = [78, 190, 86, 238, 0, 153, 204, 26, 246, 100, 173, 103, 179, 65, 12, 43, 10, 24, 207, 186] := by
  rw [show (65 : Nat) = 64 + 1 from rfl, hashLoop_succ, stepA_35]
  exact chainA_35
theorem chainA_33 : hashLoop [199, 239, 178, 27, 19, 86, 213, 173, 162, 12, 49, 246, 72, 200, 223, 35, 155, 126, 126, 42] 66 = [78, 190, 86, 238, 0, 153, 204, 26, 246, 100, 173, 103, 179, 65, 12, 43, 10, 24, 207, 186] := by
  rw [show (66 : Nat) = 65 + 1 from rfl, hashLoop_succ, stepA_34]
  exact chainA_34
theorem chainA_32 : hashLoop [14, 160, 121, 124, 174, 118, 198, 70, 163, 177, 252, 143, 57, 72, 234, 159, 178, 169, 132, 223] 67 = [78, 190, 86, 238, 0, 153, 204, 26, 246, 100, 173, 103, 179, 65, 12, 43, 10, 24, 207, 186] := by
  rw [show (67 : Nat) = 66 + 1 from rfl, hashLoop_succ, stepA_33]
  exact chainA_33
theorem chainA_31 : hashLoop [137, 126, 94, 69, 145, 196, 235, 181, 196, 51, 64, 178, 189, 199, 213, 204, 128, 238, 23, 83] 68 = [78, 190, 86, 238, 0, 153, 204, 26, 246, 100, 173, 103, 179, 65, 12, 43, 10, 24, 207, 186] := by
  rw [show (68 : Nat) = 67 + 1 from rfl, hashLoop_succ, stepA_32]
  exact chainA_32
theorem chainA_30 : hashLoop [83, 171, 31, 158, 41, 8, 174, 170, 84, 48, 226, 163, 226, 117, 3, 59, 72, 68, 138, 133] 69 = [78, 190, 86, 238, 0, 153, 204, 26, 246, 100, 173, 103, 179, 65, 12, 43, 10, 24, 207, 186] := by
  rw [show (69 : Nat) = 68 + 1 from rfl, hashLoop_succ, stepA_31]
  exact chainA_31
theorem chainA_29 : hashLoop [162, 120, 185, 246, 66, 79, 238, 30, 249, 255, 215, 92, 59, 251, 62, 78, 71, 54, 161, 48] 70 = [78, 190, 86, 238, 0, 153, 204, 26, 246, 100, 173, 103, 179, 65, 12, 43, 10, 24, 207, 186] := by
  rw [show (70 : Nat) = 69 + 1 from rfl, hashLoop_succ, stepA_30]
  exact chainA_30
theorem chainA_28 : hashLoop [34, 136, 66, 55, 226, 145, 208, 193, 248, 126, 52, 60, 141, 24, 95, 106, 13, 73, 47, 245] 71 = [78, 190, 86, 238, 0, 153, 204, 26, 246, 100, 173, 103, 179, 65, 12, 43, 10, 24, 207, 186] := by
  rw [show (71 : Nat) = 70 + 1 from rfl, hashLoop_succ, stepA_29]
  exact chainA_29
theorem chainA_27 : hashLoop [45, 155, 96, 122, 205, 237, 37, 110, 238, 52, 187, 152, 175, 249, 116, 156, 215, 244, 122, 72] 72 = [78, 190, 86, 238, 0, 153, 204, 26, 246, 100, 173, 103, 179, 65, 12, 43, 10, 24, 207, 186] := by
  rw [show (72 : Nat) = 71 + 1 from rfl, hashLoop_succ, stepA_28]
  exact chainA_28
theorem chainA_26 : hashLoop [83, 125, 213, 114, 169, 188, 38, 156, 241, 200, 102, 222, 218, 141, 155, 69, 22, 20, 4, 50] 73 = [78, 190, 86, 238, 0, 153, 204, 26, 246, 100, 173, 103, 179, 65, 12, 43, 10, 24, 207, 186] := by
  rw [show (73 : Nat) = 72 + 1 from rfl, hashLoop_succ, stepA_27]
  exact chainA_27
theorem chainA_25 : hashLoop [27, 44, 210, 32, 196, 191, 1, 206, 223, 18, 209, 89, 2, 201, 62, 28, 177, 118, 106, 83] 74 = [78, 190, 86, 238, 0, 153, 204, 26, 246, 100, 173, 103, 179, 65, 12, 43, 10, 24, 207, 186] := by
  rw [show (74 : Nat) = 73 + 1 from rfl, hashLoop_succ, stepA_26]
  exact chainA_26
theorem chainA_24 : hashLoop [126, 79, 125, 61, 99, 179, 111, 239, 53, 21, 81, 48, 40, 227, 186, 95, 8, 48, 109, 167] 75 = [78, 190, 86, 238, 0, 153, 204, 26, 246, 100, 173, 103, 179, 65, 12, 43, 10, 24, 207, 186] := by
  rw [show (75 : Nat) = 74 + 1 from rfl, hashLoop_succ, stepA_25]
  exact chainA_25
theorem chainA_23 : hashLoop [151, 84, 248, 116, 117, 47, 39, 184, 104, 197, 105, 249, 70, 193, 70, 242, 65, 43, 37, 35] 76 = [78, 190, 86, 238, 0, 153, 204, 26, 246, 100, 173, 103, 179, 65, 12, 43, 10, 24, 207, 186] := by
  rw [show (76 : Nat) = 75 + 1 from rfl, hashLoop_succ, stepA_24]
  exact chainA_24
theorem chainA_22 : hashLoop [246, 77, 139, 162, 139, 51, 110, 31, 178, 81, 53, 51, 96, 80, 7, 93, 54, 212, 167, 96] 77 = [78, 190, 86, 238, 0, 153, 204, 26, 246, 100, 173, 103, 179, 65, 12, 43, 10, 24, 207, 186] := by
  rw [show (77 : Nat) = 76 + 1 from rfl, hashLoop_succ, stepA_23]
  exact chainA_23
theorem chainA_21 : hashLoop [103, 231, 207, 109, 15, 150, 195, 134, 209, 169, 55, 93, 30, 23, 161, 44, 200, 227, 205, 221] 78 = [78, 190, 86, 238, 0, 153, 204, 26, 246, 100, 173, 103, 179, 65, 12, 43, 10, 24, 207, 186] := by
  rw [show (78 : Nat) = 77 + 1 from rfl, hashLoop_succ, stepA_22]
  exact chainA_22
theorem chainA_20 : hashLoop [125, 102, 55, 96, 226, 11, 255, 182, 126, 168, 63, 136, 127, 145, 168, 74, 12, 70, 155, 199] 79 = [78, 190, 86, 238, 0, 153, 204, 26, 246, 100, 173, 103, 179, 65, 12, 43, 10, 24, 207, 186] := by
  rw [show (79 : Nat) = 78 + 1 from rfl, hashLoop_succ, stepA_21]
  exact chainA_21
theorem chainA_19 : hashLoop [121, 117, 234, 125, 25, 249, 70, 151, 13, 1, 87, 87, 229, 46, 237, 129, 235, 1, 64, 175] 80 = [78, 190, 86, 238, 0, 153, 204, 26, 246, 100, 173, 103, 179, 65, 12, 43, 10, 24, 207, 186] := by
  rw [show (80 : Nat) = 79 + 1 from rfl, hashLoop_succ, stepA_20]
  exact chainA_20
theorem chainA_18 : hashLoop [42, 217, 8, 111, 152, 170, 194, 99, 80, 171, 255, 150, 237, 64, 73, 168, 52, 56, 242, 126] 81 = [78, 190, 86, 238, 0, 153, 204, 26, 246, 100, 173, 103, 179, 65, 12, 43, 10, 24, 207, 186] := by
  rw [show (81 : Nat) = 80 + 1 from rfl, hashLoop_succ, stepA_19]
  exact chainA_19
theorem chainA_17 : hashLoop [20, 130, 144, 160, 203, 36, 198, 39, 217, 202, 17, 93, 3, 138, 68, 181, 132, 77, 163, 83] 82 = [78, 190, 86, 238, 0, 153, 204, 26, 246, 100, 173, 103, 179, 65, 12, 43, 10, 24, 207, 186] := by
  rw [show (82 : Nat) = 81 + 1 from rfl, hashLoop_succ, stepA_18]
  exact chainA_18
theorem chainA_16 : hashLoop [114, 145, 200, 10, 113, 170, 90, 86, 86, 207, 21, 101, 150, 130, 247, 135, 84, 60, 29, 43] 83 = [78, 190, 86, 238, 0, 153, 204, 26, 246, 100, 173, 103, 179, 65, 12, 43, 10, 24, 207, 186] := by
  rw [show (83 : Nat) = 82 + 1 from rfl, hashLoop_succ, stepA_17]
  exact chainA_17
theorem chainA_15 : hashLoop [161, 6, 188, 217, 190, 250, 105, 162, 223, 217, 207, 29, 26, 235, 230, 141, 248, 172, 100, 250] 84 = [78, 190, 86, 238, 0, 153, 204, 26, 246, 100, 173, 103, 179, 65, 12, 43, 10, 24, 207, 186] := by
  rw [show (84 : Nat) = 83 + 1 from rfl, hashLoop_succ, stepA_16]
  exact chainA_16
theorem chainA_14 : hashLoop [89, 213, 36, 83, 3, 214, 188, 55, 161, 20, 111, 36, 20, 6, 81, 146, 116, 167, 42, 48] 85 = [78, 190, 86, 238, 0, 153, 204, 26, 246, 100, 173, 103, 179, 65, 12, 43, 10, 24, 207, 186] := by
  rw [show (85 : Nat) = 84 + 1 from rfl, hashLoop_succ, stepA_15]
  exact chainA_15
theorem chainA_13 : hashLoop [200, 131, 96, 40, 0, 2, 114, 71, 36, 237, 67, 45, 187, 248, 27, 20, 18, 158, 135, 77] 86 = [78, 190, 86, 238, 0, 153, 204, 26, 246, 100, 173, 103, 179, 65, 12, 43, 10, 24, 207, 186] := by
  rw [show (86 : Nat) = 85 + 1 from rfl, hashLoop_succ, stepA_14]
  exact chainA_14
theorem chainA_12 : hashLoop [7, 134, 173, 32, 166, 43, 176, 92, 161, 194, 228, 29, 235, 45, 113, 49, 148, 18, 137, 16] 87 = [78, 190, 86, 238, 0, 153, 204, 26, 246, 100, 173, 103, 179, 65, 12, 43, 10, 24, 207, 186] := by
  rw [show (87 : Nat) = 86 + 1 from rfl, hashLoop_succ, stepA_13]
  exact chainA_13
theorem chainA_11 : hashLoop [37, 40, 100, 13, 178, 144, 45, 198, 114, 116, 138, 117, 170, 231, 252, 240, 4, 88, 159, 34] 88 = [78, 190, 86, 238, 0, 153, 204, 26, 246, 100, 173, 103, 179, 65, 12, 43, 10, 24, 207, 186] := by
  rw [show (88 : Nat) = 87 + 1 from rfl, hashLoop_succ, stepA_12]
  exact chainA_12
theorem chainA_10 : hashLoop [186, 171, 110, 243, 226, 192, 83, 117, 100, 14, 19, 77, 138, 49, 231, 127, 5, 59, 232, 166] 89 = [78, 190, 86, 238, 0, 153, 204, 26, 246, 100, 173, 103, 179, 65, 12, 43, 10, 24, 207, 186] := by
  rw [show (89 : Nat) = 88 + 1 from rfl, hashLoop_succ, stepA_11]
  exact chainA_11
theorem chainA_9 : hashLoop [19, 203, 126, 209, 254, 110, 242, 159, 35, 137, 161, 222, 206, 88, 148, 85, 181, 235, 222, 139] 90 = [78, 190, 86, 238, 0, 153, 204, 26, 246, 100, 173, 103, 179, 65, 12, 43, 10, 24, 207, 186] := by
  rw [show (90 : Nat) = 89 + 1 from rfl, hashLoop_succ, stepA_10]
  exact chainA_10
theorem chainA_8 : hashLoop [152, 195, 222, 59, 145, 110, 244, 233, 183, 184, 87, 124, 171, 164, 159, 85, 25, 14, 107, 184] 91 = [78, 190, 86, 238, 0, 153, 204, 26, 246, 100, 173, 103, 179, 65, 12, 43, 10, 24, 207, 186] := by
  rw [show (91 : Nat) = 90 + 1 from rfl, hashLoop_succ, stepA_9]
  exact chainA_9
theorem chainA_7 : hashLoop [162, 175, 202, 102, 247, 134, 230, 138, 162, 57, 128, 212, 16, 143, 154, 218, 89, 166, 82, 225] 92 = [78, 190, 86, 238, 0, 153, 204, 26, 246, 100, 173, 103, 179, 65, 12, 43, 10, 24, 207, 186] := by
  rw [show (92 : Nat) = 91 + 1 from rfl, hashLoop_succ, stepA_8]
  exact chainA_8
theorem chainA_6 : hashLoop [255, 145, 172, 141, 234, 185, 170, 140, 242, 77, 163, 7, 11, 157, 193, 44, 235, 27, 87, 207] 93 = [78, 190, 86, 238, 0, 153, 204, 26, 246, 100, 173, 103, 179, 65, 12, 43, 10, 24, 207, 186] := by
  rw [show (93 : Nat) = 92 + 1 from rfl, hashLoop_succ, stepA_7]
  exact chainA_7
theorem chainA_5 : hashLoop [113, 241, 32, 108, 1, 122, 203, 170, 1, 175, 96, 32, 152, 252, 40, 80, 64, 252, 182, 213] 94 = [78, 190, 86, 238, 0, 153, 204, 26, 246, 100, 173, 103, 179, 65, 12, 43, 10, 24, 207, 186] := by
  rw [show (94 : Nat) = 93 + 1 from rfl, hashLoop_succ, stepA_6]
  exact chainA_6
theorem chainA_4 : hashLoop [199, 18, 47, 110, 139, 176, 106, 84, 103, 131, 175, 14, 247, 88, 127, 129, 168, 55, 59, 186] 95 = [78, 190, 86, 238, 0, 153, 204, 26, 246, 100, 173, 103, 179, 65, 12, 43, 10, 24, 207, 186] := by
  rw [show (95 : Nat) = 94 + 1 from rfl, hashLoop_succ, stepA_5]
  exact chainA_5
theorem chainA_3 : hashLoop [180, 61, 136, 63, 91, 102, 206, 48, 73, 116, 86, 146, 148, 172, 233, 205, 96, 46, 246, 183] 96 = [78, 190, 86, 238, 0, 153, 204, 26, 246, 100, 173, 103, 179, 65, 12, 43, 10, 24, 207, 186] := by
  rw [show (96 : Nat) = 95 + 1 from rfl, hashLoop_succ, stepA_4]
  exact chainA_4
theorem chainA_2 : hashLoop [229, 106, 17, 70, 146, 254, 13, 224, 115, 249, 161, 221, 104, 160, 14, 235, 151, 3, 243, 241] 97 = [78, 190, 86, 238, 0, 153, 204, 26, 246, 100, 173, 103, 179, 65, 12, 43, 10, 24, 207, 186] := by
  rw [show (97 : Nat) = 96 + 1 from rfl, hashLoop_succ, stepA_3]
  exact chainA_3
theorem chainA_1 : hashLoop [96, 31, 24, 137, 102, 126, 250, 235, 179, 59, 140, 18, 87, 40, 53, 218, 63, 2, 127, 120] 98 = [78, 190, 86, 238, 0, 153, 204, 26, 246, 100, 173, 103, 179, 65, 12, 43, 10, 24, 207, 186] := by
  rw [show (98 : Nat) = 97 + 1 from rfl, hashLoop_succ, stepA_2]
  exact chainA_2
theorem chainA_0 : hashLoop [49, 50, 51, 49, 50, 51] 99 = [78, 190, 86, 238, 0, 153, 204, 26, 246, 100, 173, 103, 179, 65, 12, 43, 10, 24, 207, 186] := by
  rw [show (99 : Nat) = 98 + 1 from rfl, hashLoop_succ, stepA_1]
  exact chainA_1
theorem stepB_1 : sha1digest [49, 50, 52, 49, 50, 51] = [77, 210, 49, 189, 47, 154, 200, 251, 87, 158, 190, 81, 210, 53, 94, 206, 27, 34, 14, 128] := by decide
theorem stepB_2 : sha1digest [77, 210, 49, 189, 47, 154, 200, 251, 87, 158, 190, 81, 210, 53, 94, 206, 27, 34, 14, 128] = [102, 18, 10, 118, 189, 96, 41, 40, 234, 208, 126, 151, 92, 110, 246, 147, 168, 123, 107, 160] := by decide
theorem stepB_3 : sha1digest [102, 18, 10, 118, 189, 96, 41, 40, 234, 208, 126, 151, 92, 110, 246, 147, 168, 123, 107, 160] = [154, 254, 197, 160, 149, 180, 110, 52, 218, 16, 92, 177, 192, 233, 51, 100, 51, 63, 251, 166] := by decide
theorem stepB_4 : sha1digest [154, 254, 197, 160, 149, 180, 110, 52, 218, 16, 92, 177, 192, 233, 51, 100, 51, 63, 251, 166] = [153, 189, 170, 232, 142, 232, 19, 51, 226, 21, 183, 230, 148, 17, 102, 16, 143, 82, 147, 159] := by decide
theorem stepB_5 : sha1digest [153, 189, 170, 232, 142, 232, 19, 51, 226, 21, 183, 230, 148, 17, 102, 16, 143, 82, 147, 159] = [29, 2, 71, 87, 19, 216, 75, 10, 126, 156, 27, 91, 249, 24, 255, 48, 50, 240, 76, 141] := by decide
theorem stepB_6 : sha1digest [29, 2, 71, 87, 19, 216, 75, 10, 126, 156, 27, 91, 249, 24, 255, 48, 50, 240, 76, 141] = [53, 46, 226, 163, 88, 155, 159, 251, 101, 147, 247, 76, 158, 205, 211, 169, 176, 169, 190, 216] := by decide
theorem stepB_7 : sha1digest [53, 46, 226, 163, 88, 155, 159, 251, 101, 147, 247, 76, 158, 205, 211, 169, 176, 169, 190, 216] = [41, 32, 197, 134, 94, 234, 94, 128, 76, 215, 35, 52, 51, 136, 41, 184, 246, 150, 203, 235] := by decide
theorem stepB_8 : sha1digest [41, 32, 197, 134, 94, 234, 94, 128, 76, 215, 35, 52, 51, 136, 41, 184, 246, 150, 203, 235] = [49, 189, 180, 141, 160, 39, 216, 133, 149, 165, 155, 184, 23, 240, 113, 231, 139, 62, 205, 27] := by decide
theorem stepB_9 : sha1digest [49, 189, 180, 141, 160, 39, 216, 133, 149, 165, 155, 184, 23, 240, 113, 231, 139, 62, 205, 27] = [79, 122, 113, 211, 14, 167, 16, 107, 215, 72, 55, 199, 126, 193, 247, 75, 132, 49, 43, 115] := by decide
theorem stepB_10 : sha1digest [79, 122, 113, 211, 14, 167, 16, 107, 215, 72, 55, 199, 126, 193, 247, 75, 132, 49, 43, 115] = [212, 18, 172, 133, 3, 191, 25, 66, 29, 56, 197, 134, 215, 112, 71, 98, 19, 92, 231, 222] := by decide
theorem stepB_11 : sha1digest [212, 18, 172, 133, 3, 191, 25, 66, 29, 56, 197, 134, 215, 112, 71, 98, 19, 92, 231, 222] = [90, 199, 191, 192, 95, 140, 249, 189, 89, 199, 175, 93, 94, 220, 83, 251, 125, 216, 51, 107] := by decide
theorem stepB_12 : sha1digest [90, 199, 191, 192, 95, 140, 249, 189, 89, 199, 175, 93, 94, 220, 83, 251, 125, 216, 51, 107] = [26, 150, 248, 204, 241, 149, 84, 195, 155, 223, 145, 7, 135, 226, 146, 154, 6, 16, 155, 243] := by decide
theorem stepB_13 : sha1digest [26, 150, 248, 204, 241, 149, 84, 195, 155, 223, 145, 7, 135, 226, 146, 154, 6, 16, 155, 243] = [100, 200, 212, 3, 110, 65, 150, 65, 198, 220, 34, 144, 82, 39, 17, 86, 1, 161, 31, 127] := by decide
theorem stepB_14 : sha1digest [100, 200, 212, 3, 110, 65, 150, 65, 198, 220, 34, 144, 82, 39, 17, 86, 1, 161, 31, 127] = [52, 98, 109, 106, 214, 46, 17, 41, 150, 42, 11, 76, 6, 112, 39, 149, 110, 194, 75, 237] := by decide
theorem stepB_15 : sha1digest [52, 98, 109, 106, 214, 46, 17, 41, 150, 42, 11, 76, 6, 112, 39, 149, 110, 194, 75, 237] = [23, 101, 223, 69, 12, 197, 91, 117, 140, 31, 227, 211, 15, 221, 74, 91, 80, 129, 42, 201] := by decide
theorem stepB_16 : sha1digest [23, 101, 223, 69, 12, 197, 91, 117, 140, 31, 227, 211, 15, 221, 74, 91, 80, 129, 42, 201] = [35, 4, 64, 106, 233, 33, 40, 239, 56, 50, 155, 183, 188, 9, 73, 213, 13, 182, 57, 201] := by decide
theorem stepB_17 : sha1digest [35, 4, 64, 106, 233, 33, 40, 239, 56, 50, 155, 183, 188, 9, 73, 213, 13, 182, 57, 201] = [9, 17, 36, 237, 145, 156, 39, 72, 244, 68, 115, 138, 180, 217, 114, 111, 235, 228, 109, 52] := by decide
theorem stepB_18 : sha1digest [9, 17, 36, 237, 145, 156, 39, 72, 244, 68, 115, 138, 180, 217, 114, 111, 235, 228, 109, 52] = [61, 117, 1, 103, 218, 198, 232, 68, 139, 31, 74, 209, 229, 14, 2, 114, 140, 164, 215, 238] := by decide
theorem stepB_19 : sha1digest [61, 117, 1, 103, 218, 198, 232, 68, 139, 31, 74, 209, 229, 14, 2, 114, 140, 164, 215, 238] = [149, 215, 179, 242, 56, 67, 33, 45, 36, 188, 249, 131, 84, 42, 0, 60, 44, 228, 92, 175] := by decide
theorem stepB_20 : sha1digest [149, 215, 179, 242, 56, 67, 33, 45, 36, 188, 249, 131, 84, 42, 0, 60, 44, 228, 92, 175] = [25, 148, 138, 208, 161, 239, 36, 185, 158, 86, 182, 112, 163, 25, 124, 62, 22, 11, 148, 32] := by decide
theorem stepB_21 : sha1digest [25, 148, 138, 208, 161, 239, 36, 185, 158, 86, 182, 112, 163, 25, 124, 62, 22, 11, 148, 32] = [109, 85, 45, 248, 155, 72, 255, 141, 153, 170, 96, 57, 47, 190, 88, 176, 52, 240, 10, 83] := by decide
theorem stepB_22 : sha1digest [109, 85, 45, 248, 155, 72, 255, 141, 153, 170, 96, 57, 47, 190, 88, 176, 52, 240, 10, 83] = [57, 89, 114, 137, 203, 11, 11, 184, 175, 67, 56, 13, 196, 188, 198, 137, 77, 37, 43, 238] := by decide
theorem stepB_23 : sha1digest [57, 89, 114, 137, 203, 11, 11, 184, 175, 67, 56, 13, 196, 188, 198, 137, 77, 37, 43, 238] = [16, 246, 93, 180, 241, 47, 10, 27, 105, 217, 122, 76, 176, 220, 235, 112, 111, 134, 64, 189] := by decide
theorem stepB_24 : sha1digest [16, 246, 93, 180, 241, 47, 10, 27, 105, 217, 122, 76, 176, 220, 235, 112, 111, 134, 64, 189] = [104, 173, 143, 239, 50, 13, 215, 28, 59, 131, 43, 222, 81, 140, 201, 220, 122, 35, 79, 36] := by decide
theorem stepB_25 : sha1digest [104, 173, 143, 239, 50, 13, 215, 28, 59, 131, 43, 222, 81, 140, 201, 220, 122, 35, 79, 36] = [151, 236, 213, 51, 81, 135, 15, 131, 250, 189, 16, 72, 224, 31, 56, 174, 112, 137, 224, 194] := by decide
theorem stepB_26 : sha1digest [151, 236, 213, 51, 81, 135, 15, 131, 250, 189, 16, 72, 224, 31, 56, 174, 112, 137, 224, 194] = [40, 51, 183, 65, 91, 138, 251, 246, 200, 29, 36, 37, 175, 214, 89, 191, 175, 106, 109, 100] := by decide
theorem stepB_27 : sha1digest [40, 51, 183, 65, 91, 138, 251, 246, 200, 29, 36, 37, 175, 214, 89, 191, 175, 106, 109, 100] = [254, 138, 7, 207, 115, 1, 241, 241, 158, 49, 234, 217, 250, 121, 78, 228, 50, 114, 61, 157] := by decide
theorem stepB_28 : sha1digest [254, 138, 7, 207, 115, 1, 241, 241, 158, 49, 234, 217, 250, 121, 78, 228, 50, 114, 61, 157] = [229, 220, 39, 151, 101, 197, 166, 192, 56, 235, 67, 180, 182, 10, 244, 249, 124, 186, 198, 23] := by decide
theorem stepB_29 : sha1digest [229, 220, 39, 151, 101, 197, 166, 192, 56, 235, 67, 180, 182, 10, 244, 249, 124, 186, 198, 23] = [195, 198, 195, 244, 120, 191, 127, 226, 76, 156, 132, 149, 114, 47, 52, 57, 38, 192, 107, 59] := by decide
theorem stepB_30 : sha1digest [195, 198, 195, 244, 120, 191, 127, 226, 76, 156, 132, 149, 114, 47, 52, 57, 38, 192, 107, 59] = [169, 149, 181, 150, 31, 226, 199, 207, 0, 183, 223, 24, 44, 214, 168, 84, 209, 222, 152, 150] := by decide
theorem stepB_31 : sha1digest [169, 149, 181, 150, 31, 226, 199, 207, 0, 183, 223, 24, 44, 214, 168, 84, 209, 222, 152, 150] = [222, 24, 237, 225, 172, 183, 174, 169, 215, 101, 120, 70, 242, 73, 219, 56, 99, 175, 100, 78] := by decide
theorem stepB_32 : sha1digest [222, 24, 237, 225, 172, 183, 174, 169, 215, 101, 120, 70, 242, 73, 219, 56, 99, 175, 100, 78] = [126, 148, 59, 99, 122, 18, 235, 169, 241, 21, 20, 208, 108, 66, 20, 130, 241, 84, 80, 248] := by decide
theorem stepB_33 : sha1digest [126, 148, 59, 99, 122, 18, 235, 169, 241, 21, 20, 208, 108, 66, 20, 130, 241, 84, 80, 248] = [219, 152, 170, 59, 85, 0, 228, 103, 85, 92, 205, 166, 65, 254, 9, 178, 1, 103, 2, 241] := by decide
theorem stepB_34 : sha1digest [219, 152, 170, 59, 85, 0, 228, 103, 85, 92, 205, 166, 65, 254, 9, 178, 1, 103, 2, 241] = [115, 61, 186, 63, 165, 237, 167, 39, 15, 157, 207, 32, 1, 247, 91, 177, 4, 205, 215, 116] := by decide
theorem stepB_35 : sha1digest [115, 61, 186, 63, 165, 237, 167, 39, 15, 157, 207, 32, 1, 247, 91, 177, 4, 205, 215, 116] = [107, 253, 125, 166, 215, 68, 248, 153, 58, 69, 63, 189, 190, 5, 100, 104, 206, 141, 225, 13] := by decide
theorem stepB_36 : sha1digest [107, 253, 125, 166, 215, 68, 248, 153, 58, 69, 63, 189, 190, 5, 100, 104, 206, 141, 225, 13] = [240, 149, 15, 125, 54, 228, 47, 178, 42, 195, 155, 47, 97, 183, 241, 21, 195, 13, 142, 9] := by decide
theorem stepB_37 : sha1digest [240, 149, 15, 125, 54, 228, 47, 178, 42, 195, 155, 47, 97, 183, 241, 21, 195, 13, 142, 9] = [54, 136, 203, 193, 150, 140, 184, 96, 236, 45, 255, 111, 20, 229, 223, 143, 148, 230, 161, 14] := by decide
theorem stepB_38 : sha1digest [54, 136, 203, 193, 150, 140, 184, 96, 236, 45, 255, 111, 20, 229, 223, 143, 148, 230, 161, 14] = [140, 89, 84, 165, 28, 153, 119, 111, 54, 90, 253, 86, 9, 156, 249, 220, 15, 0, 206, 123] := by decide
theorem stepB_39 : sha1digest [140, 89, 84, 165, 28, 153, 119, 111, 54, 90, 253, 86, 9, 156, 249, 220, 15, 0, 206, 123] = [161, 228, 0, 82, 77, 240, 32, 77, 28, 243, 107, 51, 42, 81, 9, 197, 110, 44, 153, 249] := by decide
theorem stepB_40 : sha1digest [161, 228, 0, 82, 77, 240, 32, 77, 28, 243, 107, 51, 42, 81, 9, 197, 110, 44, 153, 249] = [100, 116, 245, 203, 8, 12, 129, 42, 181, 124, 117, 40, 224, 5, 114, 31, 236, 180, 66, 27] := by decide
theorem stepB_41 : sha1digest [100, 116, 245, 203, 8, 12, 129, 42, 181, 124, 117, 40, 224, 5, 114, 31, 236, 180, 66, 27] = [135, 113, 182, 145, 49, 172, 17, 34, 49, 67, 141, 3, 202, 174, 105, 208, 102, 179, 214, 246] := by decide
theorem stepB_42 : sha1digest [135, 113, 182, 145, 49, 172, 17, 34, 49, 67, 141, 3, 202, 174, 105, 208, 102, 179, 214, 246] = [67, 66, 184, 39, 95, 205, 111, 83, 251, 121, 237, 167, 150, 20, 223, 244, 115, 171, 75, 5] := by decide
theorem stepB_43 : sha1digest [67, 66, 184, 39, 95, 205, 111, 83, 251, 121, 237, 167, 150, 20, 223, 244, 115, 171, 75, 5] = [49, 66, 95, 44, 48, 75, 240, 11, 222, 75, 15, 216, 19, 225, 118, 227, 199, 127, 247, 39] := by decide
theorem stepB_44 : sha1digest [49, 66, 95, 44, 48, 75, 240, 11, 222, 75, 15, 216, 19, 225, 118, 227, 199, 127, 247, 39] = [76, 179, 81, 78, 27, 247, 98, 225, 234, 114, 235, 72, 13, 76, 44, 38, 1, 167, 228, 39] := by decide
theorem stepB_45 : sha1digest [76, 179, 81, 78, 27, 247, 98, 225, 234, 114, 235, 72, 13, 76, 44, 38, 1, 167, 228, 39] = [146, 44, 62, 72, 58, 170, 106, 115, 208, 203, 207, 118, 236, 233, 106, 136, 80, 180, 49, 7] := by decide
theorem stepB_46 : sha1digest [146, 44, 62, 72, 58, 170, 106, 115, 208, 203, 207, 118, 236, 233, 106, 136, 80, 180, 49, 7] = [174, 62, 176, 225, 61, 28, 50, 255, 104, 2, 48, 219, 50, 87, 63, 27, 186, 167, 85, 200] := by decide
theorem stepB_47 : sha1digest [174, 62, 176, 225, 61, 28, 50, 255, 104, 2, 48, 219, 50, 87, 63, 27, 186, 167, 85, 200] = [231, 53, 81, 237, 56, 38, 80, 250, 112, 219, 201, 103, 53, 1, 27, 33, 143, 65, 26, 226] := by decide
theorem stepB_48 : sha1digest [231, 53, 81, 237, 56, 38, 80, 250, 112, 219, 201, 103, 53, 1, 27, 33, 143, 65, 26, 226] = [238, 240, 146, 80, 14, 132, 228, 185, 112, 42, 61, 193, 117, 225, 37, 65, 208, 112, 53, 196] := by decide
theorem stepB_49 : sha1digest [238, 240, 146, 80, 14, 132, 228, 185, 112, 42, 61, 193, 117, 225, 37, 65, 208, 112, 53, 196] = [204, 122, 128, 100, 190, 177, 29, 34, 12, 140, 217, 167, 163, 49, 16, 93, 34, 20, 17, 19] := by decide
theorem stepB_50 : sha1digest [204, 122, 128, 100, 190, 177, 29, 34, 12, 140, 217, 167, 163, 49, 16, 93, 34, 20, 17, 19] = [182, 9, 83, 147, 27, 88, 38, 224, 205, 123, 99, 110, 133, 24, 28, 81, 174, 188, 200, 203] := by decide
theorem stepB_51 : sha1digest [182, 9, 83, 147, 27, 88, 38, 224, 205, 123, 99, 110, 133, 24, 28, 81, 174, 188, 200, 203] = [131, 193, 92, 53, 114, 201, 246, 48, 122, 39, 48, 16, 21, 156, 142, 189, 182, 109, 21, 177] := by decide
theorem stepB_52 : sha1digest [131, 193, 92, 53, 114, 201, 246, 48, 122, 39, 48, 16, 21, 156, 142, 189, 182, 109, 21, 177] = [169, 88, 4, 171, 92, 28, 12, 224, 245, 143, 187, 111, 12, 16, 46, 37, 178, 63, 126, 97] := by decide
theorem stepB_53 : sha1digest [169, 88, 4, 171, 92, 28, 12, 224, 245, 143, 187, 111, 12, 16, 46, 37, 178, 63, 126, 97] = [236, 99, 115, 32, 10, 160, 128, 236, 16, 8, 100, 68, 166, 53, 4, 202, 227, 40, 182, 145] := by decide
theorem stepB_54 : sha1digest [236, 99, 115, 32, 10, 160, 128, 236, 16, 8, 100, 68, 166, 53, 4, 202, 227, 40, 182, 145] = [47, 223, 84, 83, 146, 129, 208, 192, 93, 103, 210, 107, 54, 39, 233, 78, 91, 238, 46, 31] := by decide
theorem stepB_55 : sha1digest [47, 223, 84, 83, 146, 129, 208, 192, 93, 103, 210, 107, 54, 39, 233, 78, 91, 238, 46, 31] = [215, 198, 215, 188, 52, 84, 99, 32, 221, 41, 61, 105, 49, 171, 214, 46, 93, 105, 178, 30] := by decide
theorem stepB_56 : sha1digest [215, 198, 215, 188, 52, 84, 99, 32, 221, 41, 61, 105, 49, 171, 214, 46, 93, 105, 178, 30] = [100, 7, 45, 245, 41, 196, 99, 145, 199, 122, 243, 12, 74, 235, 231, 0, 78, 9, 33, 216] := by decide
theorem stepB_57 : sha1digest [100, 7, 45, 245, 41, 196, 99, 145, 199, 122, 243, 12, 74, 235, 231, 0, 78, 9, 33, 216] = [25, 110, 78, 169, 58, 101, 196, 109, 220, 186, 54, 23, 170, 127, 16, 233, 43, 11, 103, 121] := by decide
theorem stepB_58 : sha1digest [25, 110, 78, 169, 58, 101, 196, 109, 220, 186, 54, 23, 170, 127, 16, 233, 43, 11, 103, 121] = [172, 133, 35, 56, 94, 194, 117, 173, 171, 26, 33, 11, 215, 90, 53, 99, 109, 210, 221, 185] := by decide
theorem stepB_59 : sha1digest [172, 133, 35, 56, 94, 194, 117, 173, 171, 26, 33, 11, 215, 90, 53, 99, 109, 210, 221, 185] = [224, 11, 9, 91, 35, 99, 188, 157, 50, 197, 177, 186, 203, 90, 118, 38, 118, 255, 136, 15] := by decide
theorem stepB_60 : sha1digest [224, 11, 9, 91, 35, 99, 188, 157, 50, 197, 177, 186, 203, 90, 118, 38, 118, 255, 136, 15] = [77, 177, 76, 107, 189, 88, 18, 19, 68, 116, 230, 72, 112, 7, 160, 205, 151, 248, 144, 59] := by decide
theorem stepB_61 : sha1digest [77, 177, 76, 107, 189, 88, 18, 19, 68, 116, 230, 72, 112, 7, 160, 205, 151, 248, 144, 59] = [85, 15, 224, 68, 60, 165, 59, 234, 7, 99, 249, 9, 252, 247, 76, 45, 178, 44, 95, 37] := by decide
theorem stepB_62 : sha1digest [85, 15, 224, 68, 60, 165, 59, 234, 7, 99, 249, 9, 252, 247, 76, 45, 178, 44, 95, 37] = [110, 52, 203, 144, 195, 94, 138, 235, 111, 67, 41, 1, 246, 115, 44, 75, 48, 186, 172, 135] := by decide
theorem stepB_63 : sha1digest [110, 52, 203, 144, 195, 94, 138, 235, 111, 67, 41, 1, 246, 115, 44, 75, 48, 186, 172, 135] = [178, 238, 172, 159, 158, 15, 111, 253, 224, 127, 54, 169, 71, 84, 74, 173, 34, 191, 27, 132] := by decide
theorem stepB_64 : sha1digest [178, 238, 172, 159, 158, 15, 111, 253, 224, 127, 54, 169, 71, 84, 74, 173, 34, 191, 27, 132] = [233, 98, 140, 60, 207, 233, 101, 62, 122, 131, 214, 153, 93, 92, 178, 89, 136, 221, 14, 118] := by decide
theorem stepB_65 : sha1digest [233, 98, 140, 60, 207, 233, 101, 62, 122, 131, 214, 153, 93, 92, 178, 89, 136, 221, 14, 118] = [99, 116, 89, 118, 201, 65, 222, 123, 225, 18, 237, 86, 59, 123, 236, 18, 157, 151, 19, 253] := by decide
theorem stepB_66 : sha1digest [99, 116, 89, 118, 201, 65, 222, 123, 225, 18, 237, 86, 59, 123, 236, 18, 157, 151, 19, 253] = [45, 168, 101, 124, 154, 15, 212, 83, 119, 181, 155, 253, 121, 112, 114, 89, 99, 255, 41, 19] := by decide
theorem stepB_67 : sha1digest [45, 168, 101, 124, 154, 15, 212, 83, 119, 181, 155, 253, 121, 112, 114, 89, 99, 255, 41, 19] = [23, 202, 27, 227, 176, 97, 114, 193, 39, 2, 215, 197, 10, 111, 169, 22, 217, 190, 5, 48] := by decide
theorem stepB_68 : sha1digest [23, 202, 27, 227, 176, 97, 114, 193, 39, 2, 215, 197, 10, 111, 169, 22, 217, 190, 5, 48] = [1, 13, 248, 137, 171, 78, 177, 130, 230, 172, 104, 157, 176, 35, 193, 71, 58, 14, 233, 193] := by decide
theorem stepB_69 : sha1digest [1, 13, 248, 137, 171, 78, 177, 130, 230, 172, 104, 157, 176, 35, 193, 71, 58, 14, 233, 193] = [7, 106, 43, 245, 122, 183, 148, 52, 75, 184, 247, 160, 17, 3, 149, 182, 134, 108, 128, 6] := by decide
theorem stepB_70 : sha1digest [7, 106, 43, 245, 122, 183, 148, 52, 75, 184, 247, 160, 17, 3, 149, 182, 134, 108, 128, 6] = [207, 72, 89, 200, 148, 254, 137, 99, 245, 83, 12, 185, 63, 176, 239, 159, 70, 133, 150, 71] := by decide
theorem stepB_71 : sha1digest [207, 72, 89, 200, 148, 254, 137, 99, 245, 83, 12, 185, 63, 176, 239, 159, 70, 133, 150, 71] = [79, 0, 180, 164, 125, 240, 22, 75, 246, 220, 101, 111, 72, 24, 172, 230, 154, 175, 18, 17] := by decide
theorem stepB_72 : sha1digest [79, 0, 180, 164, 125, 240, 22, 75, 246, 220, 101, 111, 72, 24, 172, 230, 154, 175, 18, 17] = [199, 79, 234, 45, 225, 5, 170, 214, 84, 219, 164, 181, 207, 169, 113, 121, 213, 0, 123, 115] := by decide
theorem stepB_73 : sha1digest [199, 79, 234, 45, 225, 5, 170, 214, 84, 219, 164, 181, 207, 169, 113, 121, 213, 0, 123, 115] = [141, 70, 93, 60, 228, 119, 7, 174, 28, 144, 3, 50, 46, 69, 241, 219, 197, 244, 196, 25] := by decide
theorem stepB_74 : sha1digest [141, 70, 93, 60, 228, 119, 7, 174, 28, 144, 3, 50, 46, 69, 241, 219, 197, 244, 196, 25] = [123, 246, 10, 172, 18, 100, 50, 101, 34, 31, 239, 224, 207, 195, 56, 103, 76, 178, 194, 205] := by decide
theorem stepB_75 : sha1digest [123, 246, 10, 172, 18, 100, 50, 101, 34, 31, 239, 224, 207, 195, 56, 103, 76, 178, 194, 205] = [168, 20, 181, 167, 140, 249, 118, 1, 110, 160, 30, 221, 225, 178, 194, 25, 192, 251, 122, 233] := by decide
theorem stepB_76 : sha1digest [168, 20, 181, 167, 140, 249, 118, 1, 110, 160, 30, 221, 225, 178, 194, 25, 192, 251, 122, 233] = [245, 30, 233, 20, 224, 253, 197, 117, 141, 64, 123, 8, 10, 31, 88, 83, 157, 162, 13, 201] := by decide
theorem stepB_77 : sha1digest [245, 30, 233, 20, 224, 253, 197, 117, 141, 64, 123, 8, 10, 31, 88, 83, 157, 162, 13, 201] = [29, 183, 208, 201, 195, 2, 77, 38, 38, 25, 164, 61, 181, 21, 191, 136, 17, 186, 188, 233] := by decide
theorem stepB_78 : sha1digest [29, 183, 208, 201, 195, 2, 77, 38, 38, 25, 164, 61, 181, 21, 191, 136, 17, 186, 188, 233] = [178, 179, 176, 35, 250, 242, 77, 184, 29, 17, 230, 176, 63, 90, 169, 36, 122, 63, 54, 94] := by decide
theorem stepB_79 : sha1digest [178, 179, 176, 35, 250, 242, 77, 184, 29, 17, 230, 176, 63, 90, 169, 36, 122, 63, 54, 94] = [211, 38, 77, 124, 250, 218, 235, 98, 6, 163, 30, 92, 214, 93, 221, 15, 253, 71, 122, 41] := by decide
theorem stepB_80 : sha1digest [211, 38, 77, 124, 250, 218, 235, 98, 6, 163, 30, 92, 214, 93, 221, 15, 253, 71, 122, 41] = [203, 212, 241, 165, 142, 122, 13, 197, 14, 109, 84, 249, 170, 253, 196, 189, 194, 58, 102, 14] := by decide
theorem stepB_81 : sha1digest [203, 212, 241, 165, 142, 122, 13, 197, 14, 109, 84, 249, 170, 253, 196, 189, 194, 58, 102, 14] = [55, 178, 132, 81, 243, 249, 91, 58, 205, 177, 136, 138, 140, 165, 239, 128, 50, 124, 22, 85] := by decide
theorem stepB_82 : sha1digest [55, 178, 132, 81, 243, 249, 91, 58, 205, 177, 136, 138, 140, 165, 239, 128, 50, 124, 22, 85] = [86, 9, 226, 118, 37, 237, 17, 224, 43, 88, 10, 254, 206, 241, 25, 200, 134, 191, 201, 119] := by decide
theorem stepB_83 : sha1digest [86, 9, 226, 118, 37, 237, 17, 224, 43, 88, 10, 254, 206, 241, 25, 200, 134, 191, 201, 119] = [6, 204, 163, 246, 255, 157, 238, 124, 159, 248, 190, 236, 128, 120, 101, 37, 120, 50, 244, 68] := by decide
theorem stepB_84 : sha1digest [6, 204, 163, 246, 255, 157, 238, 124, 159, 248, 190, 236, 128, 120, 101, 37, 120, 50, 244, 68] = [195, 65, 194, 103, 229, 246, 210, 189, 115, 50, 46, 148, 1, 10, 165, 167, 82, 123, 170, 123] := by decide
theorem stepB_85 : sha1digest [195, 65, 194, 103, 229, 246, 210, 189, 115, 50, 46, 148, 1, 10, 165, 167, 82, 123, 170, 123] = [78, 249, 156, 16, 113, 131, 196, 47, 219, 224, 94, 93, 231, 133, 184, 94, 26, 236, 144, 228] := by decide
theorem stepB_86 : sha1digest [78, 249, 156, 16, 113, 131, 196, 47, 219, 224, 94, 93, 231, 133, 184, 94, 26, 236, 144, 228] = [17, 247, 66, 110, 138, 33, 152, 159, 118, 51, 24, 127, 193, 229, 250, 211, 58, 173, 136, 212] := by decide
theorem stepB_87 : sha1digest [17, 247, 66, 110, 138, 33, 152, 159, 118, 51, 24, 127, 193, 229, 250, 211, 58, 173, 136, 212] = [144, 3, 153, 219, 230, 182, 236, 21, 245, 108, 111, 115, 16, 0, 234, 192, 197, 222, 34, 251] := by decide
theorem stepB_88 : sha1digest [144, 3, 153, 219, 230, 182, 236, 21, 245, 108, 111, 115, 16, 0, 234, 192, 197, 222, 34, 251] = [103, 77, 232, 159, 59, 165, 167, 26, 254, 73, 255, 182, 162, 188, 14, 185, 162, 12, 150, 150] := by decide
theorem stepB_89 : sha1digest [103, 77, 232, 159, 59, 165, 167, 26, 254, 73, 255, 182, 162, 188, 14, 185, 162, 12, 150, 150] = [46, 129, 31, 35, 37, 196, 210, 215, 180, 112, 156, 20, 142, 227, 70, 39, 131, 43, 140, 152] := by decide
theorem stepB_90 : sha1digest [46, 129, 31, 35, 37, 196, 210, 215, 180, 112, 156, 20, 142, 227, 70, 39, 131, 43, 140, 152] = [218, 167, 156, 201, 202, 137, 151, 203, 1, 138, 113, 166, 222, 185, 182, 220, 110, 122, 176, 84] := by decide
theorem stepB_91 : sha1digest [218, 167, 156, 201, 202, 137, 151, 203, 1, 138, 113, 166, 222, 185, 182, 220, 110, 122, 176, 84] = [169, 236, 88, 235, 242, 117, 78, 191, 230, 249, 149, 87, 118, 120, 87, 159, 209, 71, 229, 138] := by decide
theorem stepB_92 : sha1digest [169, 236, 88, 235, 242, 117, 78, 191, 230, 249, 149, 87, 118, 120, 87, 159, 209, 71, 229, 138] = [154, 85, 82, 6, 158, 209, 18, 189, 53, 158, 110, 85, 222, 86, 23, 180, 159, 121, 68, 79] := by decide
theorem stepB_93 : sha1digest [154, 85, 82, 6, 158, 209, 18, 189, 53, 158, 110, 85, 222, 86, 23, 180, 159, 121, 68, 79] = [57, 67, 7, 126, 119, 169, 110, 10, 241, 120, 234, 40, 158, 213, 216, 10, 193, 143, 226, 133] := by decide
theorem stepB_94 : sha1digest [57, 67, 7, 126, 119, 169, 110, 10, 241, 120, 234, 40, 158, 213, 216, 10, 193, 143, 226, 133] = [146, 37, 214, 50, 138, 249, 107, 138, 205, 47, 100, 34, 150, 0, 225, 172, 0, 125, 151, 9] := by decide
theorem stepB_95 : sha1digest [146, 37, 214, 50, 138, 249, 107, 138, 205, 47, 100, 34, 150, 0, 225, 172, 0, 125, 151, 9] = [29, 193, 123, 204, 34, 236, 212, 147, 239, 49, 138, 222, 40, 90, 75, 230, 200, 16, 51, 190] := by decide
theorem stepB_96 : sha1digest [29, 193, 123, 204, 34, 236, 212, 147, 239, 49, 138, 222, 40, 90, 75, 230, 200, 16, 51, 190] = [255, 249, 64, 229, 176, 115, 62, 36, 189, 37, 10, 248, 251, 71, 182, 151, 171, 121, 25, 157] := by decide
theorem stepB_97 : sha1digest [255, 249, 64, 229, 176, 115, 62, 36, 189, 37, 10, 248, 251, 71, 182, 151, 171, 121, 25, 157] = [162, 149, 127, 126, 8, 81, 25, 255, 6, 134, 149, 128, 49, 85, 229, 41, 149, 30, 70, 205] := by decide
theorem stepB_98 : sha1digest [162, 149, 127, 126, 8, 81, 25, 255, 6, 134, 149, 128, 49, 85, 229, 41, 149, 30, 70, 205] = [34, 28, 85, 58, 180, 139, 56, 90, 24, 149, 155, 91, 8, 147, 164, 225, 223, 15, 64, 70] := by decide
theorem stepB_99 : sha1digest [34, 28, 85, 58, 180, 139, 56, 90, 24, 149, 155, 91, 8, 147, 164, 225, 223, 15, 64, 70] = [189, 89, 67, 5, 156, 46, 202, 225, 251, 25, 138, 156, 212, 111, 21, 86, 25, 68, 39, 140] := by decide
theorem chainB_99 : hashLoop [189, 89, 67, 5, 156, 46, 202, 225, 251, 25, 138, 156, 212, 111, 21, 86, 25, 68, 39, 140] 0 = [189, 89, 67, 5, 156, 46, 202, 225, 251, 25, 138, 156, 212, 111, 21, 86, 25, 68, 39, 140] := rfl
theorem chainB_98 : hashLoop [34, 28, 85, 58, 180, 139, 56, 90, 24, 149, 155, 91, 8, 147, 164, 225, 223, 15, 64, 70] 1 = [189, 89, 67, 5, 156, 46, 202, 225, 251, 25, 138, 156, 212, 111, 21, 86, 25, 68, 39, 140] := by
  rw [show (1 : Nat) = 0 + 1 from rfl, hashLoop_succ, stepB_99]
  exact chainB_99
theorem chainB_97 : hashLoop [162, 149, 127, 126, 8, 81, 25, 255, 6, 134, 149, 128, 49, 85, 229, 41, 149, 30, 70, 205] 2 = [189, 89, 67, 5, 156, 46, 202, 225, 251, 25, 138, 156, 212, 111, 21, 86, 25, 68, 39, 140] := by
  rw [show (2 : Nat) = 1 + 1 from rfl, hashLoop_succ, stepB_98]
  exact chainB_98
theorem chainB_96 : hashLoop [255, 249, 64, 229, 176, 115, 62, 36, 189, 37, 10, 248, 251, 71, 182, 151, 171, 121, 25, 157] 3 = [189, 89, 67, 5, 156, 46, 202, 225, 251, 25, 138, 156, 212, 111, 21, 86, 25, 68, 39, 140] := by
  rw [show (3 : Nat) = 2 + 1 from rfl, hashLoop_succ, stepB_97]
  exact chainB_97
theorem chainB_95 : hashLoop [29, 193, 123, 204, 34, 236, 212, 147, 239, 49, 138, 222, 40, 90, 75, 230, 200, 16, 51, 190] 4 = [189, 89, 67, 5, 156, 46, 202, 225, 251, 25, 138, 156, 212, 111, 21, 86, 25, 68, 39, 140] := by
  rw [show (4 : Nat) = 3 + 1 from rfl, hashLoop_succ, stepB_96]
  exact chainB_96
theorem chainB_94 : hashLoop [146, 37, 214, 50, 138, 249, 107, 138, 205, 47, 100, 34, 150, 0, 225, 172, 0, 125, 151, 9] 5 = [189, 89, 67, 5, 156, 46, 202, 225, 251, 25, 138, 156, 212, 111, 21, 86, 25, 68, 39, 140] := by
  rw [show (5 : Nat) = 4 + 1 from rfl, hashLoop_succ, stepB_95]
  exact chainB_95
theorem chainB_93 : hashLoop [57, 67, 7, 126, 119, 169, 110, 10, 241, 120, 234, 40, 158, 213, 216, 10, 193, 143, 226, 133] 6 = [189, 89, 67, 5, 156, 46, 202, 225, 251, 25, 138, 156, 212, 111, 21, 86, 25, 68, 39, 140] := by
  rw [show (6 : Nat) = 5 + 1 from rfl, hashLoop_succ, stepB_94]
  exact chainB_94
theorem chainB_92 : hashLoop [154, 85, 82, 6, 158, 209, 18, 189, 53, 158, 110, 85, 222, 86, 23, 180, 159, 121, 68, 79] 7 = [189, 89, 67, 5, 156, 46, 202, 225, 251, 25, 138, 156, 212, 111, 21, 86, 25, 68, 39, 140] := by
  rw [show (7 : Nat) = 6 + 1 from rfl, hashLoop_succ, stepB_93]
  exact chainB_93
theorem chainB_91 : hashLoop [169, 236, 88, 235, 242, 117, 78, 191, 230, 249, 149, 87, 118, 120, 87, 159, 209, 71, 229, 138] 8 = [189, 89, 67, 5, 156, 46, 202, 225, 251, 25, 138, 156, 212, 111, 21, 86, 25, 68, 39, 140] := by
  rw [show (8 : Nat) = 7 + 1 from rfl, hashLoop_succ, stepB_92]
  exact chainB_92
theorem chainB_90 : hashLoop [218, 167, 156, 201, 202, 137, 151, 203, 1, 138, 113, 166, 222, 185, 182, 220, 110, 122, 176, 84] 9 = [189, 89, 67, 5, 156, 46, 202, 225, 251, 25, 138, 156, 212, 111, 21, 86, 25, 68, 39, 140] := by
  rw [show (9 : Nat) = 8 + 1 from rfl, hashLoop_succ, stepB_91]
  exact chainB_91
theorem chainB_89 : hashLoop [46, 129, 31, 35, 37, 196, 210, 215, 180, 112, 156, 20, 142, 227, 70, 39, 131, 43, 140, 152] 10 = [189, 89, 67, 5, 156, 46, 202, 225, 251, 25, 138, 156, 212, 111, 21, 86, 25, 68, 39, 140] := by
  rw [show (10 : Nat) = 9 + 1 from rfl, hashLoop_succ, stepB_90]
  exact chainB_90
theorem chainB_88 : hashLoop [103, 77, 232, 159, 59, 165, 167, 26, 254, 73, 255, 182, 162, 188, 14, 185, 162, 12, 150, 150] 11 = [189, 89, 67, 5, 156, 46, 202, 225, 251, 25, 138, 156, 212, 111, 21, 86, 25, 68, 39, 140] := by
  rw [show (11 : Nat) = 10 + 1 from rfl, hashLoop_succ, stepB_89]
  exact chainB_89
theorem chainB_87 : hashLoop [144, 3, 153, 219, 230, 182, 236, 21, 245, 108, 111, 115, 16, 0, 234, 192, 197, 222, 34, 251] 12 = [189, 89, 67, 5, 156, 46, 202, 225, 251, 25, 138, 156, 212, 111, 21, 86, 25, 68, 39, 140] := by
  rw [show (12 : Nat) = 11 + 1 from rfl, hashLoop_succ, stepB_88]
  exact chainB_88
theorem chainB_86 : hashLoop [17, 247, 66, 110, 138, 33, 152, 159, 118, 51, 24, 127, 193, 229, 250, 211, 58, 173, 136, 212] 13 = [189, 89, 67, 5, 156, 46, 202, 225, 251, 25, 138, 156, 212, 111, 21, 86, 25, 68, 39, 140] := by
  rw [show (13 : Nat) = 12 + 1 from rfl, hashLoop_succ, stepB_87]
  exact chainB_87
theorem chainB_85 : hashLoop [78, 249, 156, 16, 113, 131, 196, 47, 219, 224, 94, 93, 231, 133, 184, 94, 26, 236, 144, 228] 14 = [189, 89, 67, 5, 156, 46, 202, 225, 251, 25, 138, 156, 212, 111, 21, 86, 25, 68, 39, 140] := by
  rw [show (14 : Nat) = 13 + 1 from rfl, hashLoop_succ, stepB_86]
  exact chainB_86
theorem chainB_84 : hashLoop [195, 65, 194, 103, 229, 246, 210, 189, 115, 50, 46, 148, 1, 10, 165, 167, 82, 123, 170, 123] 15 = [189, 89, 67, 5, 156, 46, 202, 225, 251, 25, 138, 156, 212, 111, 21, 86, 25, 68, 39, 140] := by
  rw [show (15 : Nat) = 14 + 1 from rfl, hashLoop_succ, stepB_85]
  exact chainB_85
theorem chainB_83 : hashLoop [6, 204, 163, 246, 255, 157, 238, 124, 159, 248, 190, 236, 128, 120, 101, 37, 120, 50, 244, 68] 16 = [189, 89, 67, 5, 156, 46, 202, 225, 251, 25, 138, 156, 212, 111, 21, 86, 25, 68, 39, 140] := by
  rw [show (16 : Nat) = 15 + 1 from rfl, hashLoop_succ, stepB_84]
  exact chainB_84
theorem chainB_82 : hashLoop [86, 9, 226, 118, 37, 237, 17, 224, 43, 88, 10, 254, 206, 241, 25, 200, 134, 191, 201, 119] 17 = [189, 89, 67, 5, 156, 46, 202, 225, 251, 25, 138, 156, 212, 111, 21, 86, 25, 68, 39, 140] := by
  rw [show (17 : Nat) = 16 + 1 from rfl, hashLoop_succ, stepB_83]
  exact chainB_83
theorem chainB_81 : hashLoop [55, 178, 132, 81, 243, 249, 91, 58, 205, 177, 136, 138, 140, 165, 239, 128, 50, 124, 22, 85] 18 = [189, 89, 67, 5, 156, 46, 202, 225, 251, 25, 138, 156, 212, 111, 21, 86, 25, 68, 39, 140] := by
  rw [show (18 : Nat) = 17 + 1 from rfl, hashLoop_succ, stepB_82]
  exact chainB_82
theorem chainB_80 : hashLoop [203, 212, 241, 165, 142, 122, 13, 197, 14, 109, 84, 249, 170, 253, 196, 189, 194, 58, 102, 14] 19 = [189, 89, 67, 5, 156, 46, 202, 225, 251, 25, 138, 156, 212, 111, 21, 86, 25, 68, 39, 140] := by
  rw [show (19 : Nat) = 18 + 1 from rfl, hashLoop_succ, stepB_81]
  exact chainB_81
theorem chainB_79 : hashLoop [211, 38, 77, 124, 250, 218, 235, 98, 6, 163, 30, 92, 214, 93, 221, 15, 253, 71, 122, 41] 20 = [189, 89, 67, 5, 156, 46, 202, 225, 251, 25, 138, 156, 212, 111, 21, 86, 25, 68, 39, 140] := by
  rw [show (20 : Nat) = 19 + 1 from rfl, hashLoop_succ, stepB_80]
  exact chainB_80
theorem chainB_78 : hashLoop [178, 179, 176, 35, 250, 242, 77, 184, 29, 17, 230, 176, 63, 90, 169, 36, 122, 63, 54, 94] 21 = [189, 89, 67, 5, 156, 46, 202, 225, 251, 25, 138, 156, 212, 111, 21, 86, 25, 68, 39, 140] := by
  rw [show (21 : Nat) = 20 + 1 from rfl, hashLoop_succ, stepB_79]
  exact chainB_79
theorem chainB_77 : hashLoop [29, 183, 208, 201, 195, 2, 77, 38, 38, 25, 164, 61, 181, 21, 191, 136, 17, 186, 188, 233] 22 = [189, 89, 67, 5, 156, 46, 202, 225, 251, 25, 138, 156, 212, 111, 21, 86, 25, 68, 39, 140] := by
  rw [show (22 : Nat) = 21 + 1 from rfl, hashLoop_succ, stepB_78]
  exact chainB_78
theorem chainB_76 : hashLoop [245, 30, 233, 20, 224, 253, 197, 117, 141, 64, 123, 8, 10, 31, 88, 83, 157, 162, 13, 201] 23 = [189, 89, 67, 5, 156, 46, 202, 225, 251, 25, 138, 156, 212, 111, 21, 86, 25, 68, 39, 140] := by
  rw [show (23 : Nat) = 22 + 1 from rfl, hashLoop_succ, stepB_77]
  exact chainB_77
theorem chainB_75 : hashLoop [168, 20, 181, 167, 140, 249, 118, 1, 110, 160, 30, 221, 225, 178, 194, 25, 192, 251, 122, 233] 24 = [189, 89, 67, 5, 156, 46, 202, 225, 251, 25, 138, 156, 212, 111, 21, 86, 25, 68, 39, 140] := by
  rw [show (24 : Nat) = 23 + 1 from rfl, hashLoop_succ, stepB_76]
  exact chainB_76
theorem chainB_74 : hashLoop [123, 246, 10, 172, 18, 100, 50, 101, 34, 31, 239, 224, 207, 195, 56, 103, 76, 178, 194, 205] 25 = [189, 89, 67, 5, 156, 46, 202, 225, 251, 25, 138, 156, 212, 111, 21, 86, 25, 68, 39, 140] := by
  rw [show (25 : Nat) = 24 + 1 from rfl, hashLoop_succ, stepB_75]
  exact chainB_75
theorem chainB_73 : hashLoop [141, 70, 93, 60, 228, 119, 7, 174, 28, 144, 3, 50, 46, 69, 241, 219, 197, 244, 196, 25] 26 = [189, 89, 67, 5, 156, 46, 202, 225, 251, 25, 138, 156, 212, 111, 21, 86, 25, 68, 39, 140] := by
  rw [show (26 : Nat) = 25 + 1 from rfl, hashLoop_succ, stepB_74]
  exact chainB_74
theorem chainB_72 : hashLoop [199, 79, 234, 45, 225, 5, 170, 214, 84, 219, 164, 181, 207, 169, 113, 121, 213, 0, 123, 115] 27 = [189, 89, 67, 5, 156, 46, 202, 225, 251, 25, 138, 156, 212, 111, 21, 86, 25, 68, 39, 140] := by
  rw [show (27 : Nat) = 26 + 1 from rfl, hashLoop_succ, stepB_73]
  exact chainB_73
theorem chainB_71 : hashLoop [79, 0, 180, 164, 125, 240, 22, 75, 246, 220, 101, 111, 72, 24, 172, 230, 154, 175, 18, 17] 28 = [189, 89, 67, 5, 156, 46, 202, 225, 251, 25, 138, 156, 212, 111, 21, 86, 25, 68, 39, 140] := by
  rw [show (28 : Nat) = 27 + 1 from rfl, hashLoop_succ, stepB_72]
  exact chainB_72
theorem chainB_70 : hashLoop [207, 72, 89, 200, 148, 254, 137, 99, 245, 83, 12, 185, 63, 176, 239, 159, 70, 133, 150, 71] 29 = [189, 89, 67, 5, 156, 46, 202, 225, 251, 25, 138, 156, 212, 111, 21, 86, 25, 68, 39, 140] := by
  rw [show (29 : Nat) = 28 + 1 from rfl, hashLoop_succ, stepB_71]
  exact chainB_71
theorem chainB_69 : hashLoop [7, 106, 43, 245, 122, 183, 148, 52, 75, 184, 247, 160, 17, 3, 149, 182, 134, 108, 128, 6] 30 = [189, 89, 67, 5, 156, 46, 202, 225, 251, 25, 138, 156, 212, 111, 21, 86, 25, 68, 39, 140] := by
  rw [show (30 : Nat) = 29 + 1 from rfl, hashLoop_succ, stepB_70]
  exact chainB_70
theorem chainB_68 : hashLoop [1, 13, 248, 137, 171, 78, 177, 130, 230, 172, 104, 157, 176, 35, 193, 71, 58, 14, 233, 193] 31 = [189, 89, 67, 5, 156, 46, 202, 225, 251, 25, 138, 156, 212, 111, 21, 86, 25, 68, 39, 140] := by
  rw [show (31 : Nat) = 30 + 1 from rfl, hashLoop_succ, stepB_69]
  exact chainB_69
theorem chainB_67 : hashLoop [23, 202, 27, 227, 176, 97, 114, 193, 39, 2, 215, 197, 10, 111, 169, 22, 217, 190, 5, 48] 32 = [189, 89, 67, 5, 156, 46, 202, 225, 251, 25, 138, 156, 212, 111, 21, 86, 25, 68, 39, 140] := by
  rw [show (32 : Nat) = 31 + 1 from rfl, hashLoop_succ, stepB_68]
  exact chainB_68
theorem chainB_66 : hashLoop [45, 168, 101, 124, 154, 15, 212, 83, 119, 181, 155, 253, 121, 112, 114, 89, 99, 255, 41, 19] 33 = [189, 89, 67, 5, 156, 46, 202, 225, 251, 25, 138, 156, 212, 111, 21, 86, 25, 68, 39, 140] := by
  rw [show (33 : Nat) = 32 + 1 from rfl, hashLoop_succ, stepB_67]
  exact chainB_67
theorem chainB_65 : hashLoop [99, 116, 89, 118, 201, 65, 222, 123, 225, 18, 237, 86, 59, 123, 236, 18, 157, 151, 19, 253] 34 = [189, 89, 67, 5, 156, 46, 202, 225, 251, 25, 138, 156, 212, 111, 21, 86, 25, 68, 39, 140] := by
  rw [show (34 : Nat) = 33 + 1 from rfl, hashLoop_succ, stepB_66]
  exact chainB_66
theorem chainB_64 : hashLoop [233, 98, 140, 60, 207, 233, 101, 62, 122, 131, 214, 153, 93, 92, 178, 89, 136, 221, 14, 118] 35 = [189, 89, 67, 5, 156, 46, 202, 225, 251, 25, 138, 156, 212, 111, 21, 86, 25, 68, 39, 140] := by
  rw [show (35 : Nat) = 34 + 1 from rfl, hashLoop_succ, stepB_65]
  exact chainB_65
theorem chainB_63 : hashLoop [178, 238, 172, 159, 158, 15, 111, 253, 224, 127, 54, 169, 71, 84, 74, 173, 34, 191, 27, 132] 36 = [189, 89, 67, 5, 156, 46, 202, 225, 251, 25, 138, 156, 212, 111, 21, 86, 25, 68, 39, 140] := by
  rw [show (36 : Nat) = 35 + 1 from rfl, hashLoop_succ, stepB_64]
  exact chainB_64
theorem chainB_62 : hashLoop [110, 52, 203, 144, 195, 94, 138, 235, 111, 67, 41, 1, 246, 115, 44, 75, 48, 186, 172, 135] 37 = [189, 89, 67, 5, 156, 46, 202, 225, 251, 25, 138, 156, 212, 111, 21, 86, 25, 68, 39, 140] := by
  rw [show (37 : Nat) = 36 + 1 from rfl, hashLoop_succ, stepB_63]
  exact chainB_63
theorem chainB_61 : hashLoop [85, 15, 224, 68, 60, 165, 59, 234, 7, 99, 249, 9, 252, 247, 76, 45, 178, 44, 95, 37] 38 = [189, 89, 67, 5, 156, 46, 202, 225, 251, 25, 138, 156, 212, 111, 21, 86, 25, 68, 39, 140] := by
  rw [show (38 : Nat) = 37 + 1 from rfl, hashLoop_succ, stepB_62]
  exact chainB_62
theorem chainB_60 : hashLoop [77, 177, 76, 107, 189, 88, 18, 19, 68, 116, 230, 72, 112, 7, 160, 205, 151, 248, 144, 59] 39 = [189, 89, 67, 5, 156, 46, 202, 225, 251, 25, 138, 156, 212, 111, 21, 86, 25, 68, 39, 140] := by
  rw [show (39 : Nat) = 38 + 1 from rfl, hashLoop_succ, stepB_61]
  exact chainB_61
theorem chainB_59 : hashLoop [224, 11, 9, 91, 35, 99, 188, 157, 50, 197, 177, 186, 203, 90, 118, 38, 118, 255, 136, 15] 40 = [189, 89, 67, 5, 156, 46, 202, 225, 251, 25, 138, 156, 212, 111, 21, 86, 25, 68, 39, 140] := by
  rw [show (40 : Nat) = 39 + 1 from rfl, hashLoop_succ, stepB_60]
  exact chainB_60
theorem chainB_58 : hashLoop [172, 133, 35, 56, 94, 194, 117, 173, 171, 26, 33, 11, 215, 90, 53, 99, 109, 210, 221, 185] 41 = [189, 89, 67, 5, 156, 46, 202, 225, 251, 25, 138, 156, 212, 111, 21, 86, 25, 68, 39, 140] := by
  rw [show (41 : Nat) = 40 + 1 from rfl, hashLoop_succ, stepB_59]
  exact chainB_59
theorem chainB_57 : hashLoop [25, 110, 78, 169, 58, 101, 196, 109, 220, 186, 54, 23, 170, 127, 16, 233, 43, 11, 103, 121] 42 = [189, 89, 67, 5, 156, 46, 202, 225, 251, 25, 138, 156, 212, 111, 21, 86, 25, 68, 39, 140] := by
  rw [show (42 : Nat) = 41 + 1 from rfl, hashLoop_succ, stepB_58]
  exact chainB_58
theorem chainB_56 : hashLoop [100, 7, 45, 245, 41, 196, 99, 145, 199, 122, 243, 12, 74, 235, 231, 0, 78, 9, 33, 216] 43 = [189, 89, 67, 5, 156, 46, 202, 225, 251, 25, 138, 156, 212, 111, 21, 86, 25, 68, 39, 140] := by
  rw [show (43 : Nat) = 42 + 1 from rfl, hashLoop_succ, stepB_57]
  exact chainB_57
theorem chainB_55 : hashLoop [215, 198, 215, 188, 52, 84, 99, 32, 221, 41, 61, 105, 49, 171, 214, 46, 93, 105, 178, 30] 44 = [189, 89, 67, 5, 156, 46, 202, 225, 251, 25, 138, 156, 212, 111, 21, 86, 25, 68, 39, 140] := by
  rw [show (44 : Nat) = 43 + 1 from rfl, hashLoop_succ, stepB_56]
  exact chainB_56
theorem chainB_54 : hashLoop [47, 223, 84, 83, 146, 129, 208, 192, 93, 103, 210, 107, 54, 39, 233, 78, 91, 238, 46, 31] 45 = [189, 89, 67, 5, 156, 46, 202, 225, 251, 25, 138, 156, 212, 111, 21, 86, 25, 68, 39, 140] := by
  rw [show (45 : Nat) = 44 + 1 from rfl, hashLoop_succ, stepB_55]
  exact chainB_55
theorem chainB_53 : hashLoop [236, 99, 115, 32, 10, 160, 128, 236, 16, 8, 100, 68, 166, 53, 4, 202, 227, 40, 182, 145] 46 = [189, 89, 67, 5, 156, 46, 202, 225, 251, 25, 138, 156, 212, 111, 21, 86, 25, 68, 39, 140] := by
  rw [show (46 : Nat) = 45 + 1 from rfl, hashLoop_succ, stepB_54]
  exact chainB_54
theorem chainB_52 : hashLoop [169, 88, 4, 171, 92, 28, 12, 224, 245, 143, 187, 111, 12, 16, 46, 37, 178, 63, 126, 97] 47 = [189, 89, 67, 5, 156, 46, 202, 225, 251, 25, 138, 156, 212, 111, 21, 86, 25, 68, 39, 140] := by
  rw [show (47 : Nat) = 46 + 1 from rfl, hashLoop_succ, stepB_53]
  exact chainB_53
theorem chainB_51 : hashLoop [131, 193, 92, 53, 114, 201, 246, 48, 122, 39, 48, 16, 21, 156, 142, 189, 182, 109, 21, 177] 48 = [189, 89, 67, 5, 156, 46, 202, 225, 251, 25, 138, 156, 212, 111, 21, 86, 25, 68, 39, 140] := by
  rw [show (48 : Nat) = 47 + 1 from rfl, hashLoop_succ, stepB_52]
  exact chainB_52
theorem chainB_50 : hashLoop [182, 9, 83, 147, 27, 88, 38, 224, 205, 123, 99, 110, 133, 24, 28, 81, 174, 188, 200, 203] 49 = [189, 89, 67, 5, 156, 46, 202, 225, 251, 25, 138, 156, 212, 111, 21, 86, 25, 68, 39, 140] := by
  rw [show (49 : Nat) = 48 + 1 from rfl, hashLoop_succ, stepB_51]
  exact chainB_51
theorem chainB_49 : hashLoop [204, 122, 128, 100, 190, 177, 29, 34, 12, 140, 217, 167, 163, 49, 16, 93, 34, 20, 17, 19] 50 = [189, 89, 67, 5, 156, 46, 202, 225, 251, 25, 138, 156, 212, 111, 21, 86, 25, 68, 39, 140] := by
  rw [show (50 : Nat) = 49 + 1 from rfl, hashLoop_succ, stepB_50]
  exact chainB_50
theorem chainB_48 : hashLoop [238, 240, 146, 80, 14, 132, 228, 185, 112, 42, 61, 193, 117, 225, 37, 65, 208, 112, 53, 196] 51 = [189, 89, 67, 5, 156, 46, 202, 225, 251, 25, 138, 156, 212, 111, 21, 86, 25, 68, 39, 140] := by
  rw [show (51 : Nat) = 50 + 1 from rfl, hashLoop_succ, stepB_49]
  exact chainB_49
theorem chainB_47 : hashLoop [231, 53, 81, 237, 56, 38, 80, 250, 112, 219, 201, 103, 53, 1, 27, 33, 143, 65, 26, 226] 52 = [189, 89, 67, 5, 156, 46, 202, 225, 251, 25, 138, 156, 212, 111, 21, 86, 25, 68, 39, 140] := by
  rw [show (52 : Nat) = 51 + 1 from rfl, hashLoop_succ, stepB_48]
  exact chainB_48
theorem chainB_46 : hashLoop [174, 62, 176, 225, 61, 28, 50, 255, 104, 2, 48, 219, 50, 87, 63, 27, 186, 167, 85, 200] 53 = [189, 89, 67, 5, 156, 46, 202, 225, 251, 25, 138, 156, 212, 111, 21, 86, 25, 68, 39, 140] := by
  rw [show (53 : Nat) = 52 + 1 from rfl, hashLoop_succ, stepB_47]
  exact chainB_47
theorem chainB_45 : hashLoop [146, 44, 62, 72, 58, 170, 106, 115, 208, 203, 207, 118, 236, 233, 106, 136, 80, 180, 49, 7] 54 = [189, 89, 67, 5, 156, 46, 202, 225, 251, 25, 138, 156, 212, 111, 21, 86, 25, 68, 39, 140] := by
  rw [show (54 : Nat) = 53 + 1 from rfl, hashLoop_succ, stepB_46]
  exact chainB_46
theorem chainB_44 : hashLoop [76, 179, 81, 78, 27, 247, 98, 225, 234, 114, 235, 72, 13, 76, 44, 38, 1, 167, 228, 39] 55 = [189, 89, 67, 5, 156, 46, 202, 225, 251, 25, 138, 156, 212, 111, 21, 86, 25, 68, 39, 140] := by
  rw [show (55 : Nat) = 54 + 1 from rfl, hashLoop_succ, stepB_45]
  exact chainB_45
theorem chainB_43 : hashLoop [49, 66, 95, 44, 48, 75, 240, 11, 222, 75, 15, 216, 19, 225, 118, 227, 199, 127, 247, 39] 56 = [189, 89, 67, 5, 156, 46, 202, 225, 251, 25, 138, 156, 212, 111, 21, 86, 25, 68, 39, 140] := by
  rw [show (56 : Nat) = 55 + 1 from rfl, hashLoop_succ, stepB_44]
  exact chainB_44
theorem chainB_42 : hashLoop [67, 66, 184, 39, 95, 205, 111, 83, 251, 121, 237, 167, 150, 20, 223, 244, 115, 171, 75, 5] 57 = [189, 89, 67, 5, 156, 46, 202, 225, 251, 25, 138, 156, 212, 111, 21, 86, 25, 68, 39, 140] := by
  rw [show (57 : Nat) = 56 + 1 from rfl, hashLoop_succ, stepB_43]
  exact chainB_43
theorem chainB_41 : hashLoop [135, 113, 182, 145, 49, 172, 17, 34, 49, 67, 141, 3, 202, 174, 105, 208, 102, 179, 214, 246] 58 = [189, 89, 67, 5, 156, 46, 202, 225, 251, 25, 138, 156, 212, 111, 21, 86, 25, 68, 39, 140] := by
  rw [show (58 : Nat) = 57 + 1 from rfl, hashLoop_succ, stepB_42]
  exact chainB_42
theorem chainB_40 : hashLoop [100, 116, 245, 203, 8, 12, 129, 42, 181, 124, 117, 40, 224, 5, 114, 31, 236, 180, 66, 27] 59 = [189, 89, 67, 5, 156, 46, 202, 225, 251, 25, 138, 156, 212, 111, 21, 86, 25, 68, 39, 140] := by
  rw [show (59 : Nat) = 58 + 1 from rfl, hashLoop_succ, stepB_41]
  exact chainB_41
theorem chainB_39 : hashLoop [161, 228, 0, 82, 77, 240, 32, 77, 28, 243, 107, 51, 42, 81, 9, 197, 110, 44, 153, 249] 60 = [189, 89, 67, 5, 156, 46, 202, 225, 251, 25, 138, 156, 212, 111, 21, 86, 25, 68, 39, 140] := by
  rw [show (60 : Nat) = 59 + 1 from rfl, hashLoop_succ, stepB_40]
  exact chainB_40
theorem chainB_38 : hashLoop [140, 89, 84, 165, 28, 153, 119, 111, 54, 90, 253, 86, 9, 156, 249, 220, 15, 0, 206, 123] 61 = [189, 89, 67, 5, 156, 46, 202, 225, 251, 25, 138, 156, 212, 111, 21, 86, 25, 68, 39, 140] := by
  rw [show (61 : Nat) = 60 + 1 from rfl, hashLoop_succ, stepB_39]
  exact chainB_39
theorem chainB_37 : hashLoop [54, 136, 203, 193, 150, 140, 184, 96, 236, 45, 255, 111, 20, 229, 223, 143, 148, 230, 161, 14] 62 = [189, 89, 67, 5, 156, 46, 202, 225, 251, 25, 138, 156, 212, 111, 21, 86, 25, 68, 39, 140] := by
  rw [show (62 : Nat) = 61 + 1 from rfl, hashLoop_succ, stepB_38]
  exact chainB_38
theorem chainB_36 : hashLoop [240, 149, 15, 125, 54, 228, 47, 178, 42, 195, 155, 47, 97, 183, 241, 21, 195, 13, 142, 9] 63 = [189, 89, 67, 5, 156, 46, 202, 225, 251, 25, 138, 156, 212, 111, 21, 86, 25, 68, 39, 140] := by
  rw [show (63 : Nat) = 62 + 1 from rfl, hashLoop_succ, stepB_37]
  exact chainB_37
theorem chainB_35 : hashLoop [107, 253, 125, 166, 215, 68, 248, 153, 58, 69, 63, 189, 190, 5, 100, 104, 206, 141, 225, 13] 64 = [189, 89, 67, 5, 156, 46, 202, 225, 251, 25, 138, 156, 212, 111, 21, 86, 25, 68, 39, 140] := by
  rw [show (64 : Nat) = 63 + 1 from rfl, hashLoop_succ, stepB_36]
  exact chainB_36
theorem chainB_34 : hashLoop [115, 61, 186, 63, 165, 237, 167, 39, 15, 157, 207, 32, 1, 247, 91, 177, 4, 205, 215, 116] 65 = [189, 89, 67, 5, 156, 46, 202, 225, 251, 25, 138, 156, 212, 111, 21, 86, 25, 68, 39, 140] := by
  rw [show (65 : Nat) = 64 + 1 from rfl, hashLoop_succ, stepB_35]
  exact chainB_35
theorem chainB_33 : hashLoop [219, 152, 170, 59, 85, 0, 228, 103, 85, 92, 205, 166, 65, 254, 9, 178, 1, 103, 2, 241] 66 = [189, 89, 67, 5, 156, 46, 202, 225, 251, 25, 138, 156, 212, 111, 21, 86, 25, 68, 39, 140] := by
  rw [show (66 : Nat) = 65 + 1 from rfl, hashLoop_succ, stepB_34]
  exact chainB_34
theorem chainB_32 : hashLoop [126, 148, 59, 99, 122, 18, 235, 169, 241, 21, 20, 208, 108, 66, 20, 130, 241, 84, 80, 248] 67 = [189, 89, 67, 5, 156, 46, 202, 225, 251, 25, 138, 156, 212, 111, 21, 86, 25, 68, 39, 140] := by
  rw [show (67 : Nat) = 66 + 1 from rfl, hashLoop_succ, stepB_33]
  exact chainB_33
theorem chainB_31 : hashLoop [222, 24, 237, 225, 172, 183, 174, 169, 215, 101, 120, 70, 242, 73, 219, 56, 99, 175, 100, 78] 68 = [189, 89, 67, 5, 156, 46, 202, 225, 251, 25, 138, 156, 212, 111, 21, 86, 25, 68, 39, 140] := by
  rw [show (68 : Nat) = 67 + 1 from rfl, hashLoop_succ, stepB_32]
  exact chainB_32
theorem chainB_30 : hashLoop [169, 149, 181, 150, 31, 226, 199, 207, 0, 183, 223, 24, 44, 214, 168, 84, 209, 222, 152, 150] 69 = [189, 89, 67, 5, 156, 46, 202, 225, 251, 25, 138, 156, 212, 111, 21, 86, 25, 68, 39, 140] := by
  rw [show (69 : Nat) = 68 + 1 from rfl, hashLoop_succ, stepB_31]
  exact chainB_31
theorem chainB_29 : hashLoop [195, 198, 195, 244, 120, 191, 127, 226, 76, 156, 132, 149, 114, 47, 52, 57, 38, 192, 107, 59] 70 = [189, 89, 67, 5, 156, 46, 202, 225, 251, 25, 138, 156, 212, 111, 21, 86, 25, 68, 39, 140] := by
  rw [show (70 : Nat) = 69 + 1 from rfl, hashLoop_succ, stepB_30]
  exact chainB_30
theorem chainB_28 : hashLoop [229, 220, 39, 151, 101, 197, 166, 192, 56, 235, 67, 180, 182, 10, 244, 249, 124, 186, 198, 23] 71 = [189, 89, 67, 5, 156, 46, 202, 225, 251, 25, 138, 156, 212, 111, 21, 86, 25, 68, 39, 140] := by
  rw [show (71 : Nat) = 70 + 1 from rfl, hashLoop_succ, stepB_29]
  exact chainB_29
theorem chainB_27 : hashLoop [254, 138, 7, 207, 115, 1, 241, 241, 158, 49, 234, 217, 250, 121, 78, 228, 50, 114, 61, 157] 72 = [189, 89, 67, 5, 156, 46, 202, 225, 251, 25, 138, 156, 212, 111, 21, 86, 25, 68, 39, 140] := by
  rw [show (72 : Nat) = 71 + 1 from rfl, hashLoop_succ, stepB_28]
  exact chainB_28
theorem chainB_26 : hashLoop [40, 51, 183, 65, 91, 138, 251, 246, 200, 29, 36, 37, 175, 214, 89, 191, 175, 106, 109, 100] 73 = [189, 89, 67, 5, 156, 46, 202, 225, 251, 25, 138, 156, 212, 111, 21, 86, 25, 68, 39, 140] := by
  rw [show (73 : Nat) = 72 + 1 from rfl, hashLoop_succ, stepB_27]
  exact chainB_27
theorem chainB_25 : hashLoop [151, 236, 213, 51, 81, 135, 15, 131, 250, 189, 16, 72, 224, 31, 56, 174, 112, 137, 224, 194] 74 = [189, 89, 67, 5, 156, 46, 202, 225, 251, 25, 138, 156, 212, 111, 21, 86, 25, 68, 39, 140] := by
  rw [show (74 : Nat) = 73 + 1 from rfl, hashLoop_succ, stepB_26]
  exact chainB_26
theorem chainB_24 : hashLoop [104, 173, 143, 239, 50, 13, 215, 28, 59, 131, 43, 222, 81, 140, 201, 220, 122, 35, 79, 36] 75 = [189, 89, 67, 5, 156, 46, 202, 225, 251, 25, 138, 156, 212, 111, 21, 86, 25, 68, 39, 140] := by
  rw [show (75 : Nat) = 74 + 1 from rfl, hashLoop_succ, stepB_25]
  exact chainB_25
theorem chainB_23 : hashLoop [16, 246, 93, 180, 241, 47, 10, 27, 105, 217, 122, 76, 176, 220, 235, 112, 111, 134, 64, 189] 76 = [189, 89, 67, 5, 156, 46, 202, 225, 251, 25, 138, 156, 212, 111, 21, 86, 25, 68, 39, 140] := by
  rw [show (76 : Nat) = 75 + 1 from rfl, hashLoop_succ, stepB_24]
  exact chainB_24
theorem chainB_22 : hashLoop [57, 89, 114, 137, 203, 11, 11, 184, 175, 67, 56, 13, 196, 188, 198, 137, 77, 37, 43, 238] 77 = [189, 89, 67, 5, 156, 46, 202, 225, 251, 25, 138, 156, 212, 111, 21, 86, 25, 68, 39, 140] := by
  rw [show (77 : Nat) = 76 + 1 from rfl, hashLoop_succ, stepB_23]
  exact chainB_23
theorem chainB_21 : hashLoop [109, 85, 45, 248, 155, 72, 255, 141, 153, 170, 96, 57, 47, 190, 88, 176, 52, 240, 10, 83] 78 = [189, 89, 67, 5, 156, 46, 202, 225, 251, 25, 138, 156, 212, 111, 21, 86, 25, 68, 39, 140] := by
  rw [show (78 : Nat) = 77 + 1 from rfl, hashLoop_succ, stepB_22]
  exact chainB_22
theorem chainB_20 : hashLoop [25, 148, 138, 208, 161, 239, 36, 185, 158, 86, 182, 112, 163, 25, 124, 62, 22, 11, 148, 32] 79 = [189, 89, 67, 5, 156, 46, 202, 225, 251, 25, 138, 156, 212, 111, 21, 86, 25, 68, 39, 140] := by
  rw [show (79 : Nat) = 78 + 1 from rfl, hashLoop_succ, stepB_21]
  exact chainB_21
theorem chainB_19 : hashLoop [149, 215, 179, 242, 56, 67, 33, 45, 36, 188, 249, 131, 84, 42, 0, 60, 44, 228, 92, 175] 80 = [189, 89, 67, 5, 156, 46, 202, 225, 251, 25, 138, 156, 212, 111, 21, 86, 25, 68, 39, 140] := by
  rw [show (80 : Nat) = 79 + 1 from rfl, hashLoop_succ, stepB_20]
  exact chainB_20
theorem chainB_18 : hashLoop [61, 117, 1, 103, 218, 198, 232, 68, 139, 31, 74, 209, 229, 14, 2, 114, 140, 164, 215, 238] 81 = [189, 89, 67, 5, 156, 46, 202, 225, 251, 25, 138, 156, 212, 111, 21, 86, 25, 68, 39, 140] := by
  rw [show (81 : Nat) = 80 + 1 from rfl, hashLoop_succ, stepB_19]
  exact chainB_19
theorem chainB_17 : hashLoop [9, 17, 36, 237, 145, 156, 39, 72, 244, 68, 115, 138, 180, 217, 114, 111, 235, 228, 109, 52] 82 = [189, 89, 67, 5, 156, 46, 202, 225, 251, 25, 138, 156, 212, 111, 21, 86, 25, 68, 39, 140] := by
  rw [show (82 : Nat) = 81 + 1 from rfl, hashLoop_succ, stepB_18]
  exact chainB_18
theorem chainB_16 : hashLoop [35, 4, 64, 106, 233, 33, 40, 239, 56, 50, 155, 183, 188, 9, 73, 213, 13, 182, 57, 201] 83 = [189, 89, 67, 5, 156, 46, 202, 225, 251, 25, 138, 156, 212, 111, 21, 86, 25, 68, 39, 140] := by
  rw [show (83 : Nat) = 82 + 1 from rfl, hashLoop_succ, stepB_17]
  exact chainB_17
theorem chainB_15 : hashLoop [23, 101, 223, 69, 12, 197, 91, 117, 140, 31, 227, 211, 15, 221, 74, 91, 80, 129, 42, 201] 84 = [189, 89, 67, 5, 156, 46, 202, 225, 251, 25, 138, 156, 212, 111, 21, 86, 25, 68, 39, 140] := by
  rw [show (84 : Nat) = 83 + 1 from rfl, hashLoop_succ, stepB_16]
  exact chainB_16
theorem chainB_14 : hashLoop [52, 98, 109, 106, 214, 46, 17, 41, 150, 42, 11, 76, 6, 112, 39, 149, 110, 194, 75, 237] 85 = [189, 89, 67, 5, 156, 46, 202, 225, 251, 25, 138, 156, 212, 111, 21, 86, 25, 68, 39, 140] := by
  rw [show (85 : Nat) = 84 + 1 from rfl, hashLoop_succ, stepB_15]
  exact chainB_15
theorem chainB_13 : hashLoop [100, 200, 212, 3, 110, 65, 150, 65, 198, 220, 34, 144, 82, 39, 17, 86, 1, 161, 31, 127] 86 = [189, 89, 67, 5, 156, 46, 202, 225, 251, 25, 138, 156, 212, 111, 21, 86, 25, 68, 39, 140] := by
  rw [show (86 : Nat) = 85 + 1 from rfl, hashLoop_succ, stepB_14]
  exact chainB_14
theorem chainB_12 : hashLoop [26, 150, 248, 204, 241, 149, 84, 195, 155, 223, 145, 7, 135, 226, 146, 154, 6, 16, 155, 243] 87 = [189, 89, 67, 5, 156, 46, 202, 225, 251, 25, 138, 156, 212, 111, 21, 86, 25, 68, 39, 140] := by
  rw [show (87 : Nat) = 86 + 1 from rfl, hashLoop_succ, stepB_13]
  exact chainB_13
theorem chainB_11 : hashLoop [90, 199, 191, 192, 95, 140, 249, 189, 89, 199, 175, 93, 94, 220, 83, 251, 125, 216, 51, 107] 88 = [189, 89, 67, 5, 156, 46, 202, 225, 251, 25, 138, 156, 212, 111, 21, 86, 25, 68, 39, 140] := by
  rw [show (88 : Nat) = 87 + 1 from rfl, hashLoop_succ, stepB_12]
  exact chainB_12
theorem chainB_10 : hashLoop [212, 18, 172, 133, 3, 191, 25, 66, 29, 56, 197, 134, 215, 112, 71, 98, 19, 92, 231, 222] 89 = [189, 89, 67, 5, 156, 46, 202, 225, 251, 25, 138, 156, 212, 111, 21, 86, 25, 68, 39, 140] := by
  rw [show (89 : Nat) = 88 + 1 from rfl, hashLoop_succ, stepB_11]
  exact chainB_11
theorem chainB_9 : hashLoop [79, 122, 113, 211, 14, 167, 16, 107, 215, 72, 55, 199, 126, 193, 247, 75, 132, 49, 43, 115] 90 = [189, 89, 67, 5, 156, 46, 202, 225, 251, 25, 138, 156, 212, 111, 21, 86, 25, 68, 39, 140] := by
  rw [show (90 : Nat) = 89 + 1 from rfl, hashLoop_succ, stepB_10]
  exact chainB_10
theorem chainB_8 : hashLoop [49, 189, 180, 141, 160, 39, 216, 133, 149, 165, 155, 184, 23, 240, 113, 231, 139, 62, 205, 27] 91 = [189, 89, 67, 5, 156, 46, 202, 225, 251, 25, 138, 156, 212, 111, 21, 86, 25, 68, 39, 140] := by
  rw [show (91 : Nat) = 90 + 1 from rfl, hashLoop_succ, stepB_9]
  exact chainB_9
theorem chainB_7 : hashLoop [41, 32, 197, 134, 94, 234, 94, 128, 76, 215, 35, 52, 51, 136, 41, 184, 246, 150, 203, 235] 92 = [189, 89, 67, 5, 156, 46, 202, 225, 251, 25, 138, 156, 212, 111, 21, 86, 25, 68, 39, 140] := by
  rw [show (92 : Nat) = 91 + 1 from rfl, hashLoop_succ, stepB_8]
  exact chainB_8
theorem chainB_6 : hashLoop [53, 46, 226, 163, 88, 155, 159, 251, 101, 147, 247, 76, 158, 205, 211, 169, 176, 169, 190, 216] 93 = [189, 89, 67, 5, 156, 46, 202, 225, 251, 25, 138, 156, 212, 111, 21, 86, 25, 68, 39, 140] := by
  rw [show (93 : Nat) = 92 + 1 from rfl, hashLoop_succ, stepB_7]
  exact chainB_7
theorem chainB_5 : hashLoop [29, 2, 71, 87, 19, 216, 75, 10, 126, 156, 27, 91, 249, 24, 255, 48, 50, 240, 76, 141] 94 = [189, 89, 67, 5, 156, 46, 202, 225, 251, 25, 138, 156, 212, 111, 21, 86, 25, 68, 39, 140] := by
  rw [show (94 : Nat) = 93 + 1 from rfl, hashLoop_succ, stepB_6]
  exact chainB_6
theorem chainB_4 : hashLoop [153, 189, 170, 232, 142, 232, 19, 51, 226, 21, 183, 230, 148, 17, 102, 16, 143, 82, 147, 159] 95 = [189, 89, 67, 5, 156, 46, 202, 225, 251, 25, 138, 156, 212, 111, 21, 86, 25, 68, 39, 140] := by
  rw [show (95 : Nat) = 94 + 1 from rfl, hashLoop_succ, stepB_5]
  exact chainB_5
theorem chainB_3 : hashLoop [154, 254, 197, 160, 149, 180, 110, 52, 218, 16, 92, 177, 192, 233, 51, 100, 51, 63, 251, 166] 96 = [189, 89, 67, 5, 156, 46, 202, 225, 251, 25, 138, 156, 212, 111, 21, 86, 25, 68, 39, 140] := by
  rw [show (96 : Nat) = 95 + 1 from rfl, hashLoop_succ, stepB_4]
  exact chainB_4
theorem chainB_2 : hashLoop [102, 18, 10, 118, 189, 96, 41, 40, 234, 208, 126, 151, 92, 110, 246, 147, 168, 123, 107, 160] 97 = [189, 89, 67, 5, 156, 46, 202, 225, 251, 25, 138, 156, 212, 111, 21, 86, 25, 68, 39, 140] := by
  rw [show (97 : Nat) = 96 + 1 from rfl, hashLoop_succ, stepB_3]
  exact chainB_3
theorem chainB_1 : hashLoop [77, 210, 49, 189, 47, 154, 200, 251, 87, 158, 190, 81, 210, 53, 94, 206, 27, 34, 14, 128] 98 = [189, 89, 67, 5, 156, 46, 202, 225, 251, 25, 138, 156, 212, 111, 21, 86, 25, 68, 39, 140] := by
  rw [show (98 : Nat) = 97 + 1 from rfl, hashLoop_succ, stepB_2]
  exact chainB_2
theorem chainB_0 : hashLoop [49, 50, 52, 49, 50, 51] 99 = [189, 89, 67, 5, 156, 46, 202, 225, 251, 25, 138, 156, 212, 111, 21, 86, 25, 68, 39, 140] := by
  rw [show (99 : Nat) = 98 + 1 from rfl, hashLoop_succ, stepB_1]
  exact chainB_1

/-- The stretched hash of "123123" (raw id "123", salt "123"). -/
theorem myHash_123123 : myHash [49, 50, 51, 49, 50, 51] = hexEncode [78, 190, 86, 238, 0, 153, 204, 26, 246, 100, 173, 103, 179, 65, 12, 43, 10, 24, 207, 186] := by
  show hexEncode (hashLoop [49, 50, 51, 49, 50, 51] (100 - 1)) = hexEncode [78, 190, 86, 238, 0, 153, 204, 26, 246, 100, 173, 103, 179, 65, 12, 43, 10, 24, 207, 186]
  rw [show (100 - 1 : Nat) = 99 from rfl, chainA_0]

/-- The stretched hash of "124123" (raw id "124", salt "123"). -/
theorem myHash_124123 : myHash [49, 50, 52, 49, 50, 51] = hexEncode [189, 89, 67, 5, 156, 46, 202, 225, 251, 25, 138, 156, 212, 111, 21, 86, 25, 68, 39, 140] := by
  show hexEncode (hashLoop [49, 50, 52, 49, 50, 51] (100 - 1)) = hexEncode [189, 89, 67, 5, 156, 46, 202, 225, 251, 25, 138, 156, 212, 111, 21, 86, 25, 68, 39, 140]
  rw [show (100 - 1 : Nat) = 99 from rfl, chainB_0]

/-- `myHash("123" + "123")` equals the hex string
"4ebe56ee0099cc1af664ad67b3410c2b0a18cfba" that the repository's test suite
documents as `myHash("123" + "123")`, pinning the embedding to the code. -/
theorem myHash_matches_repo_test :
    myHash [49, 50, 51, 49, 50, 51] = [52, 101, 98, 101, 53, 54, 101, 101, 48, 48, 57, 57, 99, 99, 49, 97, 102, 54, 54, 52, 97, 100, 54, 55, 98, 51, 52, 49, 48, 99, 50, 98, 48, 97, 49, 56, 99, 102, 98, 97] := by
  rw [myHash_123123]
  decide

/-- The spec-worded 100-application commitment of "123123". -/
theorem specCommit100_123123 : specCommit100 [49, 50, 51, 49, 50, 51] = hexEncode [8, 178, 160, 146, 151, 16, 37, 122, 111, 44, 125, 99, 91, 84, 227, 90, 247, 199, 241, 151] := by
  show hexEncode (hashLoop [49, 50, 51, 49, 50, 51] 100) = hexEncode [8, 178, 160, 146, 151, 16, 37, 122, 111, 44, 125, 99, 91, 84, 227, 90, 247, 199, 241, 151]
  rw [show (100 : Nat) = 99 + 1 from rfl, hashLoop_succ_right, chainA_0, stepA_100]

/-- C3 (counterexample): at input "123123" the contract's commitment is not
the hex encoding of 100 SHA-1 applications. -/
theorem C3_counterexample_123123 :
    myHash [49, 50, 51, 49, 50, 51] ≠ specCommit100 [49, 50, 51, 49, 50, 51] := by
  rw [myHash_123123, specCommit100_123123]
  decide

/-- The commitments of "124123" and "123123" differ: caller "124" fails the
ownership test against a record salted "123" and owned by "123". -/
theorem myHash_uB_ne_uA :
    myHash (uB.Id ++ saltTest) ≠ myHash (uA.Id ++ saltTest) := by
  rw [show uB.Id ++ saltTest = [49, 50, 52, 49, 50, 51] from rfl,
    show uA.Id ++ saltTest = [49, 50, 51, 49, 50, 51] from rfl, myHash_123123, myHash_124123]
  decide

/-- C1 (counterexample): the claim "for any raw identity B with B ≠ A the
recomputation does not match, and updates by B fail" is false: the
commitments are 40-character hex strings, a finite set, while raw identities
are unbounded, so by pigeonhole some record creator A has a distinct raw
identity B whose recomputation matches the stored commitment — and B's
UpdateGeoCache on A's record then succeeds instead of failing. -/
theorem C1_counterexample_collision :
    ∃ A B : Str, A ≠ B ∧ myHash (B ++ saltTest) = myHash (A ++ saltTest) ∧
      (UpdateGeoCache
        (CreateGeoCache emptyWorld { Id := A, Name := [], Salt := [] } kTest
          [] [] (5, 10) (5, 10) [] saltTest []).2
        { Id := B, Name := [], Salt := [] } kTest [] []).1 = .ok () := by
  obtain ⟨A, B, hne, heq⟩ := myHash_collision saltTest
  refine ⟨A, B, hne, heq.symm, ?_⟩
  have h1 : CreateGeoCache emptyWorld { Id := A, Name := [], Salt := [] } kTest
      [] [] (5, 10) (5, 10) [] saltTest [] =
      (.ok (), putStateW emptyWorld kTest (.geo
        { Id := [], Name := [], Description := [],
          XcoordRange := (5, 10), YcoordRange := (5, 10),
          Owner := { Id := myHash (A ++ saltTest), Name := [], Salt := saltTest },
          Reports := [], Visitors := [],
          Trackable := { Id := [], Value := [] } })) := by
    simp [CreateGeoCache, GeoCacheExists, getStateW, emptyWorld]
  rw [h1]
  simp [UpdateGeoCache, GeoCacheExists, getStateW, getStateBytes,
    unmarshalGeoCache, putStateW, emptyWorld, heq]

/-- C1 (amended): a record created by raw identity A stores the salt and the
commitment `myHash(A + salt)`, whose recomputation from A and the stored
salt matches; and every caller whose recomputed commitment differs from the
stored one — which `B ≠ A` alone does not guarantee, since the stretched
hash has collisions — is rejected by UpdateGeoCache, UpdateCoordGeoCache,
DeleteGeoCache and GetReports with the not-owner errors and no state
change. -/
theorem C1_ownership_gate (w : World) (u : User) (key nm ds tv salt tid : Str)
    (xr yr : Int × Int) (hex : GeoCacheExists w key = .ok false) :
    ∃ g : GeoCache,
      (CreateGeoCache w u key nm ds xr yr tv salt tid).2.state key = some (.geo g) ∧
      g.Owner.Salt = salt ∧
      g.Owner.Id = myHash (u.Id ++ salt) ∧
      myHash (u.Id ++ g.Owner.Salt) = g.Owner.Id ∧
      (∀ B : User, myHash (B.Id ++ g.Owner.Salt) ≠ g.Owner.Id →
        ∀ nm2 ds2 xr2 yr2,
          UpdateGeoCache (CreateGeoCache w u key nm ds xr yr tv salt tid).2 B key nm2 ds2 =
            (.error .onlyOwnerUpdate, (CreateGeoCache w u key nm ds xr yr tv salt tid).2) ∧
          UpdateCoordGeoCache (CreateGeoCache w u key nm ds xr yr tv salt tid).2 B key xr2 yr2 =
            (.error .onlyOwnerUpdate, (CreateGeoCache w u key nm ds xr yr tv salt tid).2) ∧
          DeleteGeoCache (CreateGeoCache w u key nm ds xr yr tv salt tid).2 B key =
            (.error .onlyOwnerUpdate, (CreateGeoCache w u key nm ds xr yr tv salt tid).2) ∧
          GetReports (CreateGeoCache w u key nm ds xr yr tv salt tid).2 B key =
            .error .onlyOwnerGetReports) := by
  have hre : w.readErr key = false := geoCacheExists_ok_readErr w key false hex
  have h1 : CreateGeoCache w u key nm ds xr yr tv salt tid =
      (.ok (), putStateW w key (.geo
        { Id := [], Name := nm, Description := ds,
          XcoordRange := xr, YcoordRange := yr,
          Owner := { Id := myHash (u.Id ++ salt), Name := u.Name, Salt := salt },
          Reports := [], Visitors := [],
          Trackable := { Id := tid, Value := tv } })) := by
    simp [CreateGeoCache, hex]
  refine ⟨{ Id := [], Name := nm, Description := ds,
            XcoordRange := xr, YcoordRange := yr,
            Owner := { Id := myHash (u.Id ++ salt), Name := u.Name, Salt := salt },
            Reports := [], Visitors := [],
            Trackable := { Id := tid, Value := tv } },
    by rw [h1]; simp [putStateW], rfl, rfl, rfl, ?_⟩
  intro B hB nm2 ds2 xr2 yr2
  have hBs : myHash (u.Id ++ salt) ≠ myHash (B.Id ++ salt) := fun h => hB h.symm
  rw [h1]
  refine ⟨?_, ?_, ?_, ?_⟩ <;>
    simp [UpdateGeoCache, UpdateCoordGeoCache, DeleteGeoCache, GetReports,
      GeoCacheExists, getStateW, getStateBytes, unmarshalGeoCache, putStateW,
      hre, hBs]

/-- Witness for C1: creator "123" with salt "123" matches; caller "124" has
a different commitment and its update is rejected with the not-owner
error. -/
theorem C1_ownership_gate_witness :
    (GeoCacheExists emptyWorld kTest = .ok false) ∧
    (∃ g : GeoCache,
      (CreateGeoCache emptyWorld uA kTest [] [] (5, 10) (5, 10) [] saltTest []).2.state kTest =
        some (.geo g) ∧
      g.Owner.Salt = saltTest ∧
      g.Owner.Id = myHash (uA.Id ++ saltTest) ∧
      myHash (uA.Id ++ g.Owner.Salt) = g.Owner.Id) ∧
    (UpdateGeoCache
      (CreateGeoCache emptyWorld uA kTest [] [] (5, 10) (5, 10) [] saltTest []).2
      uB kTest [] []).1 = .error .onlyOwnerUpdate := by
  have h := C1_ownership_gate emptyWorld uA kTest [] [] [] saltTest [] (5, 10) (5, 10) rfl
  obtain ⟨g, hst, hsalt, hid, hmatch, hgate⟩ := h
  have hB : myHash (uB.Id ++ g.Owner.Salt) ≠ g.Owner.Id := by
    rw [hsalt, hid]
    exact fun hcon => myHash_uB_ne_uA hcon
  have hrej := (hgate uB hB [] [] (0, 0) (0, 0)).1
  exact ⟨rfl, ⟨g, hst, hsalt, hid, hmatch⟩, by rw [hrej]⟩

/-- Running a sequence of reports appends exactly their images, preserves
the read-error map, and touches no other key. -/
theorem applyReports_run (k : Str) : ∀ (subs : List (User × Str × Str)) (w : World)
    (g : GeoCache), w.readErr k = false → w.state k = some (.geo g) →
    ((applyReports k w subs).state k =
       some (.geo { g with Reports := g.Reports ++ subs.map mkReport }) ∧
     (applyReports k w subs).readErr = w.readErr ∧
     (∀ q, q ≠ k → (applyReports k w subs).state q = w.state q))
  | [], w, g, hre, hs => by
      refine ⟨?_, rfl, fun q hq => rfl⟩
      simpa [applyReports] using hs
  | (u, msg, rid) :: rest, w, g, hre, hs => by
      have hR : ReportGeoCache w u msg k rid =
          (.ok (), putStateW w k (.geo
            { g with Reports := g.Reports ++ [mkReport (u, msg, rid)] })) := by
        simp [ReportGeoCache, GeoCacheExists, getStateW, getStateBytes,
          unmarshalGeoCache, hre, hs, mkReport]
      have ih := applyReports_run k rest
        (putStateW w k (.geo { g with Reports := g.Reports ++ [mkReport (u, msg, rid)] }))
        { g with Reports := g.Reports ++ [mkReport (u, msg, rid)] }
        (by simpa [putStateW] using hre) (by simp [putStateW])
      refine ⟨?_, ?_, ?_⟩
      · show (applyReports k (ReportGeoCache w u msg k rid).2 rest).state k = _
        rw [hR, ih.1]
        simp
      · show (applyReports k (ReportGeoCache w u msg k rid).2 rest).readErr = _
        rw [hR, ih.2.1]
        rfl
      · intro q hq
        show (applyReports k (ReportGeoCache w u msg k rid).2 rest).state q = _
        rw [hR, ih.2.2 q hq]
        simp [putStateW, hq]

/-- C7: starting from an existing record with no reports, after n successful
ReportGeoCache calls the stored Reports sequence has exactly n entries in
submission order, each carrying the submitted message and reporter; every
such call succeeds; GetReports by the owner returns exactly that sequence;
and GetReports by any caller failing the ownership test ("non-owner") fails
with the not-owner error regardless of how many reports exist. -/
theorem C7_reports_additive (w : World) (k : Str) (g : GeoCache)
    (hre : w.readErr k = false) (hs : w.state k = some (.geo g))
    (h0 : g.Reports = []) (subs : List (User × Str × Str)) :
    ((applyReports k w subs).state k =
       some (.geo { g with Reports := subs.map mkReport }) ∧
     (subs.map mkReport).length = subs.length) ∧
    (∀ pre u msg rid post, subs = pre ++ (u, msg, rid) :: post →
      (ReportGeoCache (applyReports k w pre) u msg k rid).1 = .ok ()) ∧
    (∀ uo : User, myHash (uo.Id ++ g.Owner.Salt) = g.Owner.Id →
      GetReports (applyReports k w subs) uo k = .ok (subs.map mkReport)) ∧
    (∀ ub : User, myHash (ub.Id ++ g.Owner.Salt) ≠ g.Owner.Id →
      GetReports (applyReports k w subs) ub k = .error .onlyOwnerGetReports) := by
  have hrun := applyReports_run k subs w g hre hs
  have hstate : (applyReports k w subs).state k =
      some (.geo { g with Reports := subs.map mkReport }) := by
    rw [hrun.1, h0]
    simp
  have hreadErr : (applyReports k w subs).readErr k = false := by
    rw [congrFun hrun.2.1 k]
    exact hre
  refine ⟨⟨hstate, by simp⟩, ?_, ?_, ?_⟩
  · intro pre u msg rid post hsubs
    have hpre := applyReports_run k pre w g hre hs
    have hpe : (applyReports k w pre).readErr k = false := by
      rw [congrFun hpre.2.1 k]
      exact hre
    simp [ReportGeoCache, GeoCacheExists, getStateW, getStateBytes,
      unmarshalGeoCache, hpe, hpre.1]
  · intro uo ho
    simp [GetReports, GeoCacheExists, getStateW, getStateBytes,
      unmarshalGeoCache, hreadErr, hstate, ho]
  · intro ub hb
    have hbs : g.Owner.Id ≠ myHash (ub.Id ++ g.Owner.Salt) := fun hcon => hb hcon.symm
    simp [GetReports, GeoCacheExists, getStateW, getStateBytes,
      unmarshalGeoCache, hreadErr, hstate, hbs]

/-- Witness for C7: one report by "124" on the test record; the owner "123"
reads it back, "124" is rejected. -/
theorem C7_reports_additive_witness :
    (wTest.readErr kTest = false ∧ wTest.state kTest = some (.geo gTest) ∧
     gTest.Reports = []) ∧
    ((applyReports kTest wTest [(uB, [109], [114])]).state kTest =
       some (.geo { gTest with Reports := [mkReport (uB, [109], [114])] }) ∧
     GetReports (applyReports kTest wTest [(uB, [109], [114])]) uA kTest =
       .ok [mkReport (uB, [109], [114])] ∧
     GetReports (applyReports kTest wTest [(uB, [109], [114])]) uB kTest =
       .error .onlyOwnerGetReports) := by
  have h := C7_reports_additive wTest kTest gTest rfl rfl rfl [(uB, [109], [114])]
  have hB : myHash (uB.Id ++ gTest.Owner.Salt) ≠ gTest.Owner.Id := by
    rw [show gTest.Owner.Salt = saltTest from rfl,
      show gTest.Owner.Id = commitTest from rfl,
      show commitTest = myHash (uA.Id ++ saltTest) from rfl]
    exact myHash_uB_ne_uA
  exact ⟨⟨rfl, rfl, rfl⟩, h.1.1, h.2.2.1 uA gTest_owner_match, h.2.2.2 uB hB⟩
